import Mathlib

/-!
# ec2config: configuration record of an ephemeral EC2 test cluster

A shallow embedding of `ec2config/config.go`: the `Config` record, the default
template, the environment overlay (`UpdateFromEnvs`) and the validate-and-default
pass (`ValidateAndSetDefaults`), followed by theorems about them.

Go strings are Lean `String`s, `int`/`int64`/`time.Duration` are `Int`, slices are
lists, and a map is `Option` of an association list (`none` is the nil map).
-/

namespace ec2config

/-! ## String helpers (Go `strings` package) -/

/-- Go `strings.Split(s, sep)` for a one-character separator, on characters:
as many pieces as there are separators, plus one. -/
def splitChars (sep : Char) : List Char → List (List Char)
  | [] => [[]]
  | c :: cs =>
    if c = sep then [] :: splitChars sep cs
    else
      match splitChars sep cs with
      | [] => [[c]]
      | h :: t => (c :: h) :: t

/-- Go `strings.Split(s, sep)` for a one-character separator. -/
def Split (s : String) (sep : Char) : List String :=
  (splitChars sep s.data).map String.mk

/-- Worker of `Replace`: `skip` counts the characters of a matched occurrence that
are still to be dropped. -/
def replaceChars (old new : List Char) : Nat → List Char → List Char
  | _, [] => []
  | skip + 1, _ :: cs => replaceChars old new skip cs
  | 0, c :: cs =>
    if old.isPrefixOf (c :: cs) then new ++ replaceChars old new (old.length - 1) cs
    else c :: replaceChars old new 0 cs

/-- Go `strings.Replace(s, old, new, -1)` for a non-empty `old`: every
non-overlapping occurrence of `old`, left to right, becomes `new`. -/
def Replace (s old new : String) : String :=
  String.mk (replaceChars old.data new.data 0 s.data)

/-- Go `strings.ToUpper` on one ASCII character. -/
def upperChar (c : Char) : Char :=
  if 97 ≤ c.toNat ∧ c.toNat ≤ 122 then Char.ofNat (c.toNat - 32) else c

/-- Go `strings.ToUpper`; the strings it is applied to here are the ASCII `json`
tags of `Config`. -/
def ToUpper (s : String) : String :=
  String.mk (s.data.map upperChar)

/-- The text `needle` occurs inside `hay`. -/
def Contains (hay needle : String) : Prop :=
  needle.data <:+: hay.data

instance (hay needle : String) : Decidable (Contains hay needle) := by
  unfold Contains; infer_instance

/-! ## Data model -/

/-- Go `time.Time`, as nanoseconds since the zero time (January 1 of year 1, UTC),
so that the zero value of the type is `⟨0⟩`. -/
structure Time where
  nanos : Int
  deriving DecidableEq, Repr

/-- EC2 placement. -/
structure Placement where
  AvailabilityZone : String
  Tenancy : String
  deriving DecidableEq, Repr

/-- EC2 state. -/
structure State where
  Code : Int
  Name : String
  deriving DecidableEq, Repr

/-- An EBS volume. -/
structure EBS where
  DeleteOnTermination : Bool
  Status : String
  VolumeID : String
  deriving DecidableEq, Repr

/-- A block device mapping. -/
structure BlockDeviceMapping where
  DeviceName : String
  EBS : EBS
  deriving DecidableEq, Repr

/-- A security group. -/
structure SecurityGroup where
  GroupName : String
  GroupID : String
  deriving DecidableEq, Repr

/-- An EC2 instance. -/
structure Instance where
  ImageID : String
  InstanceID : String
  InstanceType : String
  KeyName : String
  Placement : Placement
  PrivateDNSName : String
  PrivateIP : String
  PublicDNSName : String
  PublicIP : String
  State : State
  SubnetID : String
  VPCID : String
  BlockDeviceMappings : List BlockDeviceMapping
  EBSOptimized : Bool
  RootDeviceName : String
  RootDeviceType : String
  SecurityGroups : List SecurityGroup
  LaunchTime : Time
  deriving DecidableEq, Repr

/-- A Go `map[string]V`: `none` is the nil map, `some kvs` holds the entries in
insertion order, each key once. -/
abbrev GoMap (V : Type) := Option (List (String × V))

/-- The EC2 configuration record (`type Config struct`), fields in declaration order. -/
structure Config where
  EnvPrefix : String
  AWSAccountID : String
  AWSRegion : String
  LogDebug : Bool
  LogOutputs : List String
  LogOutputToUploadPath : String
  LogOutputToUploadPathBucket : String
  LogOutputToUploadPathURL : String
  UploadTesterLogs : Bool
  UploadBucketExpireDays : Int
  Tag : String
  ClusterName : String
  WaitBeforeDown : Int
  Down : Bool
  ConfigPath : String
  ConfigPathBucket : String
  ConfigPathURL : String
  UpdatedAt : Time
  ImageID : String
  UserName : String
  Plugins : List String
  InitScript : String
  InitScriptCreated : Bool
  InstanceType : String
  ClusterSize : Int
  KeyName : String
  KeyPath : String
  KeyPathBucket : String
  KeyPathURL : String
  KeyCreateSkip : Bool
  KeyCreated : Bool
  VPCCIDR : String
  VPCID : String
  VPCCreated : Bool
  InternetGatewayID : String
  RouteTableIDs : List String
  SubnetIDs : List String
  SubnetIDToAvailabilityZone : GoMap String
  IngressRulesTCP : GoMap String
  SecurityGroupIDs : List String
  AssociatePublicIPAddress : Bool
  Instances : GoMap Instance
  Wait : Bool
  InstanceProfileName : String
  CustomScript : String
  deriving DecidableEq, Repr

/-! ## Reflection over `Config` -/

/-- The fields of `Config`, as `reflect` enumerates them. -/
inductive FieldId where
  | EnvPrefix | AWSAccountID | AWSRegion | LogDebug | LogOutputs
  | LogOutputToUploadPath | LogOutputToUploadPathBucket | LogOutputToUploadPathURL
  | UploadTesterLogs | UploadBucketExpireDays | Tag | ClusterName | WaitBeforeDown
  | Down | ConfigPath | ConfigPathBucket | ConfigPathURL | UpdatedAt | ImageID
  | UserName | Plugins | InitScript | InitScriptCreated | InstanceType | ClusterSize
  | KeyName | KeyPath | KeyPathBucket | KeyPathURL | KeyCreateSkip | KeyCreated
  | VPCCIDR | VPCID | VPCCreated | InternetGatewayID | RouteTableIDs | SubnetIDs
  | SubnetIDToAvailabilityZone | IngressRulesTCP | SecurityGroupIDs
  | AssociatePublicIPAddress | Instances | Wait | InstanceProfileName | CustomScript
  deriving DecidableEq, Repr

/-- The fields in declaration order: `tp.Field(0)`, ..., `tp.Field(tp.NumField()-1)`. -/
def allFields : List FieldId :=
  [.EnvPrefix, .AWSAccountID, .AWSRegion, .LogDebug, .LogOutputs,
   .LogOutputToUploadPath, .LogOutputToUploadPathBucket, .LogOutputToUploadPathURL,
   .UploadTesterLogs, .UploadBucketExpireDays, .Tag, .ClusterName, .WaitBeforeDown,
   .Down, .ConfigPath, .ConfigPathBucket, .ConfigPathURL, .UpdatedAt, .ImageID,
   .UserName, .Plugins, .InitScript, .InitScriptCreated, .InstanceType, .ClusterSize,
   .KeyName, .KeyPath, .KeyPathBucket, .KeyPathURL, .KeyCreateSkip, .KeyCreated,
   .VPCCIDR, .VPCID, .VPCCreated, .InternetGatewayID, .RouteTableIDs, .SubnetIDs,
   .SubnetIDToAvailabilityZone, .IngressRulesTCP, .SecurityGroupIDs,
   .AssociatePublicIPAddress, .Instances, .Wait, .InstanceProfileName, .CustomScript]

/-- Go `reflect.Kind` of the field types that occur in `Config`. -/
inductive Kind where
  | string | bool | int | int64 | slice | map | struct
  deriving DecidableEq, Repr

/-- Go `tp.Field(i).Name`. -/
def FieldId.name : FieldId → String
  | .EnvPrefix => "EnvPrefix"
  | .AWSAccountID => "AWSAccountID"
  | .AWSRegion => "AWSRegion"
  | .LogDebug => "LogDebug"
  | .LogOutputs => "LogOutputs"
  | .LogOutputToUploadPath => "LogOutputToUploadPath"
  | .LogOutputToUploadPathBucket => "LogOutputToUploadPathBucket"
  | .LogOutputToUploadPathURL => "LogOutputToUploadPathURL"
  | .UploadTesterLogs => "UploadTesterLogs"
  | .UploadBucketExpireDays => "UploadBucketExpireDays"
  | .Tag => "Tag"
  | .ClusterName => "ClusterName"
  | .WaitBeforeDown => "WaitBeforeDown"
  | .Down => "Down"
  | .ConfigPath => "ConfigPath"
  | .ConfigPathBucket => "ConfigPathBucket"
  | .ConfigPathURL => "ConfigPathURL"
  | .UpdatedAt => "UpdatedAt"
  | .ImageID => "ImageID"
  | .UserName => "UserName"
  | .Plugins => "Plugins"
  | .InitScript => "InitScript"
  | .InitScriptCreated => "InitScriptCreated"
  | .InstanceType => "InstanceType"
  | .ClusterSize => "ClusterSize"
  | .KeyName => "KeyName"
  | .KeyPath => "KeyPath"
  | .KeyPathBucket => "KeyPathBucket"
  | .KeyPathURL => "KeyPathURL"
  | .KeyCreateSkip => "KeyCreateSkip"
  | .KeyCreated => "KeyCreated"
  | .VPCCIDR => "VPCCIDR"
  | .VPCID => "VPCID"
  | .VPCCreated => "VPCCreated"
  | .InternetGatewayID => "InternetGatewayID"
  | .RouteTableIDs => "RouteTableIDs"
  | .SubnetIDs => "SubnetIDs"
  | .SubnetIDToAvailabilityZone => "SubnetIDToAvailabilityZone"
  | .IngressRulesTCP => "IngressRulesTCP"
  | .SecurityGroupIDs => "SecurityGroupIDs"
  | .AssociatePublicIPAddress => "AssociatePublicIPAddress"
  | .Instances => "Instances"
  | .Wait => "Wait"
  | .InstanceProfileName => "InstanceProfileName"
  | .CustomScript => "CustomScript"

/-- Go `tp.Field(i).Tag.Get("json")`: the external key name, empty when the field
declares none. -/
def FieldId.tag : FieldId → String
  | .EnvPrefix => ""
  | .AWSAccountID => "aws-account-id"
  | .AWSRegion => "aws-region"
  | .LogDebug => "log-debug"
  | .LogOutputs => "log-outputs"
  | .LogOutputToUploadPath => "log-output-to-upload-path"
  | .LogOutputToUploadPathBucket => "log-output-to-upload-path-bucket"
  | .LogOutputToUploadPathURL => "log-output-to-upload-path-url"
  | .UploadTesterLogs => "upload-tester-logs"
  | .UploadBucketExpireDays => "upload-bucket-expire-days"
  | .Tag => "tag"
  | .ClusterName => "cluster-name"
  | .WaitBeforeDown => "wait-before-down"
  | .Down => "down"
  | .ConfigPath => "config-path"
  | .ConfigPathBucket => "config-path-bucket"
  | .ConfigPathURL => "config-path-url"
  | .UpdatedAt => "updated-at"
  | .ImageID => "image-id"
  | .UserName => "user-name"
  | .Plugins => "plugins"
  | .InitScript => "init-script"
  | .InitScriptCreated => "init-script-created"
  | .InstanceType => "instance-type"
  | .ClusterSize => "cluster-size"
  | .KeyName => "key-name"
  | .KeyPath => "key-path"
  | .KeyPathBucket => "key-path-bucket"
  | .KeyPathURL => "key-path-url"
  | .KeyCreateSkip => "key-create-skip"
  | .KeyCreated => "key-created"
  | .VPCCIDR => "vpc-cidr"
  | .VPCID => "vpc-id"
  | .VPCCreated => "vpc-created"
  | .InternetGatewayID => "internet-gateway-id"
  | .RouteTableIDs => "route-table-ids"
  | .SubnetIDs => "subnet-ids"
  | .SubnetIDToAvailabilityZone => "subnet-id-to-availability-zone"
  | .IngressRulesTCP => "ingress-rules-tcp"
  | .SecurityGroupIDs => "security-group-ids"
  | .AssociatePublicIPAddress => "associate-public-ip-address"
  | .Instances => "instances"
  | .Wait => "wait"
  | .InstanceProfileName => "instance-profile-name"
  | .CustomScript => "custom-script"

/-- Go `vv.Field(i).Type().Kind()`. -/
def FieldId.kind : FieldId → Kind
  | .LogDebug | .UploadTesterLogs | .Down | .InitScriptCreated | .KeyCreateSkip
  | .KeyCreated | .VPCCreated | .AssociatePublicIPAddress | .Wait => .bool
  | .UploadBucketExpireDays | .ClusterSize => .int
  | .WaitBeforeDown => .int64
  | .LogOutputs | .Plugins | .RouteTableIDs | .SubnetIDs | .SecurityGroupIDs => .slice
  | .SubnetIDToAvailabilityZone | .IngressRulesTCP | .Instances => .map
  | .UpdatedAt => .struct
  | _ => .string

/-- Go `vv.Field(i).Type()` as the `%v` verb prints it. -/
def FieldId.typeName (f : FieldId) : String :=
  match f with
  | .WaitBeforeDown => "time.Duration"
  | .UpdatedAt => "time.Time"
  | .Instances => "map[string]ec2config.Instance"
  | _ =>
    match f.kind with
    | .string => "string"
    | .bool => "bool"
    | .int => "int"
    | .int64 => "int64"
    | .slice => "[]string"
    | .map => "map[string]string"
    | .struct => "struct"

/-- The value held by a field of `Config`. -/
inductive Value where
  | str (s : String)
  | bool (b : Bool)
  | int (i : Int)
  | strs (l : List String)
  | smap (m : GoMap String)
  | insts (m : GoMap Instance)
  | time (t : Time)
  deriving DecidableEq, Repr

/-- Go `vv.Field(i)` read as a value. -/
def get : FieldId → Config → Value
  | .EnvPrefix, c => .str c.EnvPrefix
  | .AWSAccountID, c => .str c.AWSAccountID
  | .AWSRegion, c => .str c.AWSRegion
  | .LogDebug, c => .bool c.LogDebug
  | .LogOutputs, c => .strs c.LogOutputs
  | .LogOutputToUploadPath, c => .str c.LogOutputToUploadPath
  | .LogOutputToUploadPathBucket, c => .str c.LogOutputToUploadPathBucket
  | .LogOutputToUploadPathURL, c => .str c.LogOutputToUploadPathURL
  | .UploadTesterLogs, c => .bool c.UploadTesterLogs
  | .UploadBucketExpireDays, c => .int c.UploadBucketExpireDays
  | .Tag, c => .str c.Tag
  | .ClusterName, c => .str c.ClusterName
  | .WaitBeforeDown, c => .int c.WaitBeforeDown
  | .Down, c => .bool c.Down
  | .ConfigPath, c => .str c.ConfigPath
  | .ConfigPathBucket, c => .str c.ConfigPathBucket
  | .ConfigPathURL, c => .str c.ConfigPathURL
  | .UpdatedAt, c => .time c.UpdatedAt
  | .ImageID, c => .str c.ImageID
  | .UserName, c => .str c.UserName
  | .Plugins, c => .strs c.Plugins
  | .InitScript, c => .str c.InitScript
  | .InitScriptCreated, c => .bool c.InitScriptCreated
  | .InstanceType, c => .str c.InstanceType
  | .ClusterSize, c => .int c.ClusterSize
  | .KeyName, c => .str c.KeyName
  | .KeyPath, c => .str c.KeyPath
  | .KeyPathBucket, c => .str c.KeyPathBucket
  | .KeyPathURL, c => .str c.KeyPathURL
  | .KeyCreateSkip, c => .bool c.KeyCreateSkip
  | .KeyCreated, c => .bool c.KeyCreated
  | .VPCCIDR, c => .str c.VPCCIDR
  | .VPCID, c => .str c.VPCID
  | .VPCCreated, c => .bool c.VPCCreated
  | .InternetGatewayID, c => .str c.InternetGatewayID
  | .RouteTableIDs, c => .strs c.RouteTableIDs
  | .SubnetIDs, c => .strs c.SubnetIDs
  | .SubnetIDToAvailabilityZone, c => .smap c.SubnetIDToAvailabilityZone
  | .IngressRulesTCP, c => .smap c.IngressRulesTCP
  | .SecurityGroupIDs, c => .strs c.SecurityGroupIDs
  | .AssociatePublicIPAddress, c => .bool c.AssociatePublicIPAddress
  | .Instances, c => .insts c.Instances
  | .Wait, c => .bool c.Wait
  | .InstanceProfileName, c => .str c.InstanceProfileName
  | .CustomScript, c => .str c.CustomScript

/-- Go `vv.Field(i).SetString(s)`: assigns a string field. -/
def setString : FieldId → String → Config → Config
  | .AWSAccountID, v, c => { c with AWSAccountID := v }
  | .AWSRegion, v, c => { c with AWSRegion := v }
  | .LogOutputToUploadPath, v, c => { c with LogOutputToUploadPath := v }
  | .LogOutputToUploadPathBucket, v, c => { c with LogOutputToUploadPathBucket := v }
  | .LogOutputToUploadPathURL, v, c => { c with LogOutputToUploadPathURL := v }
  | .Tag, v, c => { c with Tag := v }
  | .ClusterName, v, c => { c with ClusterName := v }
  | .ConfigPath, v, c => { c with ConfigPath := v }
  | .ConfigPathBucket, v, c => { c with ConfigPathBucket := v }
  | .ConfigPathURL, v, c => { c with ConfigPathURL := v }
  | .ImageID, v, c => { c with ImageID := v }
  | .UserName, v, c => { c with UserName := v }
  | .InitScript, v, c => { c with InitScript := v }
  | .InstanceType, v, c => { c with InstanceType := v }
  | .KeyName, v, c => { c with KeyName := v }
  | .KeyPath, v, c => { c with KeyPath := v }
  | .KeyPathBucket, v, c => { c with KeyPathBucket := v }
  | .KeyPathURL, v, c => { c with KeyPathURL := v }
  | .VPCCIDR, v, c => { c with VPCCIDR := v }
  | .VPCID, v, c => { c with VPCID := v }
  | .InternetGatewayID, v, c => { c with InternetGatewayID := v }
  | .InstanceProfileName, v, c => { c with InstanceProfileName := v }
  | .CustomScript, v, c => { c with CustomScript := v }
  | .EnvPrefix, v, c => { c with EnvPrefix := v }
  | _, _, c => c

/-- Go `vv.Field(i).SetBool(b)`: assigns a boolean field. -/
def setBool : FieldId → Bool → Config → Config
  | .LogDebug, v, c => { c with LogDebug := v }
  | .UploadTesterLogs, v, c => { c with UploadTesterLogs := v }
  | .Down, v, c => { c with Down := v }
  | .InitScriptCreated, v, c => { c with InitScriptCreated := v }
  | .KeyCreateSkip, v, c => { c with KeyCreateSkip := v }
  | .KeyCreated, v, c => { c with KeyCreated := v }
  | .VPCCreated, v, c => { c with VPCCreated := v }
  | .AssociatePublicIPAddress, v, c => { c with AssociatePublicIPAddress := v }
  | .Wait, v, c => { c with Wait := v }
  | _, _, c => c

/-- Go `vv.Field(i).SetInt(i)`: assigns an integer field. -/
def setInt : FieldId → Int → Config → Config
  | .UploadBucketExpireDays, v, c => { c with UploadBucketExpireDays := v }
  | .ClusterSize, v, c => { c with ClusterSize := v }
  | .WaitBeforeDown, v, c => { c with WaitBeforeDown := v }
  | _, _, c => c

/-- Go `vv.Field(i).Set(slice)` for a `[]string` field. -/
def setStrings : FieldId → List String → Config → Config
  | .LogOutputs, v, c => { c with LogOutputs := v }
  | .Plugins, v, c => { c with Plugins := v }
  | .RouteTableIDs, v, c => { c with RouteTableIDs := v }
  | .SubnetIDs, v, c => { c with SubnetIDs := v }
  | .SecurityGroupIDs, v, c => { c with SecurityGroupIDs := v }
  | _, _, c => c

/-- Go `vv.Field(i).Set(m)` for a `map[string]string` field. -/
def setMap : FieldId → GoMap String → Config → Config
  | .SubnetIDToAvailabilityZone, v, c => { c with SubnetIDToAvailabilityZone := v }
  | .IngressRulesTCP, v, c => { c with IngressRulesTCP := v }
  | _, _, c => c

/-! ## Default template -/

/-- The constant `envPfx`. -/
def envPfx : String := "AWS_K8S_TESTER_EC2_"

/-- The package variable `defaultConfig`, as a value; fields the literal omits
hold the zero value of their type. -/
def defaultConfig : Config :=
  { EnvPrefix := envPfx
    AWSAccountID := ""
    AWSRegion := "us-west-2"
    LogDebug := false
    LogOutputs := ["stderr"]
    LogOutputToUploadPath := ""
    LogOutputToUploadPathBucket := ""
    LogOutputToUploadPathURL := ""
    UploadTesterLogs := false
    UploadBucketExpireDays := 2
    Tag := ""
    ClusterName := ""
    WaitBeforeDown := 60000000000
    Down := true
    ConfigPath := ""
    ConfigPathBucket := ""
    ConfigPathURL := ""
    UpdatedAt := ⟨0⟩
    ImageID := "ami-032509850cf9ee54e"
    UserName := "ec2-user"
    Plugins := ["update-amazon-linux-2", "install-start-docker-amazon-linux-2"]
    InitScript := ""
    InitScriptCreated := false
    InstanceType := "m5.large"
    ClusterSize := 1
    KeyName := ""
    KeyPath := ""
    KeyPathBucket := ""
    KeyPathURL := ""
    KeyCreateSkip := false
    KeyCreated := false
    VPCCIDR := "192.168.0.0/16"
    VPCID := ""
    VPCCreated := false
    InternetGatewayID := ""
    RouteTableIDs := []
    SubnetIDs := []
    SubnetIDToAvailabilityZone := none
    IngressRulesTCP := some [("22", "0.0.0.0/0")]
    SecurityGroupIDs := []
    AssociatePublicIPAddress := true
    Instances := none
    Wait := true
    InstanceProfileName := ""
    CustomScript := "" }

/-! ## Standard-library functions the overlay calls -/

/-- What the embedding takes from the Go standard library as given: the Unicode
table behind `unicode.IsPrint` for non-ASCII runes, and `time.ParseDuration`
(its result in nanoseconds, or the text of its error). -/
structure Std where
  IsPrint : Char → Bool
  ParseDuration : String → Except String Int

/-- Go `lowerhex[n]`. -/
def hexDigit (n : Nat) : Char :=
  ['0', '1', '2', '3', '4', '5', '6', '7', '8', '9', 'a', 'b', 'c', 'd', 'e', 'f'].getD n '0'

/-- Go `strconv.IsPrint`: ASCII is printable from space to tilde, other runes by
the Unicode table. -/
def isPrintRune (std : Std) (c : Char) : Bool :=
  if c.toNat < 128 then decide (32 ≤ c.toNat ∧ c.toNat < 127) else std.IsPrint c

/-- Go `strconv.appendEscapedRune` with a double quote as the quote character. -/
def escapeRune (std : Std) (c : Char) : List Char :=
  if c = '"' ∨ c = '\\' then ['\\', c]
  else if isPrintRune std c then [c]
  else if c.toNat = 7 then ['\\', 'a']
  else if c.toNat = 8 then ['\\', 'b']
  else if c.toNat = 12 then ['\\', 'f']
  else if c.toNat = 10 then ['\\', 'n']
  else if c.toNat = 13 then ['\\', 'r']
  else if c.toNat = 9 then ['\\', 't']
  else if c.toNat = 11 then ['\\', 'v']
  else if c.toNat < 32 ∨ c.toNat = 127 then
    ['\\', 'x', hexDigit (c.toNat / 16), hexDigit (c.toNat % 16)]
  else if c.toNat < 65536 then
    ['\\', 'u', hexDigit (c.toNat / 4096 % 16), hexDigit (c.toNat / 256 % 16),
      hexDigit (c.toNat / 16 % 16), hexDigit (c.toNat % 16)]
  else
    ['\\', 'U', hexDigit (c.toNat / 268435456 % 16), hexDigit (c.toNat / 16777216 % 16),
      hexDigit (c.toNat / 1048576 % 16), hexDigit (c.toNat / 65536 % 16),
      hexDigit (c.toNat / 4096 % 16), hexDigit (c.toNat / 256 % 16),
      hexDigit (c.toNat / 16 % 16), hexDigit (c.toNat % 16)]

/-- Go `strconv.Quote`, which is also what the `%q` verb of `fmt` prints for a
string: the text between double quotes, with Go escapes. -/
def Quote (std : Std) (s : String) : String :=
  String.mk ('"' :: ((s.data.map (escapeRune std)).flatten ++ ['"']))

/-- Go `strconv.NumError.Error()` with `ErrSyntax`. -/
def syntaxError (std : Std) (fn str : String) : String :=
  "strconv." ++ fn ++ ": parsing " ++ Quote std str ++ ": invalid syntax"

/-- Go `strconv.NumError.Error()` with `ErrRange`. -/
def rangeError (std : Std) (fn str : String) : String :=
  "strconv." ++ fn ++ ": parsing " ++ Quote std str ++ ": value out of range"

/-- Go `strconv.ParseBool`. -/
def ParseBool (std : Std) (str : String) : Except String Bool :=
  if str = "1" ∨ str = "t" ∨ str = "T" ∨ str = "TRUE" ∨ str = "true" ∨ str = "True" then
    .ok true
  else if str = "0" ∨ str = "f" ∨ str = "F" ∨ str = "FALSE" ∨ str = "false"
      ∨ str = "False" then
    .ok false
  else .error (syntaxError std "ParseBool" str)

/-- The outcome of the digit loop of `strconv.ParseUint`. -/
inductive UintResult where
  | val (n : Nat)
  | badSyntax
  | outOfRange
  deriving DecidableEq, Repr

/-- The digit loop of Go `strconv.ParseUint(s, 10, 64)`: a character that is not a
decimal digit is a syntax error, a value past `2^64 - 1` a range error, whichever
comes first. -/
def parseUintLoop : List Char → Nat → UintResult
  | [], n => .val n
  | c :: cs, n =>
    if 48 ≤ c.toNat ∧ c.toNat ≤ 57 then
      if n ≥ (2 ^ 64 - 1) / 10 + 1 then .outOfRange
      else if n * 10 + (c.toNat - 48) > 2 ^ 64 - 1 then .outOfRange
      else parseUintLoop cs (n * 10 + (c.toNat - 48))
    else .badSyntax

/-- Go `strconv.ParseUint(s, 10, 64)`. -/
def parseUint (s : List Char) : UintResult :=
  if s = [] then .badSyntax else parseUintLoop s 0

/-- Go `strconv.ParseInt(s, 10, 64)`. -/
def ParseInt (std : Std) (s : String) : Except String Int :=
  if s = "" then .error (syntaxError std "ParseInt" s)
  else
    let neg : Bool := s.data.head? = some '-'
    let digits : List Char :=
      if s.data.head? = some '+' ∨ s.data.head? = some '-' then s.data.tail else s.data
    match parseUint digits with
    | .badSyntax => .error (syntaxError std "ParseInt" s)
    | .outOfRange => .error (rangeError std "ParseInt" s)
    | .val un =>
      if !neg ∧ un ≥ 2 ^ 63 then .error (rangeError std "ParseInt" s)
      else if neg ∧ un > 2 ^ 63 then .error (rangeError std "ParseInt" s)
      else .ok (if neg then - (un : Int) else (un : Int))

/-! ## UpdateFromEnvs -/

/-- The process environment as `os.Getenv` reads it: an unset variable reads as
the empty string. -/
abbrev Env := String → String

/-- How a Go call ends: a result, a returned `error`, or a run-time panic. -/
inductive Outcome (α : Type) where
  | ok (a : α)
  | error (msg : String)
  | panic (msg : String)
  deriving DecidableEq, Repr

/-- Go `m[k] = v` (`reflect.Value.SetMapIndex`) on the entries of a map: an
existing key keeps its place and gets the new value, a new key goes last. -/
def mapSet (k v : String) : List (String × String) → List (String × String)
  | [] => [(k, v)]
  | (k0, v0) :: rest => if k0 = k then (k, v) :: rest else (k0, v0) :: mapSet k v rest

/-- The loop over `ss` in the `IngressRulesTCP` case: each element is split at
every `=`, and `fields[0]`, `fields[1]` go into the map; indexing `fields[1]` of
a one-element slice panics. -/
def ingressRules : List String → List (String × String) → Outcome (List (String × String))
  | [], m => .ok m
  | s :: ss, m =>
    match Split s '=' with
    | f0 :: f1 :: _ => ingressRules ss (mapSet f0 f1 m)
    | _ => .panic "runtime error: index out of range"

/-- The name of the environment variable of a field: lines 291-294. -/
def envVarName (pfx : String) (f : FieldId) : String :=
  let jv := Replace f.tag ",omitempty" ""
  let jv := Replace jv "-" "_"
  let jv := ToUpper (Replace jv "-" "_")
  pfx ++ jv

/-- Go `fmt.Errorf("failed to parse %q (%q, %v)", sv, env, err)`. -/
def parseFailure (std : Std) (sv env err : String) : String :=
  "failed to parse " ++ Quote std sv ++ " (" ++ Quote std env ++ ", " ++ err ++ ")"

/-- Go `fmt.Errorf("parsing field name %q not supported", fieldName)`. -/
def notSupportedField (std : Std) (fieldName : String) : String :=
  "parsing field name " ++ Quote std fieldName ++ " not supported"

/-- Go `fmt.Errorf("%q (%v) is not supported as an env", env, vv.Field(i).Type())`. -/
def notSupportedEnv (std : Std) (env typeName : String) : String :=
  Quote std env ++ " (" ++ typeName ++ ") is not supported as an env"

/-- One iteration of the loop of `UpdateFromEnvs` (lines 287-375) on the working
copy `cc`; `pfx` is `cfg.EnvPrefix`. The `Uint` and `Float` cases of the switch
are left out: no field of `Config` has such a kind. -/
def fieldStep (std : Std) (env : Env) (pfx : String) (f : FieldId) (cc : Config) :
    Outcome Config :=
  if f.tag = "" then .ok cc
  else if env (envVarName pfx f) = "" then .ok cc
  else
    let sv := env (envVarName pfx f)
    match f.kind with
    | .string => .ok (setString f sv cc)
    | .bool =>
      match ParseBool std sv with
      | .error err => .error (parseFailure std sv (envVarName pfx f) err)
      | .ok bb => .ok (setBool f bb cc)
    | .int | .int64 =>
      if f.name = "WaitBeforeDown" then
        match std.ParseDuration sv with
        | .error err => .error (parseFailure std sv (envVarName pfx f) err)
        | .ok dv => .ok (setInt f dv cc)
      else
        match ParseInt std sv with
        | .error err => .error (parseFailure std sv (envVarName pfx f) err)
        | .ok iv => .ok (setInt f iv cc)
    | .map =>
      if f.name = "IngressRulesTCP" then
        match ingressRules (Split sv ',') [] with
        | .ok m => .ok (setMap f (some m) cc)
        | .error e => .error e
        | .panic e => .panic e
      else .error (notSupportedField std f.name)
    | .slice =>
      if f.name = "Plugins" ∨ f.name = "SubnetIDs" ∨ f.name = "SecurityGroupIDs" then
        .ok (setStrings f (Split sv ',') cc)
      else .error (notSupportedField std f.name)
    | .struct => .error (notSupportedEnv std (envVarName pfx f) f.typeName)

/-- The `for` loop of `UpdateFromEnvs` over the fields `fs`, stopping at the first
error or panic. -/
def overlay (std : Std) (env : Env) (pfx : String) : List FieldId → Config → Outcome Config
  | [], cc => .ok cc
  | f :: fs, cc =>
    match fieldStep std env pfx f cc with
    | .ok cc1 => overlay std env pfx fs cc1
    | .error e => .error e
    | .panic e => .panic e

/-- How a call that works on the caller's record ends. -/
inductive Status where
  | ok
  | error (msg : String)
  | panic (msg : String)
  deriving DecidableEq, Repr

/-- `UpdateFromEnvs`: the caller's record after the call, and how the call ended.
The loop runs on the copy `cc := *cfg`; `*cfg = cc` is reached only when every
field went through. -/
def UpdateFromEnvs (std : Std) (env : Env) (cfg : Config) : Config × Status :=
  match overlay std env cfg.EnvPrefix allFields cfg with
  | .ok cc => (cc, .ok)
  | .error e => (cfg, .error e)
  | .panic e => (cfg, .panic e)

/-! ## The overlay loop as a list of per-field plans

Proof-side view of `overlay`: what an iteration does to the record is decided by
the environment alone. -/

/-- What one loop iteration decides, without the record: leave the field, or
assign it a value. -/
def plan (std : Std) (env : Env) (pfx : String) (f : FieldId) : Outcome (Option Value) :=
  if f.tag = "" then .ok none
  else if env (envVarName pfx f) = "" then .ok none
  else
    let sv := env (envVarName pfx f)
    match f.kind with
    | .string => .ok (some (.str sv))
    | .bool =>
      match ParseBool std sv with
      | .error err => .error (parseFailure std sv (envVarName pfx f) err)
      | .ok bb => .ok (some (.bool bb))
    | .int | .int64 =>
      if f.name = "WaitBeforeDown" then
        match std.ParseDuration sv with
        | .error err => .error (parseFailure std sv (envVarName pfx f) err)
        | .ok dv => .ok (some (.int dv))
      else
        match ParseInt std sv with
        | .error err => .error (parseFailure std sv (envVarName pfx f) err)
        | .ok iv => .ok (some (.int iv))
    | .map =>
      if f.name = "IngressRulesTCP" then
        match ingressRules (Split sv ',') [] with
        | .ok m => .ok (some (.smap (some m)))
        | .error e => .error e
        | .panic e => .panic e
      else .error (notSupportedField std f.name)
    | .slice =>
      if f.name = "Plugins" ∨ f.name = "SubnetIDs" ∨ f.name = "SecurityGroupIDs" then
        .ok (some (.strs (Split sv ',')))
      else .error (notSupportedField std f.name)
    | .struct => .error (notSupportedEnv std (envVarName pfx f) f.typeName)

/-- Assignment of a value to a field, by the setter of the value's type. -/
def assign (f : FieldId) (v : Value) (c : Config) : Config :=
  match v with
  | .str s => setString f s c
  | .bool b => setBool f b c
  | .int i => setInt f i c
  | .strs l => setStrings f l c
  | .smap m => setMap f m c
  | _ => c

/-- The record after a planned step. -/
def applyPlan (f : FieldId) (p : Option Value) (c : Config) : Config :=
  match p with
  | none => c
  | some v => assign f v c

/-- The loop goes through exactly when every field's plan is a result, and then it
applies the plans in order. -/
def applyPlans (std : Std) (env : Env) (pfx : String) : List FieldId → Config → Config
  | [], c => c
  | f :: fs, c =>
    match plan std env pfx f with
    | .ok p => applyPlans std env pfx fs (applyPlan f p c)
    | _ => applyPlans std env pfx fs c

/-- The value a field holds after its loop iteration, from the value before. -/
def newValue (std : Std) (env : Env) (pfx : String) (f : FieldId) (old : Value) : Value :=
  match plan std env pfx f with
  | .ok (some v) => v
  | _ => old

/-! ## Specification-side helpers and sample inputs -/

/-- The naming rule of the specification: hyphens become underscores and letters are
upper-cased. -/
def upperSnakeCase (k : String) : String :=
  String.mk (k.data.map (fun c => upperChar (if c = '-' then '_' else c)))

/-- A sample standard library: no non-ASCII rune is printable, and the duration
parser knows the literals `1m` and `90s` only. -/
def sampleStd : Std :=
  { IsPrint := fun _ => false
    ParseDuration := fun s =>
      if s = "1m" then .ok 60000000000
      else if s = "90s" then .ok 90000000000
      else .error ("time: invalid duration \"" ++ s ++ "\"") }

/-- A sample environment: four variables of the default prefix are set. -/
def sampleEnv : Env := fun k =>
  if k = "AWS_K8S_TESTER_EC2_CLUSTER_SIZE" then "3"
  else if k = "AWS_K8S_TESTER_EC2_LOG_DEBUG" then "true"
  else if k = "AWS_K8S_TESTER_EC2_INGRESS_RULES_TCP" then "22=0.0.0.0/0,80=10.0.0.0/8"
  else if k = "AWS_K8S_TESTER_EC2_PLUGINS" then "update-ubuntu,install-go"
  else ""

/-- The key of a `key=value` pair as the loop reads it: the text before the first `=`. -/
def pairKey (p : String) : String :=
  String.mk (p.data.takeWhile (fun c => decide (c ≠ '=')))

/-- The value of a `key=value` pair as the loop reads it: the text between the first
`=` and the second one, or the end of the pair when there is no second `=`. -/
def pairValue (p : String) : String :=
  String.mk (((p.data.dropWhile (fun c => decide (c ≠ '='))).drop 1).takeWhile
    (fun c => decide (c ≠ '=')))

/-- The table the ingress-rule variable describes: the pairs of the comma-separated
value, entered in order, a later pair replacing an earlier one with the same key. -/
def ingressTable (sv : String) : List (String × String) :=
  (Split sv ',').foldl (fun m p => mapSet (pairKey p) (pairValue p) m) []

/-- The fields declared before `f`. -/
def fieldsBefore (f : FieldId) : List FieldId :=
  allFields.takeWhile (fun g => decide (g ≠ f))

/-- The fields declared after `f`. -/
def fieldsAfter (f : FieldId) : List FieldId :=
  (allFields.dropWhile (fun g => decide (g ≠ f))).tail

/-- The error of the parser the overlay applies to a boolean, integer or duration
field, if the value does not parse. -/
def fieldParseError (std : Std) (f : FieldId) (sv : String) : Option String :=
  match f.kind with
  | .bool =>
    match ParseBool std sv with
    | .error e => some e
    | .ok _ => none
  | .int | .int64 =>
    if f.name = "WaitBeforeDown" then
      match std.ParseDuration sv with
      | .error e => some e
      | .ok _ => none
    else
      match ParseInt std sv with
      | .error e => some e
      | .ok _ => none
  | _ => none

/-- No character of `s` is changed by Go quoting. -/
def Plain (std : Std) (s : String) : Prop :=
  ∀ c ∈ s.data, escapeRune std c = [c]

/-- A sample environment: the ingress-rule variable holds one pair with two `=`. -/
def envTwoEquals : Env := fun k =>
  if k = "AWS_K8S_TESTER_EC2_INGRESS_RULES_TCP" then "22=a=b" else ""

/-- A sample environment: the ingress-rule variable holds a pair without `=`. -/
def envNoEquals : Env := fun k =>
  if k = "AWS_K8S_TESTER_EC2_INGRESS_RULES_TCP" then "22" else ""

/-- A sample environment: the ingress-rule variable ends in a comma. -/
def envTrailingComma : Env := fun k =>
  if k = "AWS_K8S_TESTER_EC2_INGRESS_RULES_TCP" then "22=0.0.0.0/0," else ""

/-- A sample environment: a boolean that does not parse, and a variable for the
unsupported slice field `LogOutputs`, which is declared right after it. -/
def envBoolThenLogOutputs : Env := fun k =>
  if k = "AWS_K8S_TESTER_EC2_LOG_DEBUG" then "maybe"
  else if k = "AWS_K8S_TESTER_EC2_LOG_OUTPUTS" then "stdout"
  else ""

/-- A sample environment: only the variable of `UpdatedAt` is set. -/
def envUpdatedAt : Env := fun k =>
  if k = "AWS_K8S_TESTER_EC2_UPDATED_AT" then "2019-01-01" else ""

/-- A sample environment: only the variable of `LogOutputs` is set. -/
def envLogOutputs : Env := fun k =>
  if k = "AWS_K8S_TESTER_EC2_LOG_OUTPUTS" then "stdout" else ""

/-- A sample environment: the variable of the unsupported field `LogOutputs`, and a
value for `Down` that is no boolean. -/
def envLogOutputsThenDown : Env := fun k =>
  if k = "AWS_K8S_TESTER_EC2_LOG_OUTPUTS" then "stdout"
  else if k = "AWS_K8S_TESTER_EC2_DOWN" then "maybe"
  else ""

/-- A sample environment: `LogDebug` gets a value with a double quote in it. -/
def envQuoteInBool : Env := fun k =>
  if k = "AWS_K8S_TESTER_EC2_LOG_DEBUG" then "a\"b" else ""

/-- A sample environment: `ClusterSize` gets a value that is no decimal number. -/
def envBadClusterSize : Env := fun k =>
  if k = "AWS_K8S_TESTER_EC2_CLUSTER_SIZE" then "three" else ""

/-- The error `UpdateFromEnvs` reports for an unsupported composite field. -/
def unsupportedError (std : Std) (pfx : String) (f : FieldId) : String :=
  if f = .UpdatedAt then
    Quote std (envVarName pfx f) ++ " (" ++ "time.Time" ++ ") is not supported as an env"
  else "parsing field name \"" ++ f.name ++ "\" not supported"

/-! ## File paths (Go `path/filepath`, Unix) -/

/-- One step of `filepath.Clean` over the elements of a path: `out` holds the
elements kept so far, the last one first. Empty elements and `.` are dropped, `..`
removes the element before it, or is kept when there is none to remove and the
path is not rooted. -/
def cleanStep (rooted : Bool) (out : List (List Char)) (elem : List Char) :
    List (List Char) :=
  if elem = [] ∨ elem = ['.'] then out
  else if elem = ['.', '.'] then
    match out with
    | [] => if rooted then [] else [elem]
    | top :: rest => if top = ['.', '.'] then elem :: out else rest
  else elem :: out

/-- Go `filepath.Clean` on characters. -/
def cleanChars (path : List Char) : List Char :=
  let rooted : Bool := path.head? = some '/'
  let out := (splitChars '/' path).foldl (cleanStep rooted) []
  let r := (if rooted then ['/'] else []) ++ List.intercalate ['/'] out.reverse
  if r = [] then ['.'] else r

/-- Go `filepath.Clean`: the shortest path name equivalent to `path` by purely
lexical processing; never empty. -/
def Clean (path : String) : String :=
  String.mk (cleanChars path.data)

/-- Go `filepath.IsAbs`. -/
def IsAbs (path : String) : Bool :=
  path.data.head? = some '/'

/-- Go `filepath.Join`: the elements from the first non-empty one on, joined by
slashes and cleaned; empty when every element is empty. -/
def Join : List String → String
  | [] => ""
  | e :: es =>
    if e = "" then Join es
    else Clean (String.mk (List.intercalate ['/'] ((e :: es).map String.data)))

/-! ## ValidateAndSetDefaults -/

/-- What a call of `ValidateAndSetDefaults` finds and leaves in place: the temporary
directory (`os.TempDir`), the working directory (`os.Getwd`, taken to succeed), the
script generator `plugins.Create` (its two results) and the keys of the catalog
`ec2types.InstanceTypes`. -/
structure Sys where
  tempDir : String
  cwd : String
  Create : String → String → List String → String × Option String
  InstanceTypes : List String

/-- A calendar date (UTC). -/
structure Date where
  year : Int
  month : Nat
  day : Nat
  deriving DecidableEq, Repr

/-- What differs from one call to the next: the clock, the numbers the random
generator hands to `rand.Intn`, and for a `TempFile` call with a given pattern
either its error or the random part of the file name. -/
structure Oracle where
  now : Date
  rand : Nat → Nat
  tempRandom : String → Except String String

/-- Go `filepath.Abs`: a cleaned absolute path, or the path joined to the working
directory. -/
def Abs (sys : Sys) (path : String) : String :=
  if IsAbs path then Clean path else Join [sys.cwd, path]

/-- Decimal digits of `n`, most significant first, put in front of `acc`. -/
def decimalAux : Nat → Nat → List Char → List Char
  | 0, _, acc => acc
  | fuel + 1, n, acc =>
    if n < 10 then Char.ofNat (48 + n) :: acc
    else decimalAux fuel (n / 10) (Char.ofNat (48 + n % 10) :: acc)

/-- The `%d` verb of `fmt` on a natural number. -/
def natDecimal (n : Nat) : String :=
  String.mk (decimalAux (n + 1) n [])

/-- The `%d` verb of `fmt` on an integer. -/
def intDecimal (i : Int) : String :=
  if i < 0 then "-" ++ natDecimal i.natAbs else natDecimal i.natAbs

/-- The `%02d` verb of `fmt` on a natural number: at least two digits. -/
def natDecimal02 (n : Nat) : String :=
  if n < 10 then "0" ++ natDecimal n else natDecimal n

/-- `genTag` with the clock reading `now`. -/
def genTag (now : Date) : String :=
  "a8-ec2-" ++ intDecimal (now.year - 2000) ++ natDecimal02 now.month ++ natDecimal02 now.day

/-- The constant `ll`. -/
def ll : String := "0123456789abcdefghijklmnopqrstuvwxyz"

/-- `randString(n)`: the `i`-th character is `ll[rand.Intn(len(ll))]`, where
`rand.Intn(k)` yields the generator's number reduced below `k`. -/
def randString (rand : Nat → Nat) (n : Nat) : String :=
  String.mk ((List.range n).map (fun i => ll.data.getD (rand i % ll.data.length) '0'))

/-- Go `ioutil.TempFile(dir, pattern)` for a pattern without `*`, and the name of
the file: the pattern and a random string, joined to the directory. -/
def TempFile (o : Oracle) (dir pattern : String) : Except String String :=
  match o.tempRandom pattern with
  | .error e => .error e
  | .ok r => .ok (Join [dir, pattern ++ r])

/-- Lines 386-397: the required fields. -/
def checkRequired (cfg : Config) : Option String :=
  if cfg.LogOutputs.length = 0 then some "EKS LogOutputs is not specified"
  else if cfg.AWSRegion = "" then some "empty AWSRegion"
  else if cfg.UserName = "" then some "empty UserName"
  else if cfg.ImageID = "" then some "empty ImageID"
  else none

/-- Lines 399-407: the init script. `cfg.InitScript` takes the first result of
`plugins.Create` before the error is looked at. -/
def createInitScript (sys : Sys) (cfg : Config) : Config × Option String :=
  if cfg.Plugins.length > 0 ∧ ¬ cfg.InitScriptCreated then
    let txt := cfg.InitScript
    let r := sys.Create cfg.UserName cfg.CustomScript cfg.Plugins
    let cfg := { cfg with InitScript := r.1 }
    match r.2 with
    | some err => (cfg, some err)
    | none =>
      let cfg := { cfg with InitScript := cfg.InitScript ++ "\n" ++ txt }
      ({ cfg with InitScriptCreated := true }, none)
  else (cfg, none)

/-- Lines 409-414: instance type and cluster size. -/
def checkInstance (cfg : Config) : Option String :=
  if cfg.InstanceType = "" then some "empty InstanceType"
  else if cfg.ClusterSize < 1 then some "unexpected ClusterSize"
  else none

/-- Lines 416-419: tag and cluster name. -/
def nameCluster (o : Oracle) (cfg : Config) : Config :=
  if cfg.ClusterName = "" then
    let cfg := { cfg with Tag := genTag o.now }
    { cfg with ClusterName := cfg.Tag ++ "-" ++ randString o.rand 7 }
  else cfg

/-- Lines 421-431: the configuration path and its bucket key. -/
def setConfigPath (sys : Sys) (o : Oracle) (cfg : Config) : Config × Option String :=
  let r : Config × Option String :=
    if cfg.ConfigPath = "" then
      match TempFile o sys.tempDir "a8-ec2config" with
      | .error err => (cfg, some err)
      | .ok name => ({ cfg with ConfigPath := Abs sys name }, none)
    else (cfg, none)
  match r with
  | (cfg, some err) => (cfg, some err)
  | (cfg, none) =>
    ({ cfg with ConfigPathBucket := Join [cfg.ClusterName, "a8-ec2config.yaml"] }, none)

/-- Lines 433-445: the log path, added to the log outputs when it is not among them,
and its bucket key. -/
def setLogOutputs (sys : Sys) (cfg : Config) : Config :=
  let cfg := { cfg with LogOutputToUploadPath := Join [sys.tempDir, cfg.ClusterName ++ ".log"] }
  let logOutputExist : Bool := cfg.LogOutputs.any (fun lv => cfg.LogOutputToUploadPath == lv)
  let cfg :=
    if !logOutputExist then
      { cfg with LogOutputs := cfg.LogOutputs ++ [cfg.LogOutputToUploadPath] }
    else cfg
  { cfg with LogOutputToUploadPathBucket := Join [cfg.ClusterName, "a8-ec2.log"] }

/-- Lines 447-460: key name, key bucket key and key path. -/
def setKey (sys : Sys) (o : Oracle) (cfg : Config) : Config × Option String :=
  let cfg := if cfg.KeyName = "" then { cfg with KeyName := cfg.ClusterName } else cfg
  let cfg := { cfg with KeyPathBucket := Join [cfg.ClusterName, "a8-ec2.key"] }
  if cfg.KeyPath = "" then
    match TempFile o sys.tempDir "a8-ec2.key" with
    | .error err => (cfg, some err)
    | .ok name => ({ cfg with KeyPath := Abs sys name }, none)
  else (cfg, none)

/-- Lines 462-464: the catalog. -/
def checkCatalog (std : Std) (sys : Sys) (cfg : Config) : Option String :=
  if cfg.InstanceType ∈ sys.InstanceTypes then none
  else some ("unexpected InstanceType " ++ Quote std cfg.InstanceType)

/-- `ValidateAndSetDefaults`: the record after the call, and the error if there is
one. The record is worked on in place, so what a step has assigned stays when a
later step returns an error. -/
def ValidateAndSetDefaults (std : Std) (sys : Sys) (o : Oracle) (cfg : Config) :
    Config × Option String :=
  match checkRequired cfg with
  | some err => (cfg, some err)
  | none =>
    match createInitScript sys cfg with
    | (cfg, some err) => (cfg, some err)
    | (cfg, none) =>
      match checkInstance cfg with
      | some err => (cfg, some err)
      | none =>
        let cfg := nameCluster o cfg
        match setConfigPath sys o cfg with
        | (cfg, some err) => (cfg, some err)
        | (cfg, none) =>
          let cfg := setLogOutputs sys cfg
          match setKey sys o cfg with
          | (cfg, some err) => (cfg, some err)
          | (cfg, none) =>
            match checkCatalog std sys cfg with
            | some err => (cfg, some err)
            | none => (cfg, none)

/-- A sample system: `/tmp` as temporary directory, a script generator that lists
the plugins, and a catalog of three instance types. -/
def sampleSys : Sys :=
  { tempDir := "/tmp"
    cwd := "/home/tester"
    Create := fun user custom plugins =>
      ("#!/usr/bin/env bash\n# " ++ user ++ "\n" ++ String.intercalate "\n" plugins
        ++ "\n" ++ custom, none)
    InstanceTypes := ["m5.large", "c5.xlarge", "t3.micro"] }

/-- A sample oracle: 4 November 2026, and fixed random parts. -/
def sampleOracle : Oracle :=
  { now := ⟨2026, 11, 4⟩
    rand := fun i => 7 * i + 3
    tempRandom := fun pattern => if pattern = "a8-ec2config" then .ok "123" else .ok "456" }

/-- Another sample oracle, with a later date and other random parts. -/
def otherOracle : Oracle :=
  { now := ⟨2027, 1, 9⟩
    rand := fun i => i * i
    tempRandom := fun _ => .ok "999" }

/-- A record on which `ValidateAndSetDefaults` has nothing left to do. -/
def Settled (sys : Sys) (c : Config) : Prop :=
  checkRequired c = none
  ∧ (c.Plugins.length > 0 → c.InitScriptCreated = true)
  ∧ checkInstance c = none
  ∧ c.ClusterName ≠ ""
  ∧ c.ConfigPath ≠ ""
  ∧ c.ConfigPathBucket = Join [c.ClusterName, "a8-ec2config.yaml"]
  ∧ c.LogOutputToUploadPath = Join [sys.tempDir, c.ClusterName ++ ".log"]
  ∧ c.LogOutputToUploadPath ∈ c.LogOutputs
  ∧ c.LogOutputToUploadPathBucket = Join [c.ClusterName, "a8-ec2.log"]
  ∧ c.KeyName ≠ ""
  ∧ c.KeyPathBucket = Join [c.ClusterName, "a8-ec2.key"]
  ∧ c.KeyPath ≠ ""
  ∧ c.InstanceType ∈ sys.InstanceTypes

/-- The fields `ValidateAndSetDefaults` assigns. -/
def derivedFields : List FieldId :=
  [.InitScript, .InitScriptCreated, .Tag, .ClusterName, .ConfigPath, .ConfigPathBucket,
   .LogOutputToUploadPath, .LogOutputs, .LogOutputToUploadPathBucket, .KeyName,
   .KeyPathBucket, .KeyPath]

/-- The default record with an instance type that is in no catalog. -/
def nonsenseConfig : Config :=
  { defaultConfig with InstanceType := "nonsense" }

/-! ## NewDefault and the memory behind slices and maps

A Go slice value is a header that points into a backing array, and a map value is
a pointer to a map object; copying a struct copies headers and pointers, not what
they point to. -/

/-- A Go slice value: the address of its backing array, its length and capacity. -/
structure SliceHeader where
  array : Nat
  len : Nat
  cap : Nat
  deriving DecidableEq, Repr

/-- The heap: backing arrays of `[]string` slices and `map[string]string` objects,
by address. -/
structure Memory where
  arrays : List (List String)
  maps : List (List (String × String))
  deriving DecidableEq, Repr

/-- The fields of a `Config` value that refer to the heap and are filled by the
default literal. The other fields of the literal are scalars, copied by value. -/
structure ConfigRefs where
  LogOutputs : SliceHeader
  Plugins : SliceHeader
  IngressRulesTCP : Nat
  deriving DecidableEq, Repr

/-- The program state `NewDefault` runs in: the package variable `defaultConfig`
and the heap. -/
structure Package where
  defaultConfig : ConfigRefs
  mem : Memory
  deriving DecidableEq, Repr

/-- The state after package initialisation: the composite literals of
`defaultConfig` are allocated once. -/
def initPackage : Package :=
  { defaultConfig :=
      { LogOutputs := ⟨0, 1, 1⟩
        Plugins := ⟨1, 2, 2⟩
        IngressRulesTCP := 0 }
    mem :=
      { arrays := [["stderr"],
                   ["update-amazon-linux-2", "install-start-docker-amazon-linux-2"]]
        maps := [[("22", "0.0.0.0/0")]] } }

/-- `NewDefault`: `vv := defaultConfig; return &vv` copies the struct value, so the
new record holds the same slice headers and map pointer; the heap is untouched. -/
def NewDefault (p : Package) : ConfigRefs × Package :=
  let vv := p.defaultConfig
  (vv, p)

/-- The elements of a slice. -/
def readSlice (m : Memory) (s : SliceHeader) : List String :=
  (m.arrays.getD s.array []).take s.len

/-- The entries of a map. -/
def readMap (m : Memory) (ptr : Nat) : List (String × String) :=
  m.maps.getD ptr []

/-- Go `s[i] = v` for `i < len(s)`: writes into the backing array. -/
def writeSlice (m : Memory) (s : SliceHeader) (i : Nat) (v : String) : Memory :=
  if i < s.len then
    { m with arrays := m.arrays.set s.array ((m.arrays.getD s.array []).set i v) }
  else m

/-- Go `mp[k] = v`: writes into the map object. -/
def writeMap (m : Memory) (ptr : Nat) (k v : String) : Memory :=
  { m with maps := m.maps.set ptr (mapSet k v (m.maps.getD ptr [])) }

/-- The record `a := NewDefault()`, taken right after package initialisation. -/
def firstCopy : ConfigRefs :=
  (NewDefault initPackage).1

/-- The record `b := NewDefault()`, taken after `a`. -/
def secondCopy : ConfigRefs :=
  (NewDefault (NewDefault initPackage).2).1

/-- The heap after `a.Plugins[0] = "x"`, `a.LogOutputs[0] = "y"` and
`a.IngressRulesTCP["80"] = "10.0.0.0/8"`. -/
def memoryAfterWrites : Memory :=
  writeMap
    (writeSlice
      (writeSlice (NewDefault (NewDefault initPackage).2).2.mem firstCopy.Plugins 0 "x")
      firstCopy.LogOutputs 0 "y")
    firstCopy.IngressRulesTCP "80" "10.0.0.0/8"

/-- The record `c := NewDefault()`, taken after the three writes. -/
def laterCopy : ConfigRefs :=
  (NewDefault { (NewDefault (NewDefault initPackage).2).2 with mem := memoryAfterWrites }).1

/-- A record with plugins and an init script supplied by the operator. -/
def scriptedConfig : Config :=
  { defaultConfig with InitScript := "echo operator" }

/-- The two decimal digits of a number below 100, tens first. -/
def twoDigits (n : Nat) : List Char :=
  [Char.ofNat (48 + n / 10), Char.ofNat (48 + n % 10)]

/-! ## Persistence: Load, Sync, BackupConfig -/

/-- The bytes of a file. -/
abbrev Bytes := List UInt8

/-- The YAML library (`sigs.k8s.io/yaml`), taken as given: `Marshal` of a record,
and `Unmarshal` of bytes into a fresh record. -/
structure Yaml where
  Marshal : Config → Except String Bytes
  Unmarshal : Bytes → Except String Config

/-- The files: the content at each path where there is a file, and for each path
the error that writing to it meets, if any. Paths are told apart as strings, and
a file that is there can be read. -/
structure Disk where
  files : String → Option Bytes
  writeError : String → Option String

/-- Go `ioutil.ReadFile`. -/
def ReadFile (disk : Disk) (p : String) : Except String Bytes :=
  match disk.files p with
  | none => .error ("open " ++ p ++ ": no such file or directory")
  | some d => .ok d

/-- Go `ioutil.WriteFile(p, d, 0600)`: the file at `p` is created or replaced; a
failed write is taken to leave the files as they were. -/
def WriteFile (disk : Disk) (p : String) (d : Bytes) : Disk × Option String :=
  match disk.writeError p with
  | some err => (disk, some err)
  | none => ({ disk with files := fun q => if q = p then some d else disk.files q }, none)

/-- `Load`: the record read from the file at `p`, or the error. -/
def Load (y : Yaml) (sys : Sys) (disk : Disk) (p : String) : Except String Config :=
  match ReadFile disk p with
  | .error err => .error err
  | .ok d =>
    match y.Unmarshal d with
    | .error err => .error err
    | .ok cfg =>
      let cfg := if cfg.Instances = none then { cfg with Instances := some [] } else cfg
      let cfg := if !IsAbs cfg.ConfigPath then { cfg with ConfigPath := Abs sys p } else cfg
      .ok cfg

/-- `Sync` at the time `now`: the record after the call, the error if there is one,
and the files after the call. -/
def Sync (y : Yaml) (sys : Sys) (now : Time) (disk : Disk) (cfg : Config) :
    Config × Option String × Disk :=
  let cfg := if !IsAbs cfg.ConfigPath then { cfg with ConfigPath := Abs sys cfg.ConfigPath }
    else cfg
  let cfg := { cfg with UpdatedAt := now }
  match y.Marshal cfg with
  | .error err => (cfg, some err, disk)
  | .ok d => (cfg, (WriteFile disk cfg.ConfigPath d).2, (WriteFile disk cfg.ConfigPath d).1)

/-- Hexadecimal digits of `n` in upper case, most significant first, put in front of
`acc`. -/
def hexAux : Nat → Nat → List Char → List Char
  | 0, _, acc => acc
  | fuel + 1, n, acc =>
    if n < 16 then
      ['0', '1', '2', '3', '4', '5', '6', '7', '8', '9', 'A', 'B', 'C', 'D', 'E', 'F'].getD n '0'
        :: acc
    else
      hexAux fuel (n / 16)
        (['0', '1', '2', '3', '4', '5', '6', '7', '8', '9', 'A', 'B', 'C', 'D', 'E', 'F'].getD
          (n % 16) '0' :: acc)

/-- The `%X` verb of `fmt` on an integer. -/
def intHexUpper (i : Int) : String :=
  if i < 0 then "-" ++ String.mk (hexAux (i.natAbs + 1) i.natAbs [])
  else String.mk (hexAux (i.natAbs + 1) i.natAbs [])

/-- The path `BackupConfig` writes to when the clock reads `unixNano`. -/
def backupPath (cfg : Config) (unixNano : Int) : String :=
  cfg.ConfigPath ++ "." ++ intHexUpper unixNano ++ ".backup.yaml"

/-- `BackupConfig` when `time.Now().UTC().UnixNano()` is `unixNano`: the record after
the call, the two results `(p, err)`, and the files after the call. -/
def BackupConfig (unixNano : Int) (disk : Disk) (cfg : Config) :
    Config × (String × Option String) × Disk :=
  match ReadFile disk cfg.ConfigPath with
  | .error err => (cfg, ("", some err), disk)
  | .ok d =>
    let p := backupPath cfg unixNano
    (cfg, (p, (WriteFile disk p d).2), (WriteFile disk p d).1)

/-- A sample record with an absolute configuration path and a cluster name. -/
def storedConfig : Config :=
  { defaultConfig with ConfigPath := "/tmp/a8-ec2config.yaml", ClusterName := "a8-ec2-mine",
                       UpdatedAt := ⟨5⟩ }

/-- A sample YAML library that knows one record and one document. -/
def sampleYaml : Yaml :=
  { Marshal := fun c => if c = storedConfig then .ok [1] else .error "yaml: cannot marshal"
    Unmarshal := fun d => if d = [1] then .ok storedConfig else .error "yaml: cannot unmarshal" }

/-- Sample files: the configuration file, and an older backup with other bytes at
the path a backup at clock value 255 goes to. -/
def sampleDisk : Disk :=
  { files := fun q =>
      if q = "/tmp/a8-ec2config.yaml" then some [1]
      else if q = "/tmp/a8-ec2config.yaml.FF.backup.yaml" then some [7, 7]
      else none
    writeError := fun _ => none }

/-- A record that was named by the operator. -/
def namedConfig : Config :=
  { defaultConfig with ClusterName := "a8-ec2-mine" }

/-- A sample environment: the variable of `ClusterName` is set. -/
def envClusterName : Env := fun k =>
  if k = "AWS_K8S_TESTER_EC2_CLUSTER_NAME" then "a8-ec2-other" else ""

/-- A record with relative paths supplied by the operator. -/
def relativeConfig : Config :=
  { defaultConfig with ConfigPath := "conf/a8.yaml", KeyPath := "keys/a8.key" }

/-! ## Sequences of validation calls -/

/-- The number of calls that change `InitScript`, in a sequence of
`ValidateAndSetDefaults` calls on one record, one oracle per call. The record is
kept from call to call whether a call fails or not, as the calls work in place. -/
def scriptChanges (std : Std) (sys : Sys) : List Oracle → Config → Nat
  | [], _ => 0
  | o :: os, cfg =>
    (if (ValidateAndSetDefaults std sys o cfg).1.InitScript = cfg.InitScript then 0 else 1)
      + scriptChanges std sys os (ValidateAndSetDefaults std sys o cfg).1

/-- A record whose init script has been generated already. -/
def createdConfig : Config :=
  { defaultConfig with InitScript := "echo generated", InitScriptCreated := true }

/-- A record that already lists the log path it will be given. -/
def loggedConfig : Config :=
  { defaultConfig with ClusterName := "a8-ec2-mine",
                       LogOutputs := ["/tmp/a8-ec2-mine.log", "stderr"] }

/-! ## SSHCommands -/

/-- The entries of a Go map; a nil map has none. -/
def mapEntries {V : Type} (m : GoMap V) : List (String × V) :=
  m.getD []

/-- Lines 507-510: the first `fmt.Sprintf` of `SSHCommands`. -/
def sshHeader (keyPath : String) : String :=
  "\n# change SSH key permission\nchmod 400 " ++ keyPath ++ "\n"

/-- Lines 513-524: the second `fmt.Sprintf` of `SSHCommands`, the text added for
one instance. -/
def sshBlock (keyPath userName publicDNSName : String) : String :=
  "# ssh into the machine\nssh -o \"StrictHostKeyChecking no\" -i " ++ keyPath ++ " "
    ++ userName ++ "@" ++ publicDNSName
    ++ "\n# download to local machine\nscp -i " ++ keyPath ++ " "
    ++ userName ++ "@" ++ publicDNSName ++ ":REMOTE_FILE_PATH LOCAL_FILE_PATH"
    ++ "\n# upload to remote machine\nscp -i " ++ keyPath ++ " LOCAL_FILE_PATH "
    ++ userName ++ "@" ++ publicDNSName ++ ":REMOTE_FILE_PATH\n\n"

/-- Lines 506-528: `SSHCommands`. Go leaves the order of a `range` over a map open:
`visit` gives, for the entries of the map, the order in which this run visits them.
The method has a pointer receiver, so the record is returned next to the text. -/
def SSHCommands (visit : List (String × Instance) → List (String × Instance))
    (cfg : Config) : Config × String :=
  let s := sshHeader cfg.KeyPath
  let s := (visit (mapEntries cfg.Instances)).foldl
    (fun s kv => s ++ sshBlock cfg.KeyPath cfg.UserName kv.2.PublicDNSName) s
  (cfg, s ++ "\n")

/-- The command blocks of the instances in `order`, one after the other. -/
def sshBlocks (cfg : Config) (order : List (String × Instance)) : List String :=
  order.map (fun kv => sshBlock cfg.KeyPath cfg.UserName kv.2.PublicDNSName)

/-- A line of text begins with the command name `ssh` or `scp`. -/
def isCommandLine (line : String) : Prop :=
  "ssh".data <+: line.data ∨ "scp".data <+: line.data

instance (line : String) : Decidable (isCommandLine line) := by
  unfold isCommandLine; infer_instance

/-- A running instance that has nothing set but its public DNS name. -/
def instanceAt (publicDNSName : String) : Instance :=
  { ImageID := "", InstanceID := "", InstanceType := "", KeyName := "",
    Placement := ⟨"", ""⟩, PrivateDNSName := "", PrivateIP := "",
    PublicDNSName := publicDNSName, PublicIP := "", State := ⟨0, ""⟩, SubnetID := "",
    VPCID := "", BlockDeviceMappings := [], EBSOptimized := false, RootDeviceName := "",
    RootDeviceType := "", SecurityGroups := [], LaunchTime := ⟨0⟩ }

/-- A record with an inventory of two instances. -/
def inventoryConfig : Config :=
  { defaultConfig with
      KeyPath := "/tmp/a8.key"
      Instances := some [("i-1", instanceAt "a.example.com"),
                         ("i-2", instanceAt "b.example.com")] }

/-! ## Hexadecimal, read back -/

/-- The value of an upper-case hexadecimal digit. -/
def hexDigitValue (c : Char) : Option Nat :=
  if '0' ≤ c ∧ c ≤ '9' then some (c.toNat - 48)
  else if 'A' ≤ c ∧ c ≤ 'F' then some (c.toNat - 55)
  else none

/-- The number that hexadecimal digits write after the number `v`, most
significant digit first; `none` if a character is not a digit. -/
def hexValueFrom : Nat → List Char → Option Nat
  | v, [] => some v
  | v, c :: cs =>
    match hexDigitValue c with
    | none => none
    | some d => hexValueFrom (16 * v + d) cs

/-- The number that a text of upper-case hexadecimal digits writes; `none` for the
empty text and for a text with another character. -/
def hexValue (digits : List Char) : Option Nat :=
  if digits = [] then none else hexValueFrom 0 digits

/-- A record without instances whose key path holds a line break. -/
def brokenKeyConfig : Config :=
  { defaultConfig with KeyPath := "k\nssh -i evil" }

/-! ## Records compared as Go values -/

/-- Two values are the same Go map: both nil or neither, and the same entries. The
order in which the two lists hold the entries does not count. -/
def sameMap {V : Type} (a b : GoMap V) : Prop :=
  (a = none ↔ b = none) ∧ (mapEntries a).Perm (mapEntries b)

/-- Two records hold the same value in every field; the three map fields are
compared as Go maps. -/
def SameRecord (a b : Config) : Prop :=
  (∀ f : FieldId, f ≠ .SubnetIDToAvailabilityZone → f ≠ .IngressRulesTCP → f ≠ .Instances →
      get f a = get f b)
  ∧ sameMap a.SubnetIDToAvailabilityZone b.SubnetIDToAvailabilityZone
  ∧ sameMap a.IngressRulesTCP b.IngressRulesTCP
  ∧ sameMap a.Instances b.Instances

/-- A record with a relative configuration path, two ingress rules and no
instance map. -/
def draftConfig : Config :=
  { defaultConfig with
      ConfigPath := "conf/a8.yaml"
      IngressRulesTCP := some [("22", "0.0.0.0/0"), ("80", "10.0.0.0/8")] }

/-- A sample YAML library for the records that differ from `draftConfig` in
`ConfigPath` and `UpdatedAt` only, with a time that is not negative. The document
holds the path, a zero byte, and the time in decimal digits. Reading a document
gives the ingress rules in the other order: the library does not keep the order
of a map. -/
def orderBlindYaml : Yaml :=
  { Marshal := fun c =>
      if { c with ConfigPath := "conf/a8.yaml", UpdatedAt := ⟨0⟩ } = draftConfig
          ∧ 0 ≤ c.UpdatedAt.nanos then
        .ok (c.ConfigPath.data.map (fun ch => ch.toNat.toUInt8) ++ [0]
          ++ (natDecimal c.UpdatedAt.nanos.natAbs).data.map (fun ch => ch.toNat.toUInt8))
      else .error "yaml: cannot marshal"
    Unmarshal := fun d =>
      .ok { draftConfig with
        ConfigPath := String.mk ((d.takeWhile (fun b => b != 0)).map
          (fun b => Char.ofNat b.toNat))
        UpdatedAt := ⟨((d.dropWhile (fun b => b != 0)).drop 1).foldl
          (fun acc b => acc * 10 + ((b.toNat : Int) - 48)) 0⟩
        IngressRulesTCP := some [("80", "10.0.0.0/8"), ("22", "0.0.0.0/0")] } }

/-- Files: none, and every write succeeds. -/
def emptyDisk : Disk :=
  { files := fun _ => none
    writeError := fun _ => none }

end ec2config

namespace eks
open ec2config (Join)

/-! ## The EKS tester: S3 bucket and uploads (eks/s3.go)

The configuration type of the tester and the helper packages are outside the
files at hand; the record below holds the fields that `deleteS3` and `uploadToS3`
read, and the helpers are parameters. -/

/-- An auto scaling group of the node-groups add-on: the fields read here. -/
structure ASG where
  ASGCFNStackYAMLFilePath : String := ""
  SSMDocumentCFNStackYAMLFilePath : String := ""
  deriving DecidableEq, Repr

/-- A managed node group: the fields read here. -/
structure MNG where
  MNGCFNStackYAMLFilePath : String := ""
  RemoteAccessSecurityCFNStackYAMLFilePath : String := ""
  deriving DecidableEq, Repr

/-- The node-groups add-on: the fields read here. `ASGs` is a Go map; the list
holds its entries in the order in which the `range` loop visits them. -/
structure AddOnNodeGroups where
  RoleCFNStackYAMLFilePath : String := ""
  NodeGroupSecurityGroupCFNStackYAMLFilePath : String := ""
  LogsTarGzPath : String := ""
  ASGs : List (String × ASG) := []
  deriving DecidableEq, Repr

/-- The managed-node-groups add-on: the fields read here. `MNGs` is a Go map; the
list holds its entries in the order in which the `range` loop visits them. -/
structure AddOnManagedNodeGroups where
  RoleCFNStackYAMLFilePath : String := ""
  LogsTarGzPath : String := ""
  MNGs : List (String × MNG) := []
  deriving DecidableEq, Repr

/-- The conformance add-on: the fields read here. -/
structure AddOnConformance where
  SonobuoyResultTarGzPath : String := ""
  SonobuoyResultE2eLogPath : String := ""
  SonobuoyResultJunitXMLPath : String := ""
  deriving DecidableEq, Repr

/-- The App Mesh add-on: the field read here. -/
structure AddOnAppMesh where
  PolicyCFNStackYAMLFilePath : String := ""
  deriving DecidableEq, Repr

/-- An add-on that reports on write requests (CSRs and config maps, local and
remote): the fields read here. -/
structure AddOnWrites where
  RequestsWritesRawJSONPath : String := ""
  RequestsWritesSummaryJSONPath : String := ""
  RequestsWritesSummaryTablePath : String := ""
  RequestsWritesCompareJSONPath : String := ""
  RequestsWritesCompareTablePath : String := ""
  deriving DecidableEq, Repr

/-- An add-on that reports on write and read requests (secrets and stresser, local
and remote): the fields read here. -/
structure AddOnWritesReads where
  RequestsWritesRawJSONPath : String := ""
  RequestsWritesSummaryJSONPath : String := ""
  RequestsWritesSummaryTablePath : String := ""
  RequestsWritesCompareJSONPath : String := ""
  RequestsWritesCompareTablePath : String := ""
  RequestsReadsRawJSONPath : String := ""
  RequestsReadsSummaryJSONPath : String := ""
  RequestsReadsSummaryTablePath : String := ""
  RequestsReadsCompareJSONPath : String := ""
  RequestsReadsCompareTablePath : String := ""
  deriving DecidableEq, Repr

/-- An add-on with a role stack (Fargate, IRSA, IRSA on Fargate): the field read
here. -/
structure AddOnRole where
  RoleCFNStackYAMLFilePath : String := ""
  deriving DecidableEq, Repr

/-- The cluster-loader add-on, local or remote: the fields read here. -/
structure AddOnClusterLoader where
  ReportTarGzPath : String := ""
  LogPath : String := ""
  deriving DecidableEq, Repr

/-- The status part of the configuration: the field read here. -/
structure Status where
  ClusterMetricsRawOutputDir : String := ""
  deriving DecidableEq, Repr

/-- The configuration of the tester (`ts.cfg`): the fields that `deleteS3` and
`uploadToS3` read. A field `IsEnabledAddOn…` holds the answer of the method of
that name; the add-on is present when the answer is true. The defaults are the
zero values. -/
structure Config where
  Name : String := ""
  ConfigPath : String := ""
  KubeConfigPath : String := ""
  LogOutputs : List String := []
  S3BucketName : String := ""
  S3BucketCreate : Bool := false
  S3BucketCreateKeep : Bool := false
  Status : Status := {}
  IsEnabledAddOnNodeGroups : Bool := false
  AddOnNodeGroups : AddOnNodeGroups := {}
  IsEnabledAddOnManagedNodeGroups : Bool := false
  AddOnManagedNodeGroups : AddOnManagedNodeGroups := {}
  IsEnabledAddOnConformance : Bool := false
  AddOnConformance : AddOnConformance := {}
  IsEnabledAddOnAppMesh : Bool := false
  AddOnAppMesh : AddOnAppMesh := {}
  IsEnabledAddOnCSRsLocal : Bool := false
  AddOnCSRsLocal : AddOnWrites := {}
  IsEnabledAddOnCSRsRemote : Bool := false
  AddOnCSRsRemote : AddOnWrites := {}
  IsEnabledAddOnConfigmapsLocal : Bool := false
  AddOnConfigmapsLocal : AddOnWrites := {}
  IsEnabledAddOnConfigmapsRemote : Bool := false
  AddOnConfigmapsRemote : AddOnWrites := {}
  IsEnabledAddOnSecretsLocal : Bool := false
  AddOnSecretsLocal : AddOnWritesReads := {}
  IsEnabledAddOnSecretsRemote : Bool := false
  AddOnSecretsRemote : AddOnWritesReads := {}
  IsEnabledAddOnFargate : Bool := false
  AddOnFargate : AddOnRole := {}
  IsEnabledAddOnIRSA : Bool := false
  AddOnIRSA : AddOnRole := {}
  IsEnabledAddOnIRSAFargate : Bool := false
  AddOnIRSAFargate : AddOnRole := {}
  IsEnabledAddOnClusterLoaderLocal : Bool := false
  AddOnClusterLoaderLocal : AddOnClusterLoader := {}
  IsEnabledAddOnClusterLoaderRemote : Bool := false
  AddOnClusterLoaderRemote : AddOnClusterLoader := {}
  IsEnabledAddOnStresserLocal : Bool := false
  AddOnStresserLocal : AddOnWritesReads := {}
  IsEnabledAddOnStresserRemote : Bool := false
  AddOnStresserRemote : AddOnWritesReads := {}
  deriving DecidableEq, Repr

/-- The S3 helpers (`aws_s3.EmptyBucket`, `aws_s3.DeleteBucket`, `aws_s3.Upload`),
taken as given: the error each call returns, if any. `Upload` takes the bucket,
the key and the local path. -/
structure S3 where
  EmptyBucket : String → Option String
  DeleteBucket : String → Option String
  Upload : String → String → String → Option String

/-- A call to an S3 helper, with its arguments. -/
inductive S3Call where
  | emptyBucket (bucket : String)
  | deleteBucket (bucket : String)
  | upload (bucket key localPath : String)
  deriving DecidableEq, Repr

/-- The tester: its configuration and its S3 client. -/
structure Tester where
  cfg : Config
  s3API : S3

/-- Lines 32-45: `deleteS3`, with the calls it makes to the S3 helpers, in order,
and the error it returns. -/
def deleteS3 (ts : Tester) : List S3Call × Option String :=
  if !ts.cfg.S3BucketCreate then ([], none)
  else if ts.cfg.S3BucketCreateKeep then ([], none)
  else
    match ts.s3API.EmptyBucket ts.cfg.S3BucketName with
    | some err => ([.emptyBucket ts.cfg.S3BucketName], some err)
    | none =>
      ([.emptyBucket ts.cfg.S3BucketName, .deleteBucket ts.cfg.S3BucketName],
        ts.s3API.DeleteBucket ts.cfg.S3BucketName)

/-- One call that `filepath.Walk` makes to its function: the path, whether it is a
directory, and the error that the walk met there, if any. -/
structure WalkEntry where
  path : String
  isDir : Bool
  err : Option String
  deriving DecidableEq, Repr

/-- The local file system, taken as given: `fileutil.Exist`, and the calls that
`filepath.Walk` makes for a root, in order. -/
structure Files where
  Exist : String → Bool
  Walk : String → List WalkEntry

/-- Worker of `Ext`, from the end of the path: stops at a separator, and returns
the text from the last dot on. -/
def extAux : List Char → List Char → List Char
  | [], _ => []
  | c :: rest, acc =>
    if c = '/' then []
    else if c = '.' then '.' :: acc
    else extAux rest (c :: acc)

/-- Go `filepath.Ext` (Unix): the suffix of the last element of the path that
begins at its last dot; empty if there is no dot. -/
def Ext (path : String) : String :=
  String.mk (extAux path.data.reverse [])

/-- Go `filepath.Base` (Unix): the last element of the path, after trailing
slashes are removed; `.` for the empty path and `/` for a path of slashes. -/
def Base (path : String) : String :=
  if path = "" then "."
  else
    let stripped := (path.data.reverse.dropWhile (fun c => c == '/')).reverse
    let last := (stripped.reverse.takeWhile (fun c => c != '/')).reverse
    if last = [] then "/" else String.mk last

/-- Lines 65-71: the first entry of `LogOutputs` with the extension `.log`, or the
empty text. -/
def logFilePath (cfg : Config) : String :=
  match cfg.LogOutputs.find? (fun fpath => Ext fpath == ".log") with
  | some fpath => fpath
  | none => ""

/-- One guarded upload of `uploadToS3`,
`if fileutil.Exist(p) { Upload(bucket, path.Join(Name, rel...), p) }`: whether the
add-on it belongs to is enabled (true for the files outside the add-ons), the
elements joined to the cluster name, and the local path. -/
structure Artifact where
  enabled : Config → Bool
  rel : List String
  localPath : Config → String

/-- Lines 53-94: the configuration file, the log file and the kubeconfig. -/
def headArtifacts : List Artifact :=
  [
    ⟨fun _ => true, ["aws-k8s-tester-eks.config.yaml"],
      fun c => c.ConfigPath⟩,
    ⟨fun _ => true, ["aws-k8s-tester-eks.log"],
      logFilePath⟩,
    ⟨fun _ => true, ["kubeconfig.yaml"],
      fun c => c.KubeConfigPath⟩
  ]

/-- Lines 121-153: the files of the node groups that are not per ASG. -/
def nodeGroupArtifacts : List Artifact :=
  [
    ⟨fun c => c.IsEnabledAddOnNodeGroups, ["cfn", "add-on-node-groups.role.cfn.yaml"],
      fun c => c.AddOnNodeGroups.RoleCFNStackYAMLFilePath⟩,
    ⟨fun c => c.IsEnabledAddOnNodeGroups, ["cfn", "add-on-node-groups.sg.cfn.yaml"],
      fun c => c.AddOnNodeGroups.NodeGroupSecurityGroupCFNStackYAMLFilePath⟩,
    ⟨fun c => c.IsEnabledAddOnNodeGroups, ["add-on-node-groups-logs-dir.tar.gz"],
      fun c => c.AddOnNodeGroups.LogsTarGzPath⟩
  ]

/-- Lines 181-202: the files of the managed node groups that are not per group. -/
def managedNodeGroupArtifacts : List Artifact :=
  [
    ⟨fun c => c.IsEnabledAddOnManagedNodeGroups, ["cfn", "add-on-managed-node-groups.role.cfn.yaml"],
      fun c => c.AddOnManagedNodeGroups.RoleCFNStackYAMLFilePath⟩,
    ⟨fun c => c.IsEnabledAddOnManagedNodeGroups, ["add-on-managed-node-groups-logs-dir.tar.gz"],
      fun c => c.AddOnManagedNodeGroups.LogsTarGzPath⟩
  ]

/-- Lines 229-277: conformance and App Mesh. -/
def conformanceArtifacts : List Artifact :=
  [
    ⟨fun c => c.IsEnabledAddOnConformance, ["sonobuoy-result.tar.gz"],
      fun c => c.AddOnConformance.SonobuoyResultTarGzPath⟩,
    ⟨fun c => c.IsEnabledAddOnConformance, ["sonobuoy-result.e2e.log"],
      fun c => c.AddOnConformance.SonobuoyResultE2eLogPath⟩,
    ⟨fun c => c.IsEnabledAddOnConformance, ["sonobuoy-result.junit.xml"],
      fun c => c.AddOnConformance.SonobuoyResultJunitXMLPath⟩,
    ⟨fun c => c.IsEnabledAddOnAppMesh, ["cfn", "add-on-app-mesh.policy.cfn.yaml"],
      fun c => c.AddOnAppMesh.PolicyCFNStackYAMLFilePath⟩
  ]

/-- Lines 279-393: CSRs, local and remote. -/
def csrsArtifacts : List Artifact :=
  [
    ⟨fun c => c.IsEnabledAddOnCSRsLocal, ["csrs-local-requests-writes-raw.json"],
      fun c => c.AddOnCSRsLocal.RequestsWritesRawJSONPath⟩,
    ⟨fun c => c.IsEnabledAddOnCSRsLocal, ["csrs-local-requests-writes-summary.json"],
      fun c => c.AddOnCSRsLocal.RequestsWritesSummaryJSONPath⟩,
    ⟨fun c => c.IsEnabledAddOnCSRsLocal, ["csrs-local-requests-writes-summary.txt"],
      fun c => c.AddOnCSRsLocal.RequestsWritesSummaryTablePath⟩,
    ⟨fun c => c.IsEnabledAddOnCSRsLocal, ["csrs-local-requests-writes-compare.json"],
      fun c => c.AddOnCSRsLocal.RequestsWritesCompareJSONPath⟩,
    ⟨fun c => c.IsEnabledAddOnCSRsLocal, ["csrs-local-requests-writes-compare.txt"],
      fun c => c.AddOnCSRsLocal.RequestsWritesCompareTablePath⟩,
    ⟨fun c => c.IsEnabledAddOnCSRsRemote, ["csrs-remote-requests-writes-raw.json"],
      fun c => c.AddOnCSRsRemote.RequestsWritesRawJSONPath⟩,
    ⟨fun c => c.IsEnabledAddOnCSRsRemote, ["csrs-remote-requests-writes-summary.json"],
      fun c => c.AddOnCSRsRemote.RequestsWritesSummaryJSONPath⟩,
    ⟨fun c => c.IsEnabledAddOnCSRsRemote, ["csrs-remote-requests-writes-summary.txt"],
      fun c => c.AddOnCSRsRemote.RequestsWritesSummaryTablePath⟩,
    ⟨fun c => c.IsEnabledAddOnCSRsRemote, ["csrs-remote-requests-writes-compare.json"],
      fun c => c.AddOnCSRsRemote.RequestsWritesCompareJSONPath⟩,
    ⟨fun c => c.IsEnabledAddOnCSRsRemote, ["csrs-remote-requests-writes-compare.txt"],
      fun c => c.AddOnCSRsRemote.RequestsWritesCompareTablePath⟩
  ]

/-- Lines 395-509: config maps, local and remote. -/
def configmapsArtifacts : List Artifact :=
  [
    ⟨fun c => c.IsEnabledAddOnConfigmapsLocal, ["configmaps-local-requests-writes-raw.json"],
      fun c => c.AddOnConfigmapsLocal.RequestsWritesRawJSONPath⟩,
    ⟨fun c => c.IsEnabledAddOnConfigmapsLocal, ["configmaps-local-requests-writes-summary.json"],
      fun c => c.AddOnConfigmapsLocal.RequestsWritesSummaryJSONPath⟩,
    ⟨fun c => c.IsEnabledAddOnConfigmapsLocal, ["configmaps-local-requests-writes-summary.txt"],
      fun c => c.AddOnConfigmapsLocal.RequestsWritesSummaryTablePath⟩,
    ⟨fun c => c.IsEnabledAddOnConfigmapsLocal, ["configmaps-local-requests-writes-compare.json"],
      fun c => c.AddOnConfigmapsLocal.RequestsWritesCompareJSONPath⟩,
    ⟨fun c => c.IsEnabledAddOnConfigmapsLocal, ["configmaps-local-requests-writes-compare.txt"],
      fun c => c.AddOnConfigmapsLocal.RequestsWritesCompareTablePath⟩,
    ⟨fun c => c.IsEnabledAddOnConfigmapsRemote, ["configmaps-remote-requests-writes-raw.json"],
      fun c => c.AddOnConfigmapsRemote.RequestsWritesRawJSONPath⟩,
    ⟨fun c => c.IsEnabledAddOnConfigmapsRemote, ["configmaps-remote-requests-writes-summary.json"],
      fun c => c.AddOnConfigmapsRemote.RequestsWritesSummaryJSONPath⟩,
    ⟨fun c => c.IsEnabledAddOnConfigmapsRemote, ["configmaps-remote-requests-writes-summary.txt"],
      fun c => c.AddOnConfigmapsRemote.RequestsWritesSummaryTablePath⟩,
    ⟨fun c => c.IsEnabledAddOnConfigmapsRemote, ["configmaps-remote-requests-writes-compare.json"],
      fun c => c.AddOnConfigmapsRemote.RequestsWritesCompareJSONPath⟩,
    ⟨fun c => c.IsEnabledAddOnConfigmapsRemote, ["configmaps-remote-requests-writes-compare.txt"],
      fun c => c.AddOnConfigmapsRemote.RequestsWritesCompareTablePath⟩
  ]

/-- Lines 511-737: secrets, local and remote. -/
def secretsArtifacts : List Artifact :=
  [
    ⟨fun c => c.IsEnabledAddOnSecretsLocal, ["secrets-local-requests-writes-raw.json"],
      fun c => c.AddOnSecretsLocal.RequestsWritesRawJSONPath⟩,
    ⟨fun c => c.IsEnabledAddOnSecretsLocal, ["secrets-local-requests-writes-summary.json"],
      fun c => c.AddOnSecretsLocal.RequestsWritesSummaryJSONPath⟩,
    ⟨fun c => c.IsEnabledAddOnSecretsLocal, ["secrets-local-requests-writes-summary.txt"],
      fun c => c.AddOnSecretsLocal.RequestsWritesSummaryTablePath⟩,
    ⟨fun c => c.IsEnabledAddOnSecretsLocal, ["secrets-local-requests-writes-compare.json"],
      fun c => c.AddOnSecretsLocal.RequestsWritesCompareJSONPath⟩,
    ⟨fun c => c.IsEnabledAddOnSecretsLocal, ["secrets-local-requests-writes-compare.txt"],
      fun c => c.AddOnSecretsLocal.RequestsWritesCompareTablePath⟩,
    ⟨fun c => c.IsEnabledAddOnSecretsLocal, ["secrets-local-requests-reads-raw.json"],
      fun c => c.AddOnSecretsLocal.RequestsReadsRawJSONPath⟩,
    ⟨fun c => c.IsEnabledAddOnSecretsLocal, ["secrets-local-requests-reads-summary.json"],
      fun c => c.AddOnSecretsLocal.RequestsReadsSummaryJSONPath⟩,
    ⟨fun c => c.IsEnabledAddOnSecretsLocal, ["secrets-local-requests-reads-summary.txt"],
      fun c => c.AddOnSecretsLocal.RequestsReadsSummaryTablePath⟩,
    ⟨fun c => c.IsEnabledAddOnSecretsLocal, ["secrets-local-requests-reads-compare.json"],
      fun c => c.AddOnSecretsLocal.RequestsReadsCompareJSONPath⟩,
    ⟨fun c => c.IsEnabledAddOnSecretsLocal, ["secrets-local-requests-reads-compare.txt"],
      fun c => c.AddOnSecretsLocal.RequestsReadsCompareTablePath⟩,
    ⟨fun c => c.IsEnabledAddOnSecretsRemote, ["secrets-remote-requests-writes-raw.json"],
      fun c => c.AddOnSecretsRemote.RequestsWritesRawJSONPath⟩,
    ⟨fun c => c.IsEnabledAddOnSecretsRemote, ["secrets-remote-requests-writes-summary.json"],
      fun c => c.AddOnSecretsRemote.RequestsWritesSummaryJSONPath⟩,
    ⟨fun c => c.IsEnabledAddOnSecretsRemote, ["secrets-remote-requests-writes-summary.txt"],
      fun c => c.AddOnSecretsRemote.RequestsWritesSummaryTablePath⟩,
    ⟨fun c => c.IsEnabledAddOnSecretsRemote, ["secrets-remote-requests-writes-compare.json"],
      fun c => c.AddOnSecretsRemote.RequestsWritesCompareJSONPath⟩,
    ⟨fun c => c.IsEnabledAddOnSecretsRemote, ["secrets-remote-requests-writes-compare.txt"],
      fun c => c.AddOnSecretsRemote.RequestsWritesCompareTablePath⟩,
    ⟨fun c => c.IsEnabledAddOnSecretsRemote, ["secrets-remote-requests-reads-raw.json"],
      fun c => c.AddOnSecretsRemote.RequestsReadsRawJSONPath⟩,
    ⟨fun c => c.IsEnabledAddOnSecretsRemote, ["secrets-remote-requests-reads-summary.json"],
      fun c => c.AddOnSecretsRemote.RequestsReadsSummaryJSONPath⟩,
    ⟨fun c => c.IsEnabledAddOnSecretsRemote, ["secrets-remote-requests-reads-summary.txt"],
      fun c => c.AddOnSecretsRemote.RequestsReadsSummaryTablePath⟩,
    ⟨fun c => c.IsEnabledAddOnSecretsRemote, ["secrets-remote-requests-reads-compare.json"],
      fun c => c.AddOnSecretsRemote.RequestsReadsCompareJSONPath⟩,
    ⟨fun c => c.IsEnabledAddOnSecretsRemote, ["secrets-remote-requests-reads-compare.txt"],
      fun c => c.AddOnSecretsRemote.RequestsReadsCompareTablePath⟩
  ]

/-- Lines 739-829: Fargate, IRSA, IRSA on Fargate, and the cluster loader, local and remote. -/
def roleArtifacts : List Artifact :=
  [
    ⟨fun c => c.IsEnabledAddOnFargate, ["cfn", "add-on-fargate.role.cfn.yaml"],
      fun c => c.AddOnFargate.RoleCFNStackYAMLFilePath⟩,
    ⟨fun c => c.IsEnabledAddOnIRSA, ["cfn", "add-on-irsa.role.cfn.yaml"],
      fun c => c.AddOnIRSA.RoleCFNStackYAMLFilePath⟩,
    ⟨fun c => c.IsEnabledAddOnIRSAFargate, ["cfn", "add-on-irsa-fargate.role.cfn.yaml"],
      fun c => c.AddOnIRSAFargate.RoleCFNStackYAMLFilePath⟩,
    ⟨fun c => c.IsEnabledAddOnClusterLoaderLocal, ["cluster-loader-local.tar.gz"],
      fun c => c.AddOnClusterLoaderLocal.ReportTarGzPath⟩,
    ⟨fun c => c.IsEnabledAddOnClusterLoaderLocal, ["cluster-loader-local.log"],
      fun c => c.AddOnClusterLoaderLocal.LogPath⟩,
    ⟨fun c => c.IsEnabledAddOnClusterLoaderRemote, ["cluster-loader-remote.tar.gz"],
      fun c => c.AddOnClusterLoaderRemote.ReportTarGzPath⟩,
    ⟨fun c => c.IsEnabledAddOnClusterLoaderRemote, ["cluster-loader-remote.log"],
      fun c => c.AddOnClusterLoaderRemote.LogPath⟩
  ]

/-- Lines 831-1057: the stresser, local and remote. -/
def stresserArtifacts : List Artifact :=
  [
    ⟨fun c => c.IsEnabledAddOnStresserLocal, ["stresser-local-requests-writes-raw.json"],
      fun c => c.AddOnStresserLocal.RequestsWritesRawJSONPath⟩,
    ⟨fun c => c.IsEnabledAddOnStresserLocal, ["stresser-local-requests-writes-summary.json"],
      fun c => c.AddOnStresserLocal.RequestsWritesSummaryJSONPath⟩,
    ⟨fun c => c.IsEnabledAddOnStresserLocal, ["stresser-local-requests-writes-summary.txt"],
      fun c => c.AddOnStresserLocal.RequestsWritesSummaryTablePath⟩,
    ⟨fun c => c.IsEnabledAddOnStresserLocal, ["stresser-local-requests-writes-compare.json"],
      fun c => c.AddOnStresserLocal.RequestsWritesCompareJSONPath⟩,
    ⟨fun c => c.IsEnabledAddOnStresserLocal, ["stresser-local-requests-writes-compare.txt"],
      fun c => c.AddOnStresserLocal.RequestsWritesCompareTablePath⟩,
    ⟨fun c => c.IsEnabledAddOnStresserLocal, ["stresser-local-requests-reads-raw.json"],
      fun c => c.AddOnStresserLocal.RequestsReadsRawJSONPath⟩,
    ⟨fun c => c.IsEnabledAddOnStresserLocal, ["stresser-local-requests-reads-summary.json"],
      fun c => c.AddOnStresserLocal.RequestsReadsSummaryJSONPath⟩,
    ⟨fun c => c.IsEnabledAddOnStresserLocal, ["stresser-local-requests-reads-summary.txt"],
      fun c => c.AddOnStresserLocal.RequestsReadsSummaryTablePath⟩,
    ⟨fun c => c.IsEnabledAddOnStresserLocal, ["stresser-local-requests-reads-compare.json"],
      fun c => c.AddOnStresserLocal.RequestsReadsCompareJSONPath⟩,
    ⟨fun c => c.IsEnabledAddOnStresserLocal, ["stresser-local-requests-reads-compare.txt"],
      fun c => c.AddOnStresserLocal.RequestsReadsCompareTablePath⟩,
    ⟨fun c => c.IsEnabledAddOnStresserRemote, ["stresser-remote-requests-writes-raw.json"],
      fun c => c.AddOnStresserRemote.RequestsWritesRawJSONPath⟩,
    ⟨fun c => c.IsEnabledAddOnStresserRemote, ["stresser-remote-requests-writes-summary.json"],
      fun c => c.AddOnStresserRemote.RequestsWritesSummaryJSONPath⟩,
    ⟨fun c => c.IsEnabledAddOnStresserRemote, ["stresser-remote-requests-writes-summary.txt"],
      fun c => c.AddOnStresserRemote.RequestsWritesSummaryTablePath⟩,
    ⟨fun c => c.IsEnabledAddOnStresserRemote, ["stresser-remote-requests-writes-compare.json"],
      fun c => c.AddOnStresserRemote.RequestsWritesCompareJSONPath⟩,
    ⟨fun c => c.IsEnabledAddOnStresserRemote, ["stresser-remote-requests-writes-compare.txt"],
      fun c => c.AddOnStresserRemote.RequestsWritesCompareTablePath⟩,
    ⟨fun c => c.IsEnabledAddOnStresserRemote, ["stresser-remote-requests-reads-raw.json"],
      fun c => c.AddOnStresserRemote.RequestsReadsRawJSONPath⟩,
    ⟨fun c => c.IsEnabledAddOnStresserRemote, ["stresser-remote-requests-reads-summary.json"],
      fun c => c.AddOnStresserRemote.RequestsReadsSummaryJSONPath⟩,
    ⟨fun c => c.IsEnabledAddOnStresserRemote, ["stresser-remote-requests-reads-summary.txt"],
      fun c => c.AddOnStresserRemote.RequestsReadsSummaryTablePath⟩,
    ⟨fun c => c.IsEnabledAddOnStresserRemote, ["stresser-remote-requests-reads-compare.json"],
      fun c => c.AddOnStresserRemote.RequestsReadsCompareJSONPath⟩,
    ⟨fun c => c.IsEnabledAddOnStresserRemote, ["stresser-remote-requests-reads-compare.txt"],
      fun c => c.AddOnStresserRemote.RequestsReadsCompareTablePath⟩
  ]

/-- A step of `uploadToS3` after the guards are evaluated: an upload to issue, or
an error to return (a walk error). -/
inductive Action where
  | upload (key localPath : String)
  | fail (err : String)
  deriving DecidableEq, Repr

/-- The uploads of a table, in order: those of enabled add-ons whose local file
exists. -/
def guarded (fs : Files) (cfg : Config) (arts : List Artifact) : List Action :=
  (arts.filter (fun a => a.enabled cfg && fs.Exist (a.localPath cfg))).map
    (fun a => Action.upload (Join (cfg.Name :: a.rel)) (a.localPath cfg))

/-- One guarded upload with a computed key. -/
def guardedOne (fs : Files) (key localPath : String) : List Action :=
  if fs.Exist localPath then [Action.upload key localPath] else []

/-- Lines 96-118: the metrics directory. The function given to `filepath.Walk`
returns the error of the walk, skips directories, and uploads every other file
under its base name. -/
def metricsActions (fs : Files) (cfg : Config) : List Action :=
  if fs.Exist cfg.Status.ClusterMetricsRawOutputDir then
    (fs.Walk cfg.Status.ClusterMetricsRawOutputDir).filterMap (fun e =>
      match e.err with
      | some werr => some (Action.fail werr)
      | none =>
        if e.isDir then none
        else some (Action.upload (Join [cfg.Name, "metrics", Base e.path]) e.path))
  else []

/-- Lines 154-177: the loop over the ASGs of the node-groups add-on. -/
def asgActions (fs : Files) (cfg : Config) : List Action :=
  if cfg.IsEnabledAddOnNodeGroups then
    (cfg.AddOnNodeGroups.ASGs.map (fun kv =>
      guardedOne fs
          (Join [cfg.Name, "cfn", "add-on-node-groups.asg.cfn." ++ kv.1 ++ ".yaml"])
          kv.2.ASGCFNStackYAMLFilePath
        ++ guardedOne fs
          (Join [cfg.Name, "cfn", "add-on-node-groups.ssm.cfn." ++ kv.1 ++ ".yaml"])
          kv.2.SSMDocumentCFNStackYAMLFilePath)).flatten
  else []

/-- Lines 203-226: the loop over the groups of the managed-node-groups add-on. -/
def mngActions (fs : Files) (cfg : Config) : List Action :=
  if cfg.IsEnabledAddOnManagedNodeGroups then
    (cfg.AddOnManagedNodeGroups.MNGs.map (fun kv =>
      guardedOne fs
          (Join [cfg.Name, "cfn", "add-on-managed-node-groups.mng.cfn." ++ kv.1 ++ ".yaml"])
          kv.2.MNGCFNStackYAMLFilePath
        ++ guardedOne fs
          (Join [cfg.Name, "cfn", "add-on-managed-node-groups.sg.cfn." ++ kv.1 ++ ".yaml"])
          kv.2.RemoteAccessSecurityCFNStackYAMLFilePath)).flatten
  else []

/-- The guarded uploads whose key does not come from a loop, in the order of the
source. -/
def fixedArtifacts : List Artifact :=
  headArtifacts ++ nodeGroupArtifacts ++ managedNodeGroupArtifacts ++ conformanceArtifacts
    ++ csrsArtifacts ++ configmapsArtifacts ++ secretsArtifacts ++ roleArtifacts
    ++ stresserArtifacts

/-- Lines 53-1057: the steps of `uploadToS3` for a non-empty bucket name, in the
order of the source. -/
def uploadPlan (fs : Files) (cfg : Config) : List Action :=
  guarded fs cfg headArtifacts ++ metricsActions fs cfg
    ++ guarded fs cfg nodeGroupArtifacts ++ asgActions fs cfg
    ++ guarded fs cfg managedNodeGroupArtifacts ++ mngActions fs cfg
    ++ guarded fs cfg conformanceArtifacts ++ guarded fs cfg csrsArtifacts
    ++ guarded fs cfg configmapsArtifacts ++ guarded fs cfg secretsArtifacts
    ++ guarded fs cfg roleArtifacts ++ guarded fs cfg stresserArtifacts

/-- The steps are taken in order; the first error, of an upload or of the walk,
is returned and ends the function. The result holds the calls made. -/
def runActions (s3 : S3) (bucket : String) : List Action → List S3Call × Option String
  | [] => ([], none)
  | Action.fail err :: _ => ([], some err)
  | Action.upload key localPath :: rest =>
    match s3.Upload bucket key localPath with
    | some err => ([S3Call.upload bucket key localPath], some err)
    | none =>
      let r := runActions s3 bucket rest
      (S3Call.upload bucket key localPath :: r.1, r.2)

/-- Lines 47-1059: `uploadToS3`, with the calls it makes to the S3 helpers, in
order, and the error it returns. -/
def uploadToS3 (fs : Files) (ts : Tester) : List S3Call × Option String :=
  if ts.cfg.S3BucketName = "" then ([], none)
  else runActions ts.s3API ts.cfg.S3BucketName (uploadPlan fs ts.cfg)

/-- An S3 client whose calls all succeed. -/
def sampleS3 : S3 :=
  { EmptyBucket := fun _ => none
    DeleteBucket := fun _ => none
    Upload := fun _ _ _ => none }

/-- An S3 client that cannot empty a bucket. -/
def deniedS3 : S3 :=
  { EmptyBucket := fun _ => some "AccessDenied"
    DeleteBucket := fun _ => none
    Upload := fun _ _ _ => none }

/-- A configuration whose bucket was created by the tester and is not to be kept. -/
def ownBucketConfig : Config :=
  { Name := "eks-1", S3BucketName := "bucket-1", S3BucketCreate := true,
    S3BucketCreateKeep := false }

/-- A configuration with a configuration file, a metrics directory and one ASG. -/
def uploadConfig : Config :=
  { Name := "eks-1", S3BucketName := "bucket-1", ConfigPath := "/tmp/eks.yaml",
    Status := { ClusterMetricsRawOutputDir := "/tmp/metrics" },
    IsEnabledAddOnNodeGroups := true,
    AddOnNodeGroups := { ASGs := [("asg-a", { ASGCFNStackYAMLFilePath := "/tmp/asg.yaml" })] } }

/-- The same configuration with the ASG under another name. -/
def renamedConfig : Config :=
  { uploadConfig with
    AddOnNodeGroups := { ASGs := [("asg-b", { ASGCFNStackYAMLFilePath := "/tmp/asg.yaml" })] } }

/-- A file system with the configuration file, the ASG template and a metrics
directory that holds one file. -/
def sampleFiles : Files :=
  { Exist := fun p => p == "/tmp/eks.yaml" || p == "/tmp/metrics" || p == "/tmp/asg.yaml"
      || p == "/tmp/metrics/apiserver.json"
    Walk := fun root =>
      if root = "/tmp/metrics" then
        [⟨"/tmp/metrics", true, none⟩, ⟨"/tmp/metrics/apiserver.json", false, none⟩]
      else [] }

/-- The same file system with the metrics file under another name. -/
def otherFiles : Files :=
  { Exist := fun p => p == "/tmp/eks.yaml" || p == "/tmp/metrics" || p == "/tmp/asg.yaml"
      || p == "/tmp/metrics/etcd.json"
    Walk := fun root =>
      if root = "/tmp/metrics" then
        [⟨"/tmp/metrics", true, none⟩, ⟨"/tmp/metrics/etcd.json", false, none⟩]
      else [] }

end eks

/-! # Theorems -/

namespace ec2config

/-! ## Field access -/

theorem fieldStep_eq_plan (std : Std) (env : Env) (pfx : String) (f : FieldId) (cc : Config) :
    fieldStep std env pfx f cc =
      match plan std env pfx f with
      | .ok p => .ok (applyPlan f p cc)
      | .error e => .error e
      | .panic e => .panic e := by
  unfold fieldStep plan
  by_cases h1 : f.tag = ""
  · simp [h1, applyPlan]
  · by_cases h2 : env (envVarName pfx f) = ""
    · simp [h1, h2, applyPlan]
    · simp only [h1, h2, if_false]
      cases hk : f.kind <;> simp only [] <;> (try split_ifs) <;>
        first
        | rfl
        | (cases ParseBool std (env (envVarName pfx f)) <;> rfl)
        | (cases std.ParseDuration (env (envVarName pfx f)) <;> rfl)
        | (cases ParseInt std (env (envVarName pfx f)) <;> rfl)
        | (cases ingressRules (Split (env (envVarName pfx f)) ',') [] <;> rfl)

theorem get_setString_ne {f g : FieldId} (h : g ≠ f) (s : String) (c : Config) :
    get g (setString f s c) = get g c := by
  cases f <;> first | rfl | (cases g <;> first | rfl | exact absurd rfl h)

theorem get_setBool_ne {f g : FieldId} (h : g ≠ f) (s : Bool) (c : Config) :
    get g (setBool f s c) = get g c := by
  cases f <;> first | rfl | (cases g <;> first | rfl | exact absurd rfl h)

theorem get_setInt_ne {f g : FieldId} (h : g ≠ f) (s : Int) (c : Config) :
    get g (setInt f s c) = get g c := by
  cases f <;> first | rfl | (cases g <;> first | rfl | exact absurd rfl h)

theorem get_setStrings_ne {f g : FieldId} (h : g ≠ f) (s : List String) (c : Config) :
    get g (setStrings f s c) = get g c := by
  cases f <;> first | rfl | (cases g <;> first | rfl | exact absurd rfl h)

theorem get_setMap_ne {f g : FieldId} (h : g ≠ f) (s : GoMap String) (c : Config) :
    get g (setMap f s c) = get g c := by
  cases f <;> first | rfl | (cases g <;> first | rfl | exact absurd rfl h)

theorem get_assign_ne {f g : FieldId} (h : g ≠ f) (v : Value) (c : Config) :
    get g (assign f v c) = get g c := by
  cases v <;> simp only [assign]
  · exact get_setString_ne h _ _
  · exact get_setBool_ne h _ _
  · exact get_setInt_ne h _ _
  · exact get_setStrings_ne h _ _
  · exact get_setMap_ne h _ _

theorem get_setString_eq {f : FieldId} (hk : f.kind = .string) (s : String) (c : Config) :
    get f (setString f s c) = .str s := by
  cases f <;> first | rfl | exact absurd hk (by decide)

theorem get_setBool_eq {f : FieldId} (hk : f.kind = .bool) (s : Bool) (c : Config) :
    get f (setBool f s c) = .bool s := by
  cases f <;> first | rfl | exact absurd hk (by decide)

theorem get_setInt_eq {f : FieldId} (hk : f.kind = .int ∨ f.kind = .int64) (s : Int)
    (c : Config) : get f (setInt f s c) = .int s := by
  cases f <;> first | rfl | exact absurd hk (by decide)

theorem get_setStrings_eq {f : FieldId} (hk : f.kind = .slice) (s : List String)
    (c : Config) : get f (setStrings f s c) = .strs s := by
  cases f <;> first | rfl | exact absurd hk (by decide)

theorem get_setMap_eq {f : FieldId} (hk : f.name = "IngressRulesTCP") (s : GoMap String)
    (c : Config) : get f (setMap f s c) = .smap s := by
  cases f <;> first | rfl | exact absurd hk (by decide)

theorem get_assign_plan {std : Std} {env : Env} {pfx : String} {f : FieldId} {v : Value}
    (h : plan std env pfx f = .ok (some v)) (c : Config) : get f (assign f v c) = v := by
  unfold plan at h
  by_cases h1 : f.tag = ""
  · simp [h1] at h
  by_cases h2 : env (envVarName pfx f) = ""
  · simp [h1, h2] at h
  simp only [h1, h2, if_false] at h
  cases hk : f.kind <;> rw [hk] at h <;> simp only [] at h
  · cases h; exact get_setString_eq hk _ _
  · cases hb : ParseBool std (env (envVarName pfx f)) <;> rw [hb] at h <;> cases h
    exact get_setBool_eq hk _ _
  · split_ifs at h
    · cases hb : std.ParseDuration (env (envVarName pfx f)) <;> rw [hb] at h <;> cases h
      exact get_setInt_eq (Or.inl hk) _ _
    · cases hb : ParseInt std (env (envVarName pfx f)) <;> rw [hb] at h <;> cases h
      exact get_setInt_eq (Or.inl hk) _ _
  · split_ifs at h
    · cases hb : std.ParseDuration (env (envVarName pfx f)) <;> rw [hb] at h <;> cases h
      exact get_setInt_eq (Or.inr hk) _ _
    · cases hb : ParseInt std (env (envVarName pfx f)) <;> rw [hb] at h <;> cases h
      exact get_setInt_eq (Or.inr hk) _ _
  · split_ifs at h
    cases h; exact get_setStrings_eq hk _ _
  · split_ifs at h with hn
    cases hb : ingressRules (Split (env (envVarName pfx f)) ',') [] <;> rw [hb] at h <;> cases h
    exact get_setMap_eq hn _ _
  · cases h

theorem Config.ext_get {a b : Config} (h : ∀ f, get f a = get f b) : a = b := by
  cases a; cases b
  have h0 := h .EnvPrefix; have h1 := h .AWSAccountID; have h2 := h .AWSRegion
  have h3 := h .LogDebug; have h4 := h .LogOutputs; have h5 := h .LogOutputToUploadPath
  have h6 := h .LogOutputToUploadPathBucket; have h7 := h .LogOutputToUploadPathURL
  have h8 := h .UploadTesterLogs; have h9 := h .UploadBucketExpireDays; have h10 := h .Tag
  have h11 := h .ClusterName; have h12 := h .WaitBeforeDown; have h13 := h .Down
  have h14 := h .ConfigPath; have h15 := h .ConfigPathBucket; have h16 := h .ConfigPathURL
  have h17 := h .UpdatedAt; have h18 := h .ImageID; have h19 := h .UserName
  have h20 := h .Plugins; have h21 := h .InitScript; have h22 := h .InitScriptCreated
  have h23 := h .InstanceType; have h24 := h .ClusterSize; have h25 := h .KeyName
  have h26 := h .KeyPath; have h27 := h .KeyPathBucket; have h28 := h .KeyPathURL
  have h29 := h .KeyCreateSkip; have h30 := h .KeyCreated; have h31 := h .VPCCIDR
  have h32 := h .VPCID; have h33 := h .VPCCreated; have h34 := h .InternetGatewayID
  have h35 := h .RouteTableIDs; have h36 := h .SubnetIDs
  have h37 := h .SubnetIDToAvailabilityZone; have h38 := h .IngressRulesTCP
  have h39 := h .SecurityGroupIDs; have h40 := h .AssociatePublicIPAddress
  have h41 := h .Instances; have h42 := h .Wait; have h43 := h .InstanceProfileName
  have h44 := h .CustomScript
  clear h
  simp only [get, Value.str.injEq, Value.bool.injEq, Value.int.injEq, Value.strs.injEq,
    Value.smap.injEq, Value.insts.injEq, Value.time.injEq] at *
  subst_vars
  rfl

theorem overlay_ok_iff (std : Std) (env : Env) (pfx : String) (fs : List FieldId)
    (c c1 : Config) :
    overlay std env pfx fs c = .ok c1 ↔
      (∀ f ∈ fs, ∃ p, plan std env pfx f = .ok p) ∧ c1 = applyPlans std env pfx fs c := by
  induction fs generalizing c with
  | nil => simp [overlay, applyPlans, eq_comm]
  | cons f fs ih =>
    simp only [overlay, fieldStep_eq_plan, applyPlans, List.mem_cons, forall_eq_or_imp]
    cases hp : plan std env pfx f <;> simp [ih]

theorem newValue_idem (std : Std) (env : Env) (pfx : String) (f : FieldId) (old : Value) :
    newValue std env pfx f (newValue std env pfx f old) = newValue std env pfx f old := by
  unfold newValue
  split <;> simp_all

theorem get_applyPlans (std : Std) (env : Env) (pfx : String) (fs : List FieldId)
    (c : Config) (g : FieldId) :
    get g (applyPlans std env pfx fs c) =
      if g ∈ fs then newValue std env pfx g (get g c) else get g c := by
  induction fs generalizing c with
  | nil => simp [applyPlans]
  | cons f fs ih =>
    simp only [applyPlans, List.mem_cons]
    by_cases hgf : g = f
    · subst hgf
      simp only [true_or, if_true]
      cases hp : plan std env pfx g with
      | ok p =>
        cases p with
        | none => simp [ih, applyPlan, newValue, hp]
        | some v =>
          simp only [ih, applyPlan, get_assign_plan hp]
          simp [newValue, hp]
      | error e => simp [ih, newValue, hp]
      | panic e => simp [ih, newValue, hp]
    · simp only [hgf, false_or]
      cases hp : plan std env pfx f with
      | ok p =>
        cases p with
        | none => simp [ih, applyPlan]
        | some v => simp [ih, applyPlan, get_assign_ne hgf]
      | error e => simp [ih]
      | panic e => simp [ih]

/-! ## UpdateFromEnvs -/

theorem envVarName_eq (pfx : String) (f : FieldId) :
    envVarName pfx f = pfx ++ upperSnakeCase f.tag := by
  have h : ToUpper (Replace (Replace (Replace f.tag ",omitempty" "") "-" "_") "-" "_")
      = upperSnakeCase f.tag := by
    cases f <;> rfl
  simp only [envVarName, h]

theorem fieldStep_congr_env (std : Std) (env1 env2 : Env) (pfx : String) (f : FieldId)
    (cc : Config) (h : f.tag ≠ "" → env1 (envVarName pfx f) = env2 (envVarName pfx f)) :
    fieldStep std env1 pfx f cc = fieldStep std env2 pfx f cc := by
  unfold fieldStep
  by_cases ht : f.tag = ""
  · simp [ht]
  · simp only [ht, if_false, h ht]

theorem overlay_congr_env (std : Std) (env1 env2 : Env) (pfx : String) (fs : List FieldId)
    (cc : Config)
    (h : ∀ f ∈ fs, f.tag ≠ "" → env1 (envVarName pfx f) = env2 (envVarName pfx f)) :
    overlay std env1 pfx fs cc = overlay std env2 pfx fs cc := by
  induction fs generalizing cc with
  | nil => rfl
  | cons f fs ih =>
    simp only [overlay]
    rw [fieldStep_congr_env std env1 env2 pfx f cc (h f (List.mem_cons_self _ _))]
    cases fieldStep std env2 pfx f cc with
    | ok c1 => exact ih c1 (fun g hg => h g (List.mem_cons_of_mem _ hg))
    | error e => rfl
    | panic e => rfl

/-- C4: the environment variable of a field is `EnvPrefix` followed by the field's
external key with hyphens replaced by underscores and letters upper-cased; an
iteration of the loop, and the whole call, read the environment at these names
only; `cluster-name` under the default prefix gives
`AWS_K8S_TESTER_EC2_CLUSTER_NAME`; the only field without a key is `EnvPrefix`,
for which no variable is read. -/
theorem env_var_naming (std : Std) (cfg : Config) (env1 env2 : Env) (f : FieldId) :
    envVarName cfg.EnvPrefix f = cfg.EnvPrefix ++ upperSnakeCase f.tag
    ∧ (∀ cc : Config, (f.tag ≠ "" →
          env1 (cfg.EnvPrefix ++ upperSnakeCase f.tag)
            = env2 (cfg.EnvPrefix ++ upperSnakeCase f.tag)) →
        fieldStep std env1 cfg.EnvPrefix f cc = fieldStep std env2 cfg.EnvPrefix f cc)
    ∧ ((∀ g : FieldId, g.tag ≠ "" →
          env1 (cfg.EnvPrefix ++ upperSnakeCase g.tag)
            = env2 (cfg.EnvPrefix ++ upperSnakeCase g.tag)) →
        UpdateFromEnvs std env1 cfg = UpdateFromEnvs std env2 cfg)
    ∧ envVarName envPfx .ClusterName = "AWS_K8S_TESTER_EC2_CLUSTER_NAME"
    ∧ (f.tag = "" ↔ f = .EnvPrefix) := by
  refine ⟨envVarName_eq _ _, ?_, ?_, by rfl, ?_⟩
  · intro cc h
    exact fieldStep_congr_env std env1 env2 _ f cc (by simpa only [envVarName_eq] using h)
  · intro h
    unfold UpdateFromEnvs
    rw [overlay_congr_env std env1 env2 cfg.EnvPrefix allFields cfg
      (fun g _ hg => by simpa only [envVarName_eq] using h g hg)]
  · cases f <;> decide

theorem overlay_frame (std : Std) (env : Env) (pfx : String) (fs : List FieldId)
    (c c1 : Config) (h : overlay std env pfx fs c = .ok c1) (f : FieldId)
    (hf : f.tag = "" ∨ env (envVarName pfx f) = "") : get f c1 = get f c := by
  obtain ⟨-, rfl⟩ := (overlay_ok_iff std env pfx fs c c1).1 h
  rw [get_applyPlans]
  have hp : plan std env pfx f = .ok none := by
    unfold plan
    rcases hf with hf | hf
    · simp [hf]
    · by_cases ht : f.tag = ""
      · simp [ht]
      · simp [ht, hf]
  simp [newValue, hp]

theorem overlay_unset (std : Std) (env : Env) (pfx : String) (fs : List FieldId)
    (c : Config) (h : ∀ f ∈ fs, f.tag ≠ "" → env (envVarName pfx f) = "") :
    overlay std env pfx fs c = .ok c := by
  induction fs with
  | nil => rfl
  | cons f fs ih =>
    have hs : fieldStep std env pfx f c = .ok c := by
      unfold fieldStep
      by_cases ht : f.tag = ""
      · simp [ht]
      · simp [ht, h f (List.mem_cons_self _ _) ht]
    simp only [overlay, hs]
    exact ih (fun g hg => h g (List.mem_cons_of_mem _ hg))

theorem status_ok_iff (std : Std) (env : Env) (cfg : Config) :
    (UpdateFromEnvs std env cfg).2 = .ok ↔
      overlay std env cfg.EnvPrefix allFields cfg = .ok (UpdateFromEnvs std env cfg).1 := by
  unfold UpdateFromEnvs
  cases overlay std env cfg.EnvPrefix allFields cfg <;> simp

/-- C5: when `UpdateFromEnvs` succeeds, every field whose variable reads as the
empty string (unset or empty), and every field without an external key, keeps
its value; when no variable of the record is set the call succeeds and the
record is unchanged. -/
theorem update_from_envs_frame (std : Std) (env : Env) (cfg : Config) :
    ((UpdateFromEnvs std env cfg).2 = .ok →
      ∀ f : FieldId, (f.tag = "" ∨ env (envVarName cfg.EnvPrefix f) = "") →
        get f (UpdateFromEnvs std env cfg).1 = get f cfg)
    ∧ ((∀ f : FieldId, f.tag ≠ "" → env (envVarName cfg.EnvPrefix f) = "") →
        UpdateFromEnvs std env cfg = (cfg, .ok)) := by
  constructor
  · intro h f hf
    exact overlay_frame std env _ _ _ _ ((status_ok_iff std env cfg).1 h) f hf
  · intro h
    unfold UpdateFromEnvs
    rw [overlay_unset std env cfg.EnvPrefix allFields cfg (fun f _ hf => h f hf)]

/-- C6: `UpdateFromEnvs` is idempotent: after a successful call, a second call in
the same environment succeeds and leaves the record as the first call left it. -/
theorem update_from_envs_idempotent (std : Std) (env : Env) (cfg : Config)
    (h : (UpdateFromEnvs std env cfg).2 = .ok) :
    UpdateFromEnvs std env (UpdateFromEnvs std env cfg).1
      = ((UpdateFromEnvs std env cfg).1, .ok) := by
  have h1 := (status_ok_iff std env cfg).1 h
  generalize (UpdateFromEnvs std env cfg).1 = c1 at h1 ⊢
  have hpfx : c1.EnvPrefix = cfg.EnvPrefix := by
    have := overlay_frame std env _ _ _ _ h1 .EnvPrefix (Or.inl rfl)
    simpa [get] using this
  obtain ⟨hall, hc1⟩ := (overlay_ok_iff _ _ _ _ _ _).1 h1
  have h2 : overlay std env cfg.EnvPrefix allFields c1 = .ok c1 := by
    rw [overlay_ok_iff]
    refine ⟨hall, ?_⟩
    apply Config.ext_get
    intro g
    rw [get_applyPlans, hc1, get_applyPlans]
    split_ifs
    · rw [newValue_idem]
    · rfl
  unfold UpdateFromEnvs
  rw [hpfx, h2]

/-- Witness for `update_from_envs_idempotent`: the default record under
`sampleEnv`. -/
theorem update_from_envs_idempotent_witness :
    (UpdateFromEnvs sampleStd sampleEnv defaultConfig).2 = .ok
    ∧ UpdateFromEnvs sampleStd sampleEnv (UpdateFromEnvs sampleStd sampleEnv defaultConfig).1
      = ((UpdateFromEnvs sampleStd sampleEnv defaultConfig).1, .ok) :=
  ⟨by decide, update_from_envs_idempotent sampleStd sampleEnv defaultConfig (by decide)⟩

/-! ## The ingress-rule table -/

theorem splitChars_ne_nil (sep : Char) (cs : List Char) : splitChars sep cs ≠ [] := by
  cases cs with
  | nil => simp [splitChars]
  | cons c cs =>
    simp only [splitChars]
    split_ifs
    · simp
    · split <;> simp

theorem splitChars_head (cs : List Char) :
    (splitChars '=' cs).head? = some (cs.takeWhile (fun c => decide (c ≠ '='))) := by
  induction cs with
  | nil => simp [splitChars]
  | cons c cs ih =>
    simp only [splitChars]
    by_cases h : c = '='
    · simp [h]
    · simp only [h, if_false]
      cases hs : splitChars '=' cs with
      | nil => exact absurd hs (splitChars_ne_nil _ _)
      | cons a t =>
        rw [hs] at ih
        simp only [List.head?_cons, Option.some.injEq] at ih
        simp [h, ih]

theorem splitChars_tail (cs : List Char) :
    (splitChars '=' cs).tail =
      if cs.dropWhile (fun c => decide (c ≠ '=')) = [] then []
      else splitChars '=' ((cs.dropWhile (fun c => decide (c ≠ '='))).drop 1) := by
  induction cs with
  | nil => simp [splitChars]
  | cons c cs ih =>
    simp only [splitChars]
    by_cases h : c = '='
    · simp [h]
    · simp only [h, if_false]
      cases hs : splitChars '=' cs with
      | nil => exact absurd hs (splitChars_ne_nil _ _)
      | cons a t =>
        rw [hs] at ih
        simp only [List.tail_cons] at ih
        simp [h, ih]

theorem split_two (p f0 f1 : String) (rest : List String)
    (h : Split p '=' = f0 :: f1 :: rest) : f0 = pairKey p ∧ f1 = pairValue p := by
  unfold Split at h
  have hh := splitChars_head p.data
  have ht := splitChars_tail p.data
  cases hs : splitChars '=' p.data with
  | nil => rw [hs] at h; simp at h
  | cons a t =>
    rw [hs] at h hh ht
    simp only [List.map_cons, List.cons.injEq] at h
    simp only [List.head?_cons, Option.some.injEq] at hh
    simp only [List.tail_cons] at ht
    refine ⟨by rw [← h.1, hh]; rfl, ?_⟩
    by_cases hd : p.data.dropWhile (fun c => decide (c ≠ '=')) = []
    · rw [if_pos hd] at ht
      rw [ht] at h
      simp at h
    · rw [if_neg hd] at ht
      have h2 := splitChars_head ((p.data.dropWhile (fun c => decide (c ≠ '='))).drop 1)
      rw [← ht] at h2
      cases t with
      | nil => simp at h
      | cons b t2 =>
        simp only [List.head?_cons, Option.some.injEq] at h2
        simp only [List.map_cons, List.cons.injEq] at h
        rw [← h.2.1, h2]
        rfl

theorem ingressRules_ok (l : List String) (m0 m : List (String × String))
    (h : ingressRules l m0 = .ok m) :
    m = l.foldl (fun m p => mapSet (pairKey p) (pairValue p) m) m0 := by
  induction l generalizing m0 with
  | nil => simp only [ingressRules, Outcome.ok.injEq] at h; simp [h]
  | cons p l ih =>
    simp only [ingressRules] at h
    split at h
    · rename_i f0 f1 rest hs
      obtain ⟨h0, h1⟩ := split_two p f0 f1 rest hs
      rw [List.foldl_cons, ← h0, ← h1]
      exact ih _ h
    · cases h

/-! ## First failing field -/

theorem overlay_append (std : Std) (env : Env) (pfx : String) (l1 l2 : List FieldId)
    (c : Config) :
    overlay std env pfx (l1 ++ l2) c =
      match overlay std env pfx l1 c with
      | .ok c1 => overlay std env pfx l2 c1
      | .error e => .error e
      | .panic e => .panic e := by
  induction l1 generalizing c with
  | nil => rfl
  | cons f l1 ih =>
    simp only [List.cons_append, overlay]
    cases fieldStep std env pfx f c with
    | ok c1 => exact ih c1
    | error e => rfl
    | panic e => rfl

theorem allFields_split (f : FieldId) : allFields = fieldsBefore f ++ f :: fieldsAfter f := by
  cases f <;> rfl

theorem mem_allFields (f : FieldId) : f ∈ allFields := by
  rw [allFields_split f]; simp

theorem unchanged_of_not_ok (std : Std) (env : Env) (cfg : Config)
    (h : (UpdateFromEnvs std env cfg).2 ≠ .ok) : (UpdateFromEnvs std env cfg).1 = cfg := by
  unfold UpdateFromEnvs at h ⊢
  cases ho : overlay std env cfg.EnvPrefix allFields cfg with
  | ok c => rw [ho] at h; exact absurd rfl h
  | error e => rfl
  | panic e => rfl

theorem plan_ok_of_status_ok (std : Std) (env : Env) (cfg : Config)
    (h : (UpdateFromEnvs std env cfg).2 = .ok) (f : FieldId) :
    ∃ p, plan std env cfg.EnvPrefix f = .ok p :=
  ((overlay_ok_iff _ _ _ _ _ _).1 ((status_ok_iff std env cfg).1 h)).1 f (mem_allFields f)

theorem status_of_first_failure (std : Std) (env : Env) (cfg : Config) (f : FieldId)
    (cc : Config) (hb : overlay std env cfg.EnvPrefix (fieldsBefore f) cfg = .ok cc) :
    (UpdateFromEnvs std env cfg).2 =
      match fieldStep std env cfg.EnvPrefix f cc with
      | .ok c1 =>
        (match overlay std env cfg.EnvPrefix (fieldsAfter f) c1 with
          | .ok _ => .ok
          | .error e => .error e
          | .panic e => .panic e)
      | .error e => .error e
      | .panic e => .panic e := by
  unfold UpdateFromEnvs
  rw [allFields_split f, overlay_append, hb]
  simp only [overlay]
  cases fieldStep std env cfg.EnvPrefix f cc with
  | ok c1 =>
    simp only []
    cases overlay std env cfg.EnvPrefix (fieldsAfter f) c1 <;> rfl
  | error e => rfl
  | panic e => rfl

/-! ## Claims about the ingress-rule variable -/

/-- C7 (amended): when the ingress-rule variable is set and `UpdateFromEnvs` succeeds,
`IngressRulesTCP` is the table of the comma-separated pairs in which the key of a
pair is the text before its first `=` and the value is the text between its first
and its second `=` (what follows a second `=` is dropped). -/
theorem ingress_rules_table (std : Std) (env : Env) (cfg : Config)
    (hset : env (envVarName cfg.EnvPrefix .IngressRulesTCP) ≠ "")
    (hok : (UpdateFromEnvs std env cfg).2 = .ok) :
    (UpdateFromEnvs std env cfg).1.IngressRulesTCP
      = some (ingressTable (env (envVarName cfg.EnvPrefix .IngressRulesTCP))) := by
  have h1 := (status_ok_iff std env cfg).1 hok
  obtain ⟨-, hc1⟩ := (overlay_ok_iff _ _ _ _ _ _).1 h1
  have hg := get_applyPlans std env cfg.EnvPrefix allFields cfg .IngressRulesTCP
  rw [← hc1, if_pos (mem_allFields _)] at hg
  obtain ⟨p, hp⟩ := plan_ok_of_status_ok std env cfg hok .IngressRulesTCP
  have hp2 := hp
  unfold plan at hp2
  have ht : FieldId.tag .IngressRulesTCP ≠ "" := by decide
  have hn : FieldId.name .IngressRulesTCP = "IngressRulesTCP" := rfl
  have hk : FieldId.kind .IngressRulesTCP = .map := rfl
  simp only [ht, hset, if_false, hk, hn, if_true] at hp2
  cases hi : ingressRules (Split (env (envVarName cfg.EnvPrefix .IngressRulesTCP)) ',') [] with
  | ok m =>
    rw [hi] at hp2
    simp only [Outcome.ok.injEq] at hp2
    have hm := ingressRules_ok _ _ _ hi
    simp only [newValue, hp, ← hp2, get, Value.smap.injEq] at hg
    rw [hg, hm]
    rfl
  | error e => rw [hi] at hp2; cases hp2
  | panic e => rw [hi] at hp2; cases hp2

/-- Witness for `ingress_rules_table`: the default record under `sampleEnv`. -/
theorem ingress_rules_table_witness :
    sampleEnv (envVarName defaultConfig.EnvPrefix .IngressRulesTCP) ≠ ""
    ∧ (UpdateFromEnvs sampleStd sampleEnv defaultConfig).2 = .ok
    ∧ (UpdateFromEnvs sampleStd sampleEnv defaultConfig).1.IngressRulesTCP
      = some (ingressTable (sampleEnv (envVarName defaultConfig.EnvPrefix .IngressRulesTCP))) :=
  ⟨by decide, by decide,
    ingress_rules_table sampleStd sampleEnv defaultConfig (by decide) (by decide)⟩

/-- C7 fails as stated: for the pair `22=a=b` the call succeeds and stores the value
`a` under the key `22`, not the value `a=b`. -/
theorem ingress_rules_first_equals_counterexample :
    (UpdateFromEnvs sampleStd envTwoEquals defaultConfig).2 = .ok
    ∧ (UpdateFromEnvs sampleStd envTwoEquals defaultConfig).1.IngressRulesTCP
        = some [("22", "a")]
    ∧ (UpdateFromEnvs sampleStd envTwoEquals defaultConfig).1.IngressRulesTCP
        ≠ some [("22", "a=b")] := by
  decide

/-- C8 (evaluation at the failing inputs): with the ingress-rule variable set to `22`,
or to `22=0.0.0.0/0,`, `UpdateFromEnvs` does not return an error: indexing
`fields[1]` panics. The caller's record is as before. -/
theorem ingress_malformed_pair_panics :
    UpdateFromEnvs sampleStd envNoEquals defaultConfig
        = (defaultConfig, .panic "runtime error: index out of range")
    ∧ UpdateFromEnvs sampleStd envTrailingComma defaultConfig
        = (defaultConfig, .panic "runtime error: index out of range") := by
  decide

/-! ## Unsupported fields and parse failures -/

theorem contains_mid (a b c : String) : Contains (a ++ b ++ c) b := by
  unfold Contains
  exact ⟨a.data, c.data, by simp [String.data_append]⟩

theorem contains_trans {a b c : String} (h1 : Contains a b) (h2 : Contains b c) :
    Contains a c := by
  unfold Contains at *
  exact List.IsInfix.trans h2 h1

theorem quote_plain (std : Std) (s : String) (h : Plain std s) :
    Quote std s = "\"" ++ s ++ "\"" := by
  have hf : ∀ l : List Char, (∀ c ∈ l, escapeRune std c = [c]) →
      (l.map (escapeRune std)).flatten = l := by
    intro l
    induction l with
    | nil => intro _; rfl
    | cons c l ih =>
      intro hl
      simp only [List.map_cons, List.flatten_cons]
      rw [hl c (List.mem_cons_self _ _), ih (fun d hd => hl d (List.mem_cons_of_mem _ hd))]
      rfl
  unfold Quote
  rw [hf s.data h]
  apply String.ext
  simp [String.data_append]

theorem unsupported_step (std : Std) (env : Env) (pfx : String) (f : FieldId) (cc : Config)
    (hf : f = .LogOutputs ∨ f = .RouteTableIDs ∨ f = .SubnetIDToAvailabilityZone
      ∨ f = .Instances ∨ f = .UpdatedAt)
    (hset : env (envVarName pfx f) ≠ "") :
    fieldStep std env pfx f cc = .error (unsupportedError std pfx f) := by
  rcases hf with h | h | h | h | h <;> subst h
  · have ht : FieldId.tag .LogOutputs ≠ "" := by decide
    simp only [fieldStep, ht, hset, if_false, FieldId.kind, FieldId.name, notSupportedField,
      unsupportedError]
    rw [if_neg (by decide), if_neg (by decide)]
    rfl
  · have ht : FieldId.tag .RouteTableIDs ≠ "" := by decide
    simp only [fieldStep, ht, hset, if_false, FieldId.kind, FieldId.name, notSupportedField,
      unsupportedError]
    rw [if_neg (by decide), if_neg (by decide)]
    rfl
  · have ht : FieldId.tag .SubnetIDToAvailabilityZone ≠ "" := by decide
    simp only [fieldStep, ht, hset, if_false, FieldId.kind, FieldId.name, notSupportedField,
      unsupportedError]
    rw [if_neg (by decide), if_neg (by decide)]
    rfl
  · have ht : FieldId.tag .Instances ≠ "" := by decide
    simp only [fieldStep, ht, hset, if_false, FieldId.kind, FieldId.name, notSupportedField,
      unsupportedError]
    rw [if_neg (by decide), if_neg (by decide)]
    rfl
  · have ht : FieldId.tag .UpdatedAt ≠ "" := by decide
    simp only [fieldStep, ht, hset, if_false, FieldId.kind, notSupportedEnv,
      unsupportedError, FieldId.typeName, if_true]

theorem not_ok_of_step_error (std : Std) (env : Env) (cfg : Config) (f : FieldId) (e : String)
    (h : ∀ cc, fieldStep std env cfg.EnvPrefix f cc = .error e) :
    (UpdateFromEnvs std env cfg).2 ≠ .ok := by
  intro hok
  obtain ⟨p, hp⟩ := plan_ok_of_status_ok std env cfg hok f
  have := h cfg
  rw [fieldStep_eq_plan, hp] at this
  cases this

/-- C9 (amended): when the variable of `LogOutputs`, `RouteTableIDs`,
`SubnetIDToAvailabilityZone`, `Instances` or `UpdatedAt` is set to a non-empty
value, `UpdateFromEnvs` does not succeed and leaves the record unchanged; when
the loop gets through the fields declared before that field, the call returns
the unsupported-field error of that field, which for the four slice and map
fields reads `parsing field name "<field>" not supported` and for `UpdatedAt`
names the environment variable and the type `time.Time`. -/
theorem unsupported_field_kind (std : Std) (env : Env) (cfg : Config) (f : FieldId)
    (hf : f = .LogOutputs ∨ f = .RouteTableIDs ∨ f = .SubnetIDToAvailabilityZone
      ∨ f = .Instances ∨ f = .UpdatedAt)
    (hset : env (envVarName cfg.EnvPrefix f) ≠ "") :
    (UpdateFromEnvs std env cfg).1 = cfg
    ∧ (UpdateFromEnvs std env cfg).2 ≠ .ok
    ∧ (∀ cc, overlay std env cfg.EnvPrefix (fieldsBefore f) cfg = .ok cc →
        (UpdateFromEnvs std env cfg).2 = .error (unsupportedError std cfg.EnvPrefix f))
    ∧ (f ≠ .UpdatedAt → Contains (unsupportedError std cfg.EnvPrefix f) f.name)
    ∧ (f = .UpdatedAt → Contains (unsupportedError std cfg.EnvPrefix f)
        (Quote std (envVarName cfg.EnvPrefix f))) := by
  have hstep := fun cc => unsupported_step std env cfg.EnvPrefix f cc hf hset
  have hno := not_ok_of_step_error std env cfg f _ hstep
  refine ⟨unchanged_of_not_ok std env cfg hno, hno, ?_, ?_, ?_⟩
  · intro cc hb
    rw [status_of_first_failure std env cfg f cc hb, hstep cc]
  · intro hne
    simp only [unsupportedError, if_neg hne]
    exact contains_mid _ _ _
  · intro he
    simp only [unsupportedError, if_pos he]
    exact ⟨[], (" (" ++ "time.Time" ++ ") is not supported as an env").data,
      by simp [String.data_append]⟩

/-- Witness for `unsupported_field_kind`: the default record with the variable of
`LogOutputs` set. -/
theorem unsupported_field_kind_witness :
    envLogOutputs (envVarName defaultConfig.EnvPrefix .LogOutputs) ≠ ""
    ∧ (UpdateFromEnvs sampleStd envLogOutputs defaultConfig).2
        = .error "parsing field name \"LogOutputs\" not supported" :=
  ⟨by decide,
    (unsupported_field_kind sampleStd envLogOutputs defaultConfig .LogOutputs (Or.inl rfl)
      (by decide)).2.2.1 _ (by rfl)⟩

set_option maxRecDepth 100000 in
/-- C9 fails as stated, in two ways. With a boolean that does not parse declared
before `LogOutputs`, the call fails with the parse error of the boolean, which
does not name `LogOutputs`; and with only the variable of `UpdatedAt` set, the
error names the variable and the type, not the field `UpdatedAt`. -/
theorem unsupported_field_kind_counterexample :
    envBoolThenLogOutputs (envVarName defaultConfig.EnvPrefix .LogOutputs) ≠ ""
    ∧ (UpdateFromEnvs sampleStd envBoolThenLogOutputs defaultConfig).2
        = .error ("failed to parse \"maybe\" (\"AWS_K8S_TESTER_EC2_LOG_DEBUG\", "
            ++ "strconv.ParseBool: parsing \"maybe\": invalid syntax)")
    ∧ ¬ Contains ("failed to parse \"maybe\" (\"AWS_K8S_TESTER_EC2_LOG_DEBUG\", "
            ++ "strconv.ParseBool: parsing \"maybe\": invalid syntax)") "LogOutputs"
    ∧ envUpdatedAt (envVarName defaultConfig.EnvPrefix .UpdatedAt) ≠ ""
    ∧ (UpdateFromEnvs sampleStd envUpdatedAt defaultConfig).2
        = .error "\"AWS_K8S_TESTER_EC2_UPDATED_AT\" (time.Time) is not supported as an env"
    ∧ ¬ Contains "\"AWS_K8S_TESTER_EC2_UPDATED_AT\" (time.Time) is not supported as an env"
        "UpdatedAt" := by
  decide

theorem tag_ne_of_parse_error (std : Std) (f : FieldId) (sv e : String)
    (h : fieldParseError std f sv = some e) : f.tag ≠ "" := by
  cases f <;> first | decide | (simp [fieldParseError, FieldId.kind] at h)

theorem parse_failure_step (std : Std) (env : Env) (pfx : String) (f : FieldId) (cc : Config)
    (e : String) (hset : env (envVarName pfx f) ≠ "")
    (hfail : fieldParseError std f (env (envVarName pfx f)) = some e) :
    fieldStep std env pfx f cc
      = .error (parseFailure std (env (envVarName pfx f)) (envVarName pfx f) e) := by
  have ht := tag_ne_of_parse_error std f _ e hfail
  unfold fieldParseError at hfail
  unfold fieldStep
  simp only [ht, hset, if_false]
  cases hk : f.kind <;> rw [hk] at hfail <;> simp only [] at hfail ⊢
  · cases hfail
  · cases hb : ParseBool std (env (envVarName pfx f)) <;> rw [hb] at hfail <;>
      simp only [Option.some.injEq] at hfail
    · rw [hfail]
    · cases hfail
  · split_ifs at hfail ⊢
    · cases hb : std.ParseDuration (env (envVarName pfx f)) <;> rw [hb] at hfail <;>
        simp only [Option.some.injEq] at hfail
      · rw [hfail]
      · cases hfail
    · cases hb : ParseInt std (env (envVarName pfx f)) <;> rw [hb] at hfail <;>
        simp only [Option.some.injEq] at hfail
      · rw [hfail]
      · cases hfail
  · split_ifs at hfail ⊢
    · cases hb : std.ParseDuration (env (envVarName pfx f)) <;> rw [hb] at hfail <;>
        simp only [Option.some.injEq] at hfail
      · rw [hfail]
      · cases hfail
    · cases hb : ParseInt std (env (envVarName pfx f)) <;> rw [hb] at hfail <;>
        simp only [Option.some.injEq] at hfail
      · rw [hfail]
      · cases hfail
  · cases hfail
  · cases hfail
  · cases hfail

theorem contains_quoted (std : Std) (s : String) (h : Plain std s) :
    Contains (Quote std s) s := by
  rw [quote_plain std s h]
  exact contains_mid _ _ _

/-- C10 (amended): when the variable of a boolean, integer or duration field holds a
non-empty value that its parser rejects, `UpdateFromEnvs` does not succeed and
the caller's record keeps every field; when the loop gets through the fields
declared before that field, the call returns the error
`failed to parse <value> (<variable>, <parser error>)`, where value and variable
name stand in Go-quoted (`%q`) form, hence verbatim when quoting changes none of
their characters. -/
theorem parse_failure_reported (std : Std) (env : Env) (cfg : Config) (f : FieldId)
    (e : String) (hset : env (envVarName cfg.EnvPrefix f) ≠ "")
    (hfail : fieldParseError std f (env (envVarName cfg.EnvPrefix f)) = some e) :
    (UpdateFromEnvs std env cfg).1 = cfg
    ∧ (UpdateFromEnvs std env cfg).2 ≠ .ok
    ∧ (∀ cc, overlay std env cfg.EnvPrefix (fieldsBefore f) cfg = .ok cc →
        (UpdateFromEnvs std env cfg).2 = .error
          (parseFailure std (env (envVarName cfg.EnvPrefix f)) (envVarName cfg.EnvPrefix f) e))
    ∧ Contains
        (parseFailure std (env (envVarName cfg.EnvPrefix f)) (envVarName cfg.EnvPrefix f) e)
        (Quote std (env (envVarName cfg.EnvPrefix f)))
    ∧ Contains
        (parseFailure std (env (envVarName cfg.EnvPrefix f)) (envVarName cfg.EnvPrefix f) e)
        (Quote std (envVarName cfg.EnvPrefix f))
    ∧ (Plain std (env (envVarName cfg.EnvPrefix f)) → Contains
        (parseFailure std (env (envVarName cfg.EnvPrefix f)) (envVarName cfg.EnvPrefix f) e)
        (env (envVarName cfg.EnvPrefix f)))
    ∧ (Plain std (envVarName cfg.EnvPrefix f) → Contains
        (parseFailure std (env (envVarName cfg.EnvPrefix f)) (envVarName cfg.EnvPrefix f) e)
        (envVarName cfg.EnvPrefix f)) := by
  have hstep := fun cc => parse_failure_step std env cfg.EnvPrefix f cc e hset hfail
  have hno := not_ok_of_step_error std env cfg f _ hstep
  have hq1 : Contains
      (parseFailure std (env (envVarName cfg.EnvPrefix f)) (envVarName cfg.EnvPrefix f) e)
      (Quote std (env (envVarName cfg.EnvPrefix f))) := by
    unfold parseFailure Contains
    exact ⟨"failed to parse ".data,
      (" (" ++ Quote std (envVarName cfg.EnvPrefix f) ++ ", " ++ e ++ ")").data,
      by simp [String.data_append]⟩
  have hq2 : Contains
      (parseFailure std (env (envVarName cfg.EnvPrefix f)) (envVarName cfg.EnvPrefix f) e)
      (Quote std (envVarName cfg.EnvPrefix f)) := by
    unfold parseFailure Contains
    exact ⟨("failed to parse " ++ Quote std (env (envVarName cfg.EnvPrefix f)) ++ " (").data,
      (", " ++ e ++ ")").data, by simp [String.data_append]⟩
  refine ⟨unchanged_of_not_ok std env cfg hno, hno, ?_, hq1, hq2, ?_, ?_⟩
  · intro cc hb
    rw [status_of_first_failure std env cfg f cc hb, hstep cc]
  · intro hp
    exact contains_trans hq1 (contains_quoted std _ hp)
  · intro hp
    exact contains_trans hq2 (contains_quoted std _ hp)

set_option maxRecDepth 100000 in
/-- Witness for `parse_failure_reported`: the default record with `ClusterSize` set to
`three`. -/
theorem parse_failure_reported_witness :
    envBadClusterSize (envVarName defaultConfig.EnvPrefix .ClusterSize) ≠ ""
    ∧ fieldParseError sampleStd .ClusterSize
        (envBadClusterSize (envVarName defaultConfig.EnvPrefix .ClusterSize))
        = some "strconv.ParseInt: parsing \"three\": invalid syntax"
    ∧ (UpdateFromEnvs sampleStd envBadClusterSize defaultConfig).1 = defaultConfig
    ∧ (UpdateFromEnvs sampleStd envBadClusterSize defaultConfig).2 ≠ .ok :=
  have h := parse_failure_reported sampleStd envBadClusterSize defaultConfig .ClusterSize
    "strconv.ParseInt: parsing \"three\": invalid syntax" (by decide) (by decide)
  ⟨by decide, by decide, h.1, h.2.1⟩

set_option maxRecDepth 100000 in
/-- C10 fails as stated, in two ways. With the unsupported field `LogOutputs` set
before a `Down` that is no boolean, the error is the one of `LogOutputs` and
holds neither the variable of `Down` nor its value; and a value with a double
quote in it is reported in escaped form, so the message does not hold the raw
value. -/
theorem parse_failure_reported_counterexample :
    fieldParseError sampleStd .Down
        (envLogOutputsThenDown (envVarName defaultConfig.EnvPrefix .Down))
      = some "strconv.ParseBool: parsing \"maybe\": invalid syntax"
    ∧ (UpdateFromEnvs sampleStd envLogOutputsThenDown defaultConfig).2
        = .error "parsing field name \"LogOutputs\" not supported"
    ∧ ¬ Contains "parsing field name \"LogOutputs\" not supported" "maybe"
    ∧ ¬ Contains "parsing field name \"LogOutputs\" not supported" "AWS_K8S_TESTER_EC2_DOWN"
    ∧ fieldParseError sampleStd .LogDebug
        (envQuoteInBool (envVarName defaultConfig.EnvPrefix .LogDebug))
      = some "strconv.ParseBool: parsing \"a\\\"b\": invalid syntax"
    ∧ (UpdateFromEnvs sampleStd envQuoteInBool defaultConfig).2
        = .error ("failed to parse \"a\\\"b\" (\"AWS_K8S_TESTER_EC2_LOG_DEBUG\", "
            ++ "strconv.ParseBool: parsing \"a\\\"b\": invalid syntax)")
    ∧ ¬ Contains ("failed to parse \"a\\\"b\" (\"AWS_K8S_TESTER_EC2_LOG_DEBUG\", "
            ++ "strconv.ParseBool: parsing \"a\\\"b\": invalid syntax)") "a\"b" := by
  decide

/-! ## ValidateAndSetDefaults -/

theorem mk_ne_empty {l : List Char} (h : l ≠ []) : String.mk l ≠ "" := by
  intro e
  exact h (by simpa using congrArg String.data e)

theorem append_ne_empty_right (a b : String) (h : b ≠ "") : a ++ b ≠ "" := by
  intro e
  apply h
  have := congrArg String.data e
  simp only [String.data_append] at this
  apply String.ext
  simpa using (List.append_eq_nil.1 this).2

theorem append_ne_empty_left (a b : String) (h : a ≠ "") : a ++ b ≠ "" := by
  intro e
  apply h
  have := congrArg String.data e
  simp only [String.data_append] at this
  apply String.ext
  simpa using (List.append_eq_nil.1 this).1

theorem dot_or_self_ne_nil (r : List Char) : (if r = [] then ['.'] else r) ≠ [] := by
  split_ifs with h
  · simp
  · exact h

theorem cleanChars_ne_nil (p : List Char) : cleanChars p ≠ [] :=
  dot_or_self_ne_nil _

theorem Clean_ne_empty (p : String) : Clean p ≠ "" :=
  mk_ne_empty (cleanChars_ne_nil _)

theorem Join_ne_empty (es : List String) (h : ∃ e ∈ es, e ≠ "") : Join es ≠ "" := by
  induction es with
  | nil => obtain ⟨e, he, -⟩ := h; cases he
  | cons a es ih =>
    unfold Join
    split_ifs with ha
    · apply ih
      obtain ⟨e, he, hne⟩ := h
      rcases List.mem_cons.1 he with rfl | he
      · exact absurd ha hne
      · exact ⟨e, he, hne⟩
    · exact Clean_ne_empty _

theorem Abs_ne_empty (sys : Sys) (p : String) (h : p ≠ "") : Abs sys p ≠ "" := by
  unfold Abs
  split_ifs
  · exact Clean_ne_empty _
  · exact Join_ne_empty _ ⟨p, by simp, h⟩

theorem TempFile_ne_empty (o : Oracle) (dir pattern name : String) (hp : pattern ≠ "")
    (h : TempFile o dir pattern = .ok name) : name ≠ "" := by
  unfold TempFile at h
  cases hr : o.tempRandom pattern with
  | error e => rw [hr] at h; cases h
  | ok r =>
    rw [hr] at h
    simp only [Except.ok.injEq] at h
    rw [← h]
    exact Join_ne_empty _ ⟨pattern ++ r, by simp, append_ne_empty_left _ _ hp⟩

theorem createInitScript_ok (sys : Sys) (cfg c : Config)
    (h : createInitScript sys cfg = (c, none)) :
    ∃ s b, c = { cfg with InitScript := s, InitScriptCreated := b }
      ∧ (cfg.Plugins.length > 0 → b = true) := by
  unfold createInitScript at h
  split_ifs at h with hc
  · simp only at h
    cases hr : (sys.Create cfg.UserName cfg.CustomScript cfg.Plugins).2 with
    | some e => rw [hr] at h; cases h
    | none =>
      rw [hr] at h
      simp only [Prod.mk.injEq, and_true] at h
      exact ⟨_, true, h.symm, fun _ => rfl⟩
  · simp only [Prod.mk.injEq, and_true] at h
    refine ⟨cfg.InitScript, cfg.InitScriptCreated, by rw [← h], ?_⟩
    intro hp
    by_contra hb
    exact hc ⟨hp, by simpa using hb⟩

theorem nameCluster_eq (o : Oracle) (cfg : Config) :
    ∃ t n, nameCluster o cfg = { cfg with Tag := t, ClusterName := n } ∧ n ≠ "" := by
  unfold nameCluster
  split_ifs with h
  · exact ⟨_, _, rfl, append_ne_empty_left _ _ (append_ne_empty_right _ _ (by decide))⟩
  · exact ⟨cfg.Tag, cfg.ClusterName, rfl, h⟩

theorem setConfigPath_ok (sys : Sys) (o : Oracle) (cfg c : Config)
    (h : setConfigPath sys o cfg = (c, none)) :
    ∃ p, c = { cfg with ConfigPath := p,
                        ConfigPathBucket := Join [cfg.ClusterName, "a8-ec2config.yaml"] }
      ∧ p ≠ "" := by
  unfold setConfigPath at h
  simp only at h
  split_ifs at h with hc
  · cases ht : TempFile o sys.tempDir "a8-ec2config" with
    | error e => rw [ht] at h; cases h
    | ok name =>
      rw [ht] at h
      simp only [Prod.mk.injEq, and_true] at h
      exact ⟨_, h.symm, Abs_ne_empty sys name (TempFile_ne_empty o _ _ _ (by decide) ht)⟩
  · simp only [Prod.mk.injEq, and_true] at h
    exact ⟨cfg.ConfigPath, h.symm, hc⟩

theorem setLogOutputs_eq (sys : Sys) (cfg : Config) :
    ∃ l, setLogOutputs sys cfg =
        { cfg with LogOutputToUploadPath := Join [sys.tempDir, cfg.ClusterName ++ ".log"],
                   LogOutputs := l,
                   LogOutputToUploadPathBucket := Join [cfg.ClusterName, "a8-ec2.log"] }
      ∧ Join [sys.tempDir, cfg.ClusterName ++ ".log"] ∈ l := by
  unfold setLogOutputs
  simp only
  cases hany : cfg.LogOutputs.any (fun lv => Join [sys.tempDir, cfg.ClusterName ++ ".log"] == lv)
  · exact ⟨_, rfl, by simp⟩
  · refine ⟨cfg.LogOutputs, rfl, ?_⟩
    simp only [List.any_eq_true, beq_iff_eq] at hany
    obtain ⟨x, hx, rfl⟩ := hany
    exact hx

theorem setKey_ok (sys : Sys) (o : Oracle) (cfg c : Config)
    (h : setKey sys o cfg = (c, none)) (hn : cfg.ClusterName ≠ "") :
    ∃ k p, c = { cfg with KeyName := k,
                          KeyPathBucket := Join [cfg.ClusterName, "a8-ec2.key"],
                          KeyPath := p }
      ∧ k ≠ "" ∧ p ≠ "" := by
  unfold setKey at h
  simp only at h
  by_cases hk : cfg.KeyName = "" <;> simp only [hk, if_true, if_false] at h <;>
    split_ifs at h with hp
  · cases ht : TempFile o sys.tempDir "a8-ec2.key" with
    | error e => rw [ht] at h; cases h
    | ok name =>
      rw [ht] at h
      simp only [Prod.mk.injEq, and_true] at h
      exact ⟨_, _, h.symm, hn, Abs_ne_empty sys name (TempFile_ne_empty o _ _ _ (by decide) ht)⟩
  · simp only [Prod.mk.injEq, and_true] at h
    exact ⟨_, _, h.symm, hn, hp⟩
  · cases ht : TempFile o sys.tempDir "a8-ec2.key" with
    | error e => rw [ht] at h; cases h
    | ok name =>
      rw [ht] at h
      simp only [Prod.mk.injEq, and_true] at h
      exact ⟨_, _, h.symm, hk, Abs_ne_empty sys name (TempFile_ne_empty o _ _ _ (by decide) ht)⟩
  · simp only [Prod.mk.injEq, and_true] at h
    exact ⟨_, _, h.symm, hk, hp⟩

theorem settled_of_ok (std : Std) (sys : Sys) (o : Oracle) (cfg c : Config)
    (h : ValidateAndSetDefaults std sys o cfg = (c, none)) : Settled sys c := by
  unfold ValidateAndSetDefaults at h
  cases hreq : checkRequired cfg with
  | some e => rw [hreq] at h; cases h
  | none =>
    rw [hreq] at h
    simp only at h
    rcases hinit : createInitScript sys cfg with ⟨c1, e1⟩
    rw [hinit] at h
    cases e1 with
    | some e => cases h
    | none =>
      simp only at h
      cases hinst : checkInstance c1 with
      | some e => rw [hinst] at h; cases h
      | none =>
        rw [hinst] at h
        simp only at h
        rcases hcp : setConfigPath sys o (nameCluster o c1) with ⟨c3, e3⟩
        rw [hcp] at h
        cases e3 with
        | some e => cases h
        | none =>
          simp only at h
          rcases hkey : setKey sys o (setLogOutputs sys c3) with ⟨c5, e5⟩
          rw [hkey] at h
          cases e5 with
          | some e => cases h
          | none =>
            simp only at h
            cases hcat : checkCatalog std sys c5 with
            | some e => rw [hcat] at h; cases h
            | none =>
              rw [hcat] at h
              simp only [Prod.mk.injEq, and_true] at h
              subst h
              obtain ⟨s, b, rfl, hb⟩ := createInitScript_ok sys cfg c1 hinit
              obtain ⟨t, n, hname, hn⟩ := nameCluster_eq o
                { cfg with InitScript := s, InitScriptCreated := b }
              rw [hname] at hcp
              obtain ⟨p, rfl, hp⟩ := setConfigPath_ok sys o _ c3 hcp
              obtain ⟨l, hlog, hl⟩ := setLogOutputs_eq sys
                { cfg with InitScript := s, InitScriptCreated := b, Tag := t, ClusterName := n,
                           ConfigPath := p,
                           ConfigPathBucket := Join [n, "a8-ec2config.yaml"] }
              rw [hlog] at hkey
              obtain ⟨k, q, rfl, hk, hq⟩ := setKey_ok sys o _ c5 hkey hn
              have hne : l ≠ [] := List.ne_nil_of_mem hl
              simp only [checkCatalog, checkRequired, checkInstance] at hreq hinst hcat
              split_ifs at hreq hinst hcat with h1 h2 h3 h4 h5 h6 h7
              simp only [Settled, checkRequired, checkInstance]
              have hl0 : ¬ l.length = 0 := by
                rw [List.length_eq_zero]; exact hne
              simp only [hl0, h2, h3, h4, h5, h6, h7, if_false, hn, hp, hk, hq, hl, ne_eq,
                not_false_eq_true, and_self, and_true, true_and]
              exact hb

theorem ok_of_settled (std : Std) (sys : Sys) (o : Oracle) (c : Config)
    (h : Settled sys c) : ValidateAndSetDefaults std sys o c = (c, none) := by
  obtain ⟨hreq, hinit, hinst, hn, hp, hpb, hlog, hmem, hlb, hk, hkb, hkp, hcat⟩ := h
  have e1 : createInitScript sys c = (c, none) := by
    unfold createInitScript
    rw [if_neg]
    rintro ⟨hpl, hb⟩
    exact hb (hinit hpl)
  have e2 : nameCluster o c = c := by
    unfold nameCluster
    rw [if_neg hn]
  have e3 : setConfigPath sys o c = (c, none) := by
    unfold setConfigPath
    simp only [if_neg hp, ← hpb]
  have e4 : setLogOutputs sys c = c := by
    unfold setLogOutputs
    have hany : (c.LogOutputs.any fun lv => Join [sys.tempDir, c.ClusterName ++ ".log"] == lv)
        = true := by
      rw [List.any_eq_true]
      exact ⟨_, hmem, by rw [hlog]; simp⟩
    simp only [← hlog, ← hlb]
    rw [hlog, hany]
    simp only [Bool.not_true, Bool.false_eq_true, if_false]
    rw [← hlog, ← hlb]
  have e5 : setKey sys o c = (c, none) := by
    unfold setKey
    simp only [if_neg hk, if_neg hkp, ← hkb]
  have e6 : checkCatalog std sys c = none := by
    unfold checkCatalog
    rw [if_pos hcat]
  unfold ValidateAndSetDefaults
  simp only [hreq, e1, hinst, e2, e3, e4, e5, e6]

/-- C1: `ValidateAndSetDefaults` is idempotent. With the temporary directory, the
working directory, the script generator and the catalog fixed, and whatever the
clock, the random generator and `TempFile` yield in either call: when a first
call succeeds, a second call on the resulting record succeeds too and leaves
the record, hence every field of it, as the first call left it. -/
theorem validate_idempotent (std : Std) (sys : Sys) (o1 o2 : Oracle) (cfg : Config)
    (h : (ValidateAndSetDefaults std sys o1 cfg).2 = none) :
    ValidateAndSetDefaults std sys o2 (ValidateAndSetDefaults std sys o1 cfg).1
      = ((ValidateAndSetDefaults std sys o1 cfg).1, none) :=
  ok_of_settled std sys o2 _
    (settled_of_ok std sys o1 cfg _ (Prod.ext rfl h))

set_option maxRecDepth 100000 in
/-- Witness for `validate_idempotent`: the default record, validated under
`sampleOracle` and then again under `otherOracle`. -/
theorem validate_idempotent_witness :
    (ValidateAndSetDefaults sampleStd sampleSys sampleOracle defaultConfig).2 = none
    ∧ ValidateAndSetDefaults sampleStd sampleSys otherOracle
        (ValidateAndSetDefaults sampleStd sampleSys sampleOracle defaultConfig).1
      = ((ValidateAndSetDefaults sampleStd sampleSys sampleOracle defaultConfig).1, none)
    ∧ (ValidateAndSetDefaults sampleStd sampleSys sampleOracle defaultConfig).1.InitScript
      = "#!/usr/bin/env bash\n# ec2-user\nupdate-amazon-linux-2\n"
        ++ "install-start-docker-amazon-linux-2\n\n" :=
  ⟨by decide,
    validate_idempotent sampleStd sampleSys sampleOracle otherOracle defaultConfig (by decide),
    by decide⟩

theorem createInitScript_frame (sys : Sys) (cfg : Config) (f : FieldId)
    (hf : f ∉ derivedFields) : get f (createInitScript sys cfg).1 = get f cfg := by
  unfold createInitScript
  split_ifs
  · simp only
    split <;> (cases f <;> first | rfl | exact absurd (by decide) hf)
  · rfl

theorem nameCluster_frame (o : Oracle) (cfg : Config) (f : FieldId)
    (hf : f ∉ derivedFields) : get f (nameCluster o cfg) = get f cfg := by
  unfold nameCluster
  split_ifs
  · cases f <;> first | rfl | exact absurd (by decide) hf
  · rfl

theorem setConfigPath_frame (sys : Sys) (o : Oracle) (cfg : Config) (f : FieldId)
    (hf : f ∉ derivedFields) : get f (setConfigPath sys o cfg).1 = get f cfg := by
  unfold setConfigPath
  simp only
  split_ifs
  · cases TempFile o sys.tempDir "a8-ec2config" <;>
      first | rfl | (cases f <;> first | rfl | exact absurd (by decide) hf)
  · cases f <;> first | rfl | exact absurd (by decide) hf

theorem setLogOutputs_frame (sys : Sys) (cfg : Config) (f : FieldId)
    (hf : f ∉ derivedFields) : get f (setLogOutputs sys cfg) = get f cfg := by
  obtain ⟨l, h, -⟩ := setLogOutputs_eq sys cfg
  rw [h]
  cases f <;> first | rfl | exact absurd (by decide) hf

theorem setKey_frame (sys : Sys) (o : Oracle) (cfg : Config) (f : FieldId)
    (hf : f ∉ derivedFields) : get f (setKey sys o cfg).1 = get f cfg := by
  unfold setKey
  simp only
  by_cases hk : cfg.KeyName = "" <;> simp only [hk, if_true, if_false] <;> split_ifs <;>
    cases TempFile o sys.tempDir "a8-ec2.key" <;>
      first | rfl | (cases f <;> first | rfl | exact absurd (by decide) hf)

/-- Fields outside `derivedFields` are never assigned by `ValidateAndSetDefaults`,
however the call ends. -/
theorem validate_frame (std : Std) (sys : Sys) (o : Oracle) (cfg : Config) (f : FieldId)
    (hf : f ∉ derivedFields) :
    get f (ValidateAndSetDefaults std sys o cfg).1 = get f cfg := by
  have h1 := createInitScript_frame sys cfg f hf
  have h2 := nameCluster_frame o (createInitScript sys cfg).1 f hf
  have h3 := setConfigPath_frame sys o (nameCluster o (createInitScript sys cfg).1) f hf
  have h4 := setLogOutputs_frame sys
    (setConfigPath sys o (nameCluster o (createInitScript sys cfg).1)).1 f hf
  have h5 := setKey_frame sys o (setLogOutputs sys
    (setConfigPath sys o (nameCluster o (createInitScript sys cfg).1)).1) f hf
  unfold ValidateAndSetDefaults
  cases checkRequired cfg with
  | some e => rfl
  | none =>
    simp only
    rcases hinit : createInitScript sys cfg with ⟨c1, e1⟩
    rw [hinit] at h1 h2 h3 h4 h5
    simp only at h1 h2 h3 h4 h5
    cases e1 with
    | some e => exact h1
    | none =>
      simp only
      cases checkInstance c1 with
      | some e => exact h1
      | none =>
        simp only
        rcases hcp : setConfigPath sys o (nameCluster o c1) with ⟨c3, e3⟩
        rw [hcp] at h3 h4 h5
        simp only at h3 h4 h5
        cases e3 with
        | some e => simp only; rw [h3, h2, h1]
        | none =>
          simp only
          rcases hkey : setKey sys o (setLogOutputs sys c3) with ⟨c5, e5⟩
          rw [hkey] at h5
          simp only at h5
          have h : get f c5 = get f cfg := by rw [h5, h4, h3, h2, h1]
          cases e5 with
          | some e => exact h
          | none =>
            simp only
            cases checkCatalog std sys c5 <;> exact h

theorem createInitScript_error (sys : Sys) (cfg : Config) (e : String)
    (h : (createInitScript sys cfg).2 = some e) :
    cfg.Plugins.length > 0 ∧ cfg.InitScriptCreated = false
      ∧ (sys.Create cfg.UserName cfg.CustomScript cfg.Plugins).2 = some e := by
  unfold createInitScript at h
  split_ifs at h with hc
  simp only at h
  cases hr : (sys.Create cfg.UserName cfg.CustomScript cfg.Plugins).2 with
  | some e2 => rw [hr] at h; exact ⟨hc.1, by simpa using hc.2, h⟩
  | none => rw [hr] at h; cases h

theorem TempFile_error (o : Oracle) (dir pattern e : String)
    (h : TempFile o dir pattern = .error e) : o.tempRandom pattern = .error e := by
  unfold TempFile at h
  cases hr : o.tempRandom pattern with
  | error e2 => rw [hr] at h; simpa using h
  | ok r => rw [hr] at h; cases h

theorem setConfigPath_error (sys : Sys) (o : Oracle) (cfg : Config) (e : String)
    (h : (setConfigPath sys o cfg).2 = some e) :
    cfg.ConfigPath = "" ∧ o.tempRandom "a8-ec2config" = .error e := by
  unfold setConfigPath at h
  simp only at h
  split_ifs at h with hc
  cases ht : TempFile o sys.tempDir "a8-ec2config" with
  | error e2 =>
    rw [ht] at h
    simp only [Option.some.injEq] at h
    exact ⟨hc, TempFile_error o _ _ _ (h ▸ ht)⟩
  | ok name => rw [ht] at h; cases h

theorem setKey_error (sys : Sys) (o : Oracle) (cfg : Config) (e : String)
    (h : (setKey sys o cfg).2 = some e) :
    cfg.KeyPath = "" ∧ o.tempRandom "a8-ec2.key" = .error e := by
  unfold setKey at h
  simp only at h
  by_cases hk : cfg.KeyName = "" <;> simp only [hk, if_true, if_false] at h <;>
    split_ifs at h with hc <;>
    (cases ht : TempFile o sys.tempDir "a8-ec2.key" with
      | error e2 =>
        rw [ht] at h
        simp only [Option.some.injEq] at h
        exact ⟨hc, TempFile_error o _ _ _ (h ▸ ht)⟩
      | ok name => rw [ht] at h; cases h)

/-- Where an error of `ValidateAndSetDefaults` comes from: a required field, the
script generator when it is run, the instance checks, `TempFile` when a path is
empty, or the catalog. -/
theorem validate_error_source (std : Std) (sys : Sys) (o : Oracle) (cfg : Config)
    (e : String) (h : (ValidateAndSetDefaults std sys o cfg).2 = some e) :
    checkRequired cfg = some e
    ∨ (cfg.Plugins.length > 0 ∧ cfg.InitScriptCreated = false
        ∧ (sys.Create cfg.UserName cfg.CustomScript cfg.Plugins).2 = some e)
    ∨ checkInstance cfg = some e
    ∨ (cfg.ConfigPath = "" ∧ o.tempRandom "a8-ec2config" = .error e)
    ∨ (cfg.KeyPath = "" ∧ o.tempRandom "a8-ec2.key" = .error e)
    ∨ (cfg.InstanceType ∉ sys.InstanceTypes
        ∧ e = "unexpected InstanceType " ++ Quote std cfg.InstanceType) := by
  unfold ValidateAndSetDefaults at h
  cases hreq : checkRequired cfg with
  | some e0 => rw [hreq] at h; exact Or.inl h
  | none =>
    rw [hreq] at h
    simp only at h
    rcases hinit : createInitScript sys cfg with ⟨c1, e1⟩
    have herr := createInitScript_error sys cfg
    rw [hinit] at h herr
    cases e1 with
    | some e0 => exact Or.inr (Or.inl (herr e h))
    | none =>
      simp only at h
      obtain ⟨s1, b1, rfl, -⟩ := createInitScript_ok sys cfg c1 hinit
      cases hinst : checkInstance cfg with
      | some e0 =>
        have : checkInstance { cfg with InitScript := s1, InitScriptCreated := b1 }
            = checkInstance cfg := rfl
        rw [this, hinst] at h
        exact Or.inr (Or.inr (Or.inl h))
      | none =>
        have : checkInstance { cfg with InitScript := s1, InitScriptCreated := b1 }
            = checkInstance cfg := rfl
        rw [this, hinst] at h
        simp only at h
        obtain ⟨t, n, hname, hn⟩ := nameCluster_eq o
          { cfg with InitScript := s1, InitScriptCreated := b1 }
        rw [hname] at h
        rcases hcp : setConfigPath sys o
          { cfg with InitScript := s1, InitScriptCreated := b1, Tag := t, ClusterName := n }
          with ⟨c3, e3⟩
        have herr3 := setConfigPath_error sys o
          { cfg with InitScript := s1, InitScriptCreated := b1, Tag := t, ClusterName := n }
        rw [hcp] at h herr3
        cases e3 with
        | some e0 => exact Or.inr (Or.inr (Or.inr (Or.inl (herr3 e h))))
        | none =>
          simp only at h
          obtain ⟨p, rfl, -⟩ := setConfigPath_ok sys o _ c3 hcp
          obtain ⟨l, hlog, -⟩ := setLogOutputs_eq sys
            { cfg with InitScript := s1, InitScriptCreated := b1, Tag := t, ClusterName := n,
                       ConfigPath := p,
                       ConfigPathBucket := Join [n, "a8-ec2config.yaml"] }
          rw [hlog] at h
          simp only at h
          rcases hkey : setKey sys o
            { cfg with InitScript := s1, InitScriptCreated := b1, Tag := t, ClusterName := n,
                       ConfigPath := p,
                       ConfigPathBucket := Join [n, "a8-ec2config.yaml"],
                       LogOutputToUploadPath := Join [sys.tempDir, n ++ ".log"],
                       LogOutputs := l,
                       LogOutputToUploadPathBucket := Join [n, "a8-ec2.log"] } with ⟨c5, e5⟩
          have herr5 := setKey_error sys o
            { cfg with InitScript := s1, InitScriptCreated := b1, Tag := t, ClusterName := n,
                       ConfigPath := p,
                       ConfigPathBucket := Join [n, "a8-ec2config.yaml"],
                       LogOutputToUploadPath := Join [sys.tempDir, n ++ ".log"],
                       LogOutputs := l,
                       LogOutputToUploadPathBucket := Join [n, "a8-ec2.log"] }
          rw [hkey] at h herr5
          cases e5 with
          | some e0 => exact Or.inr (Or.inr (Or.inr (Or.inr (Or.inl (herr5 e h)))))
          | none =>
            simp only at h
            obtain ⟨k, q, rfl, -, -⟩ := setKey_ok sys o _ c5 hkey hn
            cases hcat : checkCatalog std sys _ with
            | none => rw [hcat] at h; cases h
            | some e0 =>
              rw [hcat] at h
              simp only [Option.some.injEq] at h
              unfold checkCatalog at hcat
              simp only at hcat
              split_ifs at hcat with hm
              simp only [Option.some.injEq] at hcat
              exact Or.inr (Or.inr (Or.inr (Or.inr (Or.inr ⟨hm, by rw [← h, ← hcat]⟩))))

/-- C2 (amended): for a record that passes the required-field, instance-type
presence and cluster-size checks and whose instance type is not in the catalog,
`ValidateAndSetDefaults` does not succeed; it returns the unknown-instance-type
error when the script generator (if it is run) and `TempFile` (if a path is
empty) do not fail first; and every field keeps its value except the fields the
defaulting steps before the catalog check assign, listed in `derivedFields`. -/
theorem unknown_instance_type (std : Std) (sys : Sys) (o : Oracle) (cfg : Config)
    (hreq : checkRequired cfg = none) (hinst : checkInstance cfg = none)
    (hcat : cfg.InstanceType ∉ sys.InstanceTypes) :
    (ValidateAndSetDefaults std sys o cfg).2 ≠ none
    ∧ ((cfg.Plugins.length > 0 → cfg.InitScriptCreated = false →
          (sys.Create cfg.UserName cfg.CustomScript cfg.Plugins).2 = none) →
        (cfg.ConfigPath = "" → ∃ r, o.tempRandom "a8-ec2config" = .ok r) →
        (cfg.KeyPath = "" → ∃ r, o.tempRandom "a8-ec2.key" = .ok r) →
        (ValidateAndSetDefaults std sys o cfg).2
          = some ("unexpected InstanceType " ++ Quote std cfg.InstanceType))
    ∧ (∀ f : FieldId, f ∉ derivedFields →
        get f (ValidateAndSetDefaults std sys o cfg).1 = get f cfg) := by
  have hne : (ValidateAndSetDefaults std sys o cfg).2 ≠ none := by
    intro hnone
    have hs := settled_of_ok std sys o cfg _ (Prod.ext rfl hnone)
    have hty := validate_frame std sys o cfg .InstanceType (by decide)
    simp only [get, Value.str.injEq] at hty
    have := hs.2.2.2.2.2.2.2.2.2.2.2.2
    rw [hty] at this
    exact hcat this
  refine ⟨hne, ?_, fun f hf => validate_frame std sys o cfg f hf⟩
  intro hgen hcp hkp
  cases hr : (ValidateAndSetDefaults std sys o cfg).2 with
  | none => exact absurd hr hne
  | some e =>
    rcases validate_error_source std sys o cfg e hr with h | h | h | h | h | h
    · rw [hreq] at h; cases h
    · rw [hgen h.1 h.2.1] at h; cases h.2.2
    · rw [hinst] at h; cases h
    · obtain ⟨r, hr2⟩ := hcp h.1
      rw [hr2] at h; cases h.2
    · obtain ⟨r, hr2⟩ := hkp h.1
      rw [hr2] at h; cases h.2
    · rw [h.2]

set_option maxRecDepth 100000 in
/-- Witness for `unknown_instance_type`: the default record with the instance type
`nonsense`. -/
theorem unknown_instance_type_witness :
    checkRequired nonsenseConfig = none ∧ checkInstance nonsenseConfig = none
    ∧ nonsenseConfig.InstanceType ∉ sampleSys.InstanceTypes
    ∧ (ValidateAndSetDefaults sampleStd sampleSys sampleOracle nonsenseConfig).2
        = some "unexpected InstanceType \"nonsense\"" :=
  ⟨by decide, by decide, by decide,
    (unknown_instance_type sampleStd sampleSys sampleOracle nonsenseConfig (by decide)
      (by decide) (by decide)).2.1 (fun _ _ => rfl) (fun _ => ⟨_, rfl⟩) (fun _ => ⟨_, rfl⟩)⟩

set_option maxRecDepth 100000 in
/-- C2 fails as stated: the default record with the instance type `nonsense` passes
the earlier checks and gets the unknown-instance-type error, but by then the
record has been given an init script, a cluster name and paths. -/
theorem unknown_instance_type_counterexample :
    checkRequired nonsenseConfig = none ∧ checkInstance nonsenseConfig = none
    ∧ nonsenseConfig.InstanceType ∉ sampleSys.InstanceTypes
    ∧ (ValidateAndSetDefaults sampleStd sampleSys sampleOracle nonsenseConfig).2
        = some "unexpected InstanceType \"nonsense\""
    ∧ (ValidateAndSetDefaults sampleStd sampleSys sampleOracle nonsenseConfig).1
        ≠ nonsenseConfig
    ∧ nonsenseConfig.ClusterName = ""
    ∧ (ValidateAndSetDefaults sampleStd sampleSys sampleOracle nonsenseConfig).1.ClusterName
        = "a8-ec2-261104-3ahov29"
    ∧ nonsenseConfig.InitScriptCreated = false
    ∧ (ValidateAndSetDefaults sampleStd sampleSys sampleOracle
        nonsenseConfig).1.InitScriptCreated = true := by
  decide

/-! ## NewDefault -/

/-- C3 (evaluation at the failing input): two records from `NewDefault` share the
backing arrays of `LogOutputs` and `Plugins` and the map of `IngressRulesTCP` with
each other and with the package variable. Right after package initialisation the
second record reads as the default values; after `a.Plugins[0] = "x"`,
`a.LogOutputs[0] = "y"` and `a.IngressRulesTCP["80"] = "10.0.0.0/8"` on the first
record, the second record and a record from a later call of `NewDefault` read the
changed values. -/
theorem new_default_copies_share_storage :
    readSlice initPackage.mem secondCopy.Plugins = defaultConfig.Plugins
    ∧ readSlice initPackage.mem secondCopy.LogOutputs = defaultConfig.LogOutputs
    ∧ some (readMap initPackage.mem secondCopy.IngressRulesTCP) = defaultConfig.IngressRulesTCP
    ∧ readSlice memoryAfterWrites secondCopy.Plugins
        = ["x", "install-start-docker-amazon-linux-2"]
    ∧ readSlice memoryAfterWrites secondCopy.LogOutputs = ["y"]
    ∧ readMap memoryAfterWrites secondCopy.IngressRulesTCP
        = [("22", "0.0.0.0/0"), ("80", "10.0.0.0/8")]
    ∧ readSlice memoryAfterWrites laterCopy.Plugins
        = ["x", "install-start-docker-amazon-linux-2"]
    ∧ readSlice memoryAfterWrites laterCopy.LogOutputs = ["y"]
    ∧ readMap memoryAfterWrites laterCopy.IngressRulesTCP
        = [("22", "0.0.0.0/0"), ("80", "10.0.0.0/8")] := by
  decide

/-! ## ValidateAndSetDefaults, step by step -/

theorem createInitScript_touches (sys : Sys) (cfg : Config) (f : FieldId)
    (hf : f ∉ [FieldId.InitScript, FieldId.InitScriptCreated]) :
    get f (createInitScript sys cfg).1 = get f cfg := by
  unfold createInitScript
  split_ifs
  · simp only
    split <;> (cases f <;> first | rfl | exact absurd (by decide) hf)
  · rfl

theorem nameCluster_touches (o : Oracle) (cfg : Config) (f : FieldId)
    (hf : f ∉ [FieldId.Tag, FieldId.ClusterName]) :
    get f (nameCluster o cfg) = get f cfg := by
  unfold nameCluster
  split_ifs
  · cases f <;> first | rfl | exact absurd (by decide) hf
  · rfl

theorem setConfigPath_touches (sys : Sys) (o : Oracle) (cfg : Config) (f : FieldId)
    (hf : f ∉ [FieldId.ConfigPath, FieldId.ConfigPathBucket]) :
    get f (setConfigPath sys o cfg).1 = get f cfg := by
  unfold setConfigPath
  simp only
  split_ifs
  · cases TempFile o sys.tempDir "a8-ec2config" <;>
      first | rfl | (cases f <;> first | rfl | exact absurd (by decide) hf)
  · cases f <;> first | rfl | exact absurd (by decide) hf

theorem setLogOutputs_touches (sys : Sys) (cfg : Config) (f : FieldId)
    (hf : f ∉ [FieldId.LogOutputToUploadPath, FieldId.LogOutputs,
      FieldId.LogOutputToUploadPathBucket]) :
    get f (setLogOutputs sys cfg) = get f cfg := by
  obtain ⟨l, h, -⟩ := setLogOutputs_eq sys cfg
  rw [h]
  cases f <;> first | rfl | exact absurd (by decide) hf

theorem setKey_touches (sys : Sys) (o : Oracle) (cfg : Config) (f : FieldId)
    (hf : f ∉ [FieldId.KeyName, FieldId.KeyPathBucket, FieldId.KeyPath]) :
    get f (setKey sys o cfg).1 = get f cfg := by
  unfold setKey
  simp only
  by_cases hk : cfg.KeyName = "" <;> simp only [hk, if_true, if_false] <;> split_ifs <;>
    cases TempFile o sys.tempDir "a8-ec2.key" <;>
      first | rfl | (cases f <;> first | rfl | exact absurd (by decide) hf)

/-- Where `ValidateAndSetDefaults` leaves the record: as it was (a required field is
missing), after the init-script step (the script generator or an instance check
failed), after the configuration-path step (`TempFile` failed there), or after
the key step. -/
theorem validate_record_cases (std : Std) (sys : Sys) (o : Oracle) (cfg : Config) :
    ((ValidateAndSetDefaults std sys o cfg).1 = cfg
      ∧ (ValidateAndSetDefaults std sys o cfg).2 = checkRequired cfg
      ∧ checkRequired cfg ≠ none)
    ∨ (checkRequired cfg = none ∧
        (((ValidateAndSetDefaults std sys o cfg).1 = (createInitScript sys cfg).1
            ∧ (ValidateAndSetDefaults std sys o cfg).2 ≠ none)
        ∨ ((createInitScript sys cfg).2 = none
            ∧ checkInstance (createInitScript sys cfg).1 = none
            ∧ (((ValidateAndSetDefaults std sys o cfg).1
                  = (setConfigPath sys o (nameCluster o (createInitScript sys cfg).1)).1
                ∧ (ValidateAndSetDefaults std sys o cfg).2 ≠ none)
              ∨ ((setConfigPath sys o (nameCluster o (createInitScript sys cfg).1)).2 = none
                ∧ (ValidateAndSetDefaults std sys o cfg).1
                  = (setKey sys o (setLogOutputs sys
                      (setConfigPath sys o
                        (nameCluster o (createInitScript sys cfg).1)).1)).1))))) := by
  unfold ValidateAndSetDefaults
  cases hreq : checkRequired cfg with
  | some e => exact Or.inl ⟨rfl, rfl, by simp⟩
  | none =>
    refine Or.inr ⟨rfl, ?_⟩
    simp only
    rcases hinit : createInitScript sys cfg with ⟨c1, e1⟩
    cases e1 with
    | some e => refine Or.inl ⟨?_, ?_⟩ <;> first | rfl | simp
    | none =>
      simp only
      cases hinst : checkInstance c1 with
      | some e => refine Or.inl ⟨?_, ?_⟩ <;> first | rfl | simp
      | none =>
        refine Or.inr ⟨trivial, rfl, ?_⟩
        simp only
        rcases hcp : setConfigPath sys o (nameCluster o c1) with ⟨c3, e3⟩
        cases e3 with
        | some e => refine Or.inl ⟨?_, ?_⟩ <;> first | rfl | simp
        | none =>
          refine Or.inr ⟨rfl, ?_⟩
          simp only
          rcases hkey : setKey sys o (setLogOutputs sys c3) with ⟨c5, e5⟩
          cases e5 with
          | some e => rfl
          | none =>
            simp only
            cases checkCatalog std sys c5 <;> rfl

/-- The fields that only the init-script step assigns keep, to the end of the call,
the value that step gave them. -/
theorem validate_after_script (std : Std) (sys : Sys) (o : Oracle) (cfg : Config)
    (hreq : checkRequired cfg = none) (f : FieldId)
    (hf : f = .InitScript ∨ f = .InitScriptCreated) :
    get f (ValidateAndSetDefaults std sys o cfg).1 = get f (createInitScript sys cfg).1 := by
  have h2 := nameCluster_touches o (createInitScript sys cfg).1 f
    (by rcases hf with h | h <;> subst h <;> decide)
  have h3 := setConfigPath_touches sys o (nameCluster o (createInitScript sys cfg).1) f
    (by rcases hf with h | h <;> subst h <;> decide)
  have h4 := setLogOutputs_touches sys
    (setConfigPath sys o (nameCluster o (createInitScript sys cfg).1)).1 f
    (by rcases hf with h | h <;> subst h <;> decide)
  have h5 := setKey_touches sys o (setLogOutputs sys
    (setConfigPath sys o (nameCluster o (createInitScript sys cfg).1)).1) f
    (by rcases hf with h | h <;> subst h <;> decide)
  rcases validate_record_cases std sys o cfg with h | ⟨-, h | ⟨-, -, h | h⟩⟩
  · exact absurd hreq h.2.2
  · rw [h.1]
  · rw [h.1, h3, h2]
  · rw [h.2, h5, h4, h3, h2]

/-- C11 (amended): when `ValidateAndSetDefaults` generates the init script (the
required fields are present, the plugin list is not empty, `InitScriptCreated` is
false and the generator returns no error), the resulting `InitScript` is the
generated text, a line break, and then the text held before: the operator's text
comes last. `InitScriptCreated` is true afterwards. This holds however the rest of
the call ends. -/
theorem init_script_appended (std : Std) (sys : Sys) (o : Oracle) (cfg : Config)
    (hreq : checkRequired cfg = none) (hpl : cfg.Plugins.length > 0)
    (hnot : cfg.InitScriptCreated = false)
    (hgen : (sys.Create cfg.UserName cfg.CustomScript cfg.Plugins).2 = none) :
    (ValidateAndSetDefaults std sys o cfg).1.InitScript
        = (sys.Create cfg.UserName cfg.CustomScript cfg.Plugins).1 ++ "\n" ++ cfg.InitScript
    ∧ (ValidateAndSetDefaults std sys o cfg).1.InitScriptCreated = true := by
  have h1 := validate_after_script std sys o cfg hreq .InitScript (Or.inl rfl)
  have h2 := validate_after_script std sys o cfg hreq .InitScriptCreated (Or.inr rfl)
  simp only [get, Value.str.injEq, Value.bool.injEq] at h1 h2
  rw [h1, h2]
  unfold createInitScript
  rw [if_pos ⟨hpl, by simp [hnot]⟩]
  simp only [hgen]
  exact ⟨trivial, trivial⟩

set_option maxRecDepth 100000 in
/-- Witness for `init_script_appended`: the default record with the init script
`echo operator`. -/
theorem init_script_appended_witness :
    checkRequired scriptedConfig = none ∧ scriptedConfig.Plugins.length > 0
    ∧ scriptedConfig.InitScriptCreated = false
    ∧ (ValidateAndSetDefaults sampleStd sampleSys sampleOracle scriptedConfig).1.InitScript
        = (sampleSys.Create scriptedConfig.UserName scriptedConfig.CustomScript
            scriptedConfig.Plugins).1 ++ "\n" ++ scriptedConfig.InitScript :=
  ⟨by decide, by decide, by decide,
    (init_script_appended sampleStd sampleSys sampleOracle scriptedConfig (by decide)
      (by decide) (by decide) (by rfl)).1⟩

set_option maxRecDepth 100000 in
/-- C11 fails as stated: with the operator's script `echo operator` and two plugins,
generation succeeds and the resulting script begins with the generated text and
ends with the operator's text; it is not the operator's text followed by the
generated text. -/
theorem init_script_prepended_counterexample :
    (ValidateAndSetDefaults sampleStd sampleSys sampleOracle scriptedConfig).2 = none
    ∧ (sampleSys.Create scriptedConfig.UserName scriptedConfig.CustomScript
        scriptedConfig.Plugins).1
        = "#!/usr/bin/env bash\n# ec2-user\nupdate-amazon-linux-2\n"
          ++ "install-start-docker-amazon-linux-2\n"
    ∧ (ValidateAndSetDefaults sampleStd sampleSys sampleOracle scriptedConfig).1.InitScript
        = "#!/usr/bin/env bash\n# ec2-user\nupdate-amazon-linux-2\n"
          ++ "install-start-docker-amazon-linux-2\n" ++ "\n" ++ "echo operator"
    ∧ (ValidateAndSetDefaults sampleStd sampleSys sampleOracle scriptedConfig).1.InitScript
        ≠ "echo operator" ++ "\n" ++ "#!/usr/bin/env bash\n# ec2-user\nupdate-amazon-linux-2\n"
          ++ "install-start-docker-amazon-linux-2\n"
    ∧ (ValidateAndSetDefaults sampleStd sampleSys sampleOracle scriptedConfig).1.InitScript
        ≠ "echo operator" ++ "#!/usr/bin/env bash\n# ec2-user\nupdate-amazon-linux-2\n"
          ++ "install-start-docker-amazon-linux-2\n" := by
  decide

/-! ## genTag and randString -/

theorem natDecimal_one (n : Nat) (h : n < 10) : natDecimal n = String.mk [Char.ofNat (48 + n)] := by
  unfold natDecimal
  simp only [decimalAux, h, if_true]

theorem natDecimal_two (n : Nat) (h1 : 10 ≤ n) (h2 : n < 100) :
    natDecimal n = String.mk (twoDigits n) := by
  unfold natDecimal twoDigits
  obtain ⟨k, rfl⟩ : ∃ k, n = k + 1 := ⟨n - 1, by omega⟩
  have h3 : ¬ (k + 1 < 10) := by omega
  have h4 : (k + 1) / 10 < 10 := by omega
  simp only [decimalAux, h3, if_false, h4, if_true]

theorem natDecimal02_eq (n : Nat) (h : n < 100) : natDecimal02 n = String.mk (twoDigits n) := by
  unfold natDecimal02
  by_cases h1 : n < 10
  · rw [if_pos h1, natDecimal_one n h1]
    have h2 : n / 10 = 0 := by omega
    have h3 : n % 10 = n := by omega
    simp only [twoDigits, h2, h3]
    rfl
  · rw [if_neg h1]
    exact natDecimal_two n (by omega) h

theorem twoDigits_isDigit (n : Nat) (h : n < 100) : ∀ c ∈ twoDigits n, c.isDigit = true := by
  have h1 : n / 10 < 10 := by omega
  have h2 : n % 10 < 10 := Nat.mod_lt _ (by decide)
  have key : ∀ k, k < 10 → (Char.ofNat (48 + k)).isDigit = true := by decide
  intro c hc
  simp only [twoDigits, List.mem_cons, List.mem_singleton, List.not_mem_nil, or_false] at hc
  rcases hc with rfl | rfl
  · exact key _ h1
  · exact key _ h2

/-- C14 (amended): for a date whose year lies between 2010 and 2099, `genTag` is
`a8-ec2-` followed by exactly six decimal digits: the two digits of the year
after 2000, the two digits of the month and the two digits of the day. -/
theorem gen_tag_six_digits (now : Date) (hy1 : 2010 ≤ now.year) (hy2 : now.year ≤ 2099)
    (hm : now.month ≤ 12) (hd : now.day ≤ 31) :
    genTag now = "a8-ec2-" ++ String.mk (twoDigits (now.year - 2000).toNat
        ++ twoDigits now.month ++ twoDigits now.day)
    ∧ (twoDigits (now.year - 2000).toNat ++ twoDigits now.month ++ twoDigits now.day).length = 6
    ∧ ∀ c ∈ twoDigits (now.year - 2000).toNat ++ twoDigits now.month ++ twoDigits now.day,
        c.isDigit = true := by
  have hy : (now.year - 2000).natAbs = (now.year - 2000).toNat := by omega
  have hy3 : 10 ≤ (now.year - 2000).toNat := by omega
  have hy4 : (now.year - 2000).toNat < 100 := by omega
  refine ⟨?_, rfl, ?_⟩
  · unfold genTag intDecimal
    rw [if_neg (by omega), hy, natDecimal_two _ hy3 hy4, natDecimal02_eq _ (by omega),
      natDecimal02_eq _ (by omega)]
    apply String.ext
    simp [String.data_append]
  · intro c hc
    simp only [List.mem_append] at hc
    rcases hc with (hc | hc) | hc
    · exact twoDigits_isDigit _ hy4 c hc
    · exact twoDigits_isDigit _ (by omega) c hc
    · exact twoDigits_isDigit _ (by omega) c hc

/-- Witness for `gen_tag_six_digits`: 4 November 2026. -/
theorem gen_tag_six_digits_witness :
    (2010 : Int) ≤ (Date.mk 2026 11 4).year ∧ genTag ⟨2026, 11, 4⟩ = "a8-ec2-261104" :=
  ⟨by decide, (gen_tag_six_digits ⟨2026, 11, 4⟩ (by decide) (by decide) (by decide)
    (by decide)).1.trans (by decide)⟩

/-- C14 fails as stated: on 9 January 2005 the tag has five digits after the
prefix, and on 1 January 2100 it has seven, because the year after 2000 is
printed with `%d`, without padding. -/
theorem gen_tag_six_digits_counterexample :
    genTag ⟨2005, 1, 9⟩ = "a8-ec2-50109" ∧ genTag ⟨2100, 1, 1⟩ = "a8-ec2-1000101" := by
  decide

theorem randString_data (rand : Nat → Nat) (n : Nat) :
    (randString rand n).data
      = (List.range n).map (fun i => ll.data.getD (rand i % ll.data.length) '0') := rfl

/-- What a successful call leaves in the record. -/
theorem validate_ok_record (std : Std) (sys : Sys) (o : Oracle) (cfg : Config)
    (h : (ValidateAndSetDefaults std sys o cfg).2 = none) :
    checkRequired cfg = none
    ∧ (createInitScript sys cfg).2 = none
    ∧ checkInstance (createInitScript sys cfg).1 = none
    ∧ (setConfigPath sys o (nameCluster o (createInitScript sys cfg).1)).2 = none
    ∧ (ValidateAndSetDefaults std sys o cfg).1
        = (setKey sys o (setLogOutputs sys
            (setConfigPath sys o (nameCluster o (createInitScript sys cfg).1)).1)).1 := by
  rcases validate_record_cases std sys o cfg with h1 | ⟨hr, h1 | ⟨h2, h3, h1 | h1⟩⟩
  · rw [h1.2.1] at h; exact absurd h h1.2.2
  · exact absurd h h1.2
  · exact absurd h h1.2
  · exact ⟨hr, h2, h3, h1.1, h1.2⟩

/-- After the naming step, `Tag` and `ClusterName` are not assigned again. -/
theorem validate_after_name (std : Std) (sys : Sys) (o : Oracle) (cfg : Config)
    (h : (ValidateAndSetDefaults std sys o cfg).2 = none) (f : FieldId)
    (hf : f = .Tag ∨ f = .ClusterName) :
    get f (ValidateAndSetDefaults std sys o cfg).1
      = get f (nameCluster o (createInitScript sys cfg).1) := by
  have h3 := setConfigPath_touches sys o (nameCluster o (createInitScript sys cfg).1) f
    (by rcases hf with h | h <;> subst h <;> decide)
  have h4 := setLogOutputs_touches sys
    (setConfigPath sys o (nameCluster o (createInitScript sys cfg).1)).1 f
    (by rcases hf with h | h <;> subst h <;> decide)
  have h5 := setKey_touches sys o (setLogOutputs sys
    (setConfigPath sys o (nameCluster o (createInitScript sys cfg).1)).1) f
    (by rcases hf with h | h <;> subst h <;> decide)
  rw [(validate_ok_record std sys o cfg h).2.2.2.2, h5, h4, h3]

/-- C15: `randString(n)` has exactly `n` characters, each one a character of the
alphabet `ll`, which has 36 characters, and the index into `ll` is always in
range; and a record that had an empty `ClusterName` and was validated has
`ClusterName = Tag + "-" + s`, where `Tag` is the tag of the day and `s` is
`randString(7)`. -/
theorem rand_string_alphabet (rand : Nat → Nat) (n : Nat) (std : Std) (sys : Sys)
    (o : Oracle) (cfg : Config) :
    (randString rand n).length = n
    ∧ (∀ c ∈ (randString rand n).data, c ∈ ll.data)
    ∧ ll.data.length = 36
    ∧ (∀ i, rand i % ll.data.length < ll.data.length)
    ∧ (cfg.ClusterName = "" → (ValidateAndSetDefaults std sys o cfg).2 = none →
        (ValidateAndSetDefaults std sys o cfg).1.ClusterName
            = (ValidateAndSetDefaults std sys o cfg).1.Tag ++ "-" ++ randString o.rand 7
          ∧ (ValidateAndSetDefaults std sys o cfg).1.Tag = genTag o.now
          ∧ (randString o.rand 7).length = 7
          ∧ ∀ c ∈ (randString o.rand 7).data, c ∈ ll.data) := by
  have hlen : ∀ (r : Nat → Nat) (k : Nat), (randString r k).length = k := by
    intro r k
    show (randString r k).data.length = k
    rw [randString_data]
    simp
  have hidx : ∀ i, rand i % ll.data.length < ll.data.length := fun i =>
    Nat.mod_lt _ (by decide)
  have hmem : ∀ (r : Nat → Nat) (k : Nat), ∀ c ∈ (randString r k).data, c ∈ ll.data := by
    intro r k c hc
    rw [randString_data] at hc
    simp only [List.mem_map, List.mem_range] at hc
    obtain ⟨i, -, rfl⟩ := hc
    have hi : r i % ll.data.length < ll.data.length := Nat.mod_lt _ (by decide)
    rw [List.getD_eq_getElem _ _ hi]
    exact List.getElem_mem _
  refine ⟨hlen rand n, hmem rand n, by decide, hidx, ?_⟩
  intro hempty hok
  have ht := validate_after_name std sys o cfg hok .Tag (Or.inl rfl)
  have hn := validate_after_name std sys o cfg hok .ClusterName (Or.inr rfl)
  have hc := createInitScript_touches sys cfg .ClusterName (by decide)
  simp only [get, Value.str.injEq] at ht hn hc
  have hnc : nameCluster o (createInitScript sys cfg).1
      = { (createInitScript sys cfg).1 with
            Tag := genTag o.now, ClusterName := genTag o.now ++ "-" ++ randString o.rand 7 } := by
    unfold nameCluster
    rw [if_pos (by rw [hc, hempty])]
  rw [hnc] at ht hn
  simp only at ht hn
  exact ⟨by rw [hn, ht], ht, hlen _ _, hmem _ _⟩

/-- C16: `ValidateAndSetDefaults` returns a required-field error and leaves the
record as it was exactly when one of the four required fields is missing; the
fields are looked at in the order `LogOutputs`, `AWSRegion`, `UserName`,
`ImageID`, and the first one missing gives the error. With all four present an
error, if there is one, comes from a later step. -/
theorem required_fields (std : Std) (sys : Sys) (o : Oracle) (cfg : Config) :
    (cfg.LogOutputs = [] →
      ValidateAndSetDefaults std sys o cfg = (cfg, some "EKS LogOutputs is not specified"))
    ∧ (cfg.LogOutputs ≠ [] → cfg.AWSRegion = "" →
      ValidateAndSetDefaults std sys o cfg = (cfg, some "empty AWSRegion"))
    ∧ (cfg.LogOutputs ≠ [] → cfg.AWSRegion ≠ "" → cfg.UserName = "" →
      ValidateAndSetDefaults std sys o cfg = (cfg, some "empty UserName"))
    ∧ (cfg.LogOutputs ≠ [] → cfg.AWSRegion ≠ "" → cfg.UserName ≠ "" → cfg.ImageID = "" →
      ValidateAndSetDefaults std sys o cfg = (cfg, some "empty ImageID"))
    ∧ (cfg.LogOutputs ≠ [] → cfg.AWSRegion ≠ "" → cfg.UserName ≠ "" → cfg.ImageID ≠ "" →
      checkRequired cfg = none
      ∧ ∀ e, (ValidateAndSetDefaults std sys o cfg).2 = some e →
        (cfg.Plugins.length > 0 ∧ cfg.InitScriptCreated = false
          ∧ (sys.Create cfg.UserName cfg.CustomScript cfg.Plugins).2 = some e)
        ∨ checkInstance cfg = some e
        ∨ (cfg.ConfigPath = "" ∧ o.tempRandom "a8-ec2config" = .error e)
        ∨ (cfg.KeyPath = "" ∧ o.tempRandom "a8-ec2.key" = .error e)
        ∨ (cfg.InstanceType ∉ sys.InstanceTypes
            ∧ e = "unexpected InstanceType " ++ Quote std cfg.InstanceType))
    ∧ ("EKS LogOutputs is not specified" ≠ "empty AWSRegion"
        ∧ "EKS LogOutputs is not specified" ≠ "empty UserName"
        ∧ "EKS LogOutputs is not specified" ≠ "empty ImageID"
        ∧ "empty AWSRegion" ≠ "empty UserName" ∧ "empty AWSRegion" ≠ "empty ImageID"
        ∧ "empty UserName" ≠ "empty ImageID") := by
  have hfail : ∀ e, checkRequired cfg = some e →
      ValidateAndSetDefaults std sys o cfg = (cfg, some e) := by
    intro e he
    unfold ValidateAndSetDefaults
    rw [he]
  refine ⟨?_, ?_, ?_, ?_, ?_, by decide⟩
  · intro h1
    apply hfail
    simp [checkRequired, h1]
  · intro h1 h2
    apply hfail
    simp [checkRequired, h1, h2]
  · intro h1 h2 h3
    apply hfail
    simp [checkRequired, h1, h2, h3]
  · intro h1 h2 h3 h4
    apply hfail
    simp [checkRequired, h1, h2, h3, h4]
  · intro h1 h2 h3 h4
    have hreq : checkRequired cfg = none := by simp [checkRequired, h1, h2, h3, h4]
    refine ⟨hreq, ?_⟩
    intro e he
    rcases validate_error_source std sys o cfg e he with h | h
    · rw [hreq] at h; cases h
    · exact h

/-! ## Persistence -/

theorem ReadFile_ok (disk : Disk) (p : String) (d : Bytes) (h : ReadFile disk p = .ok d) :
    disk.files p = some d := by
  unfold ReadFile at h
  cases hf : disk.files p with
  | none => rw [hf] at h; cases h
  | some d2 => rw [hf] at h; simpa using h

theorem WriteFile_ok (disk : Disk) (p : String) (d : Bytes)
    (h : (WriteFile disk p d).2 = none) :
    (WriteFile disk p d).1.files p = some d
    ∧ (∀ q, q ≠ p → (WriteFile disk p d).1.files q = disk.files q)
    ∧ disk.writeError p = none := by
  unfold WriteFile at h ⊢
  cases hw : disk.writeError p with
  | some e => rw [hw] at h; cases h
  | none =>
    refine ⟨by simp, ?_, rfl⟩
    intro q hq
    simp [hq]

theorem append_ne_self (s t : String) (h : t ≠ "") : s ++ t ≠ s := by
  intro e
  apply h
  have := congrArg String.data e
  simp only [String.data_append] at this
  apply String.ext
  simpa using this

theorem backupPath_ne (cfg : Config) (t : Int) : backupPath cfg t ≠ cfg.ConfigPath := by
  unfold backupPath
  have : cfg.ConfigPath ++ "." ++ intHexUpper t ++ ".backup.yaml"
      = cfg.ConfigPath ++ ("." ++ intHexUpper t ++ ".backup.yaml") := by
    apply String.ext
    simp [String.data_append]
  rw [this]
  exact append_ne_self _ _ (append_ne_empty_right _ _ (by decide))

/-! ## Hexadecimal rendering -/

theorem hexDigit_value (n : Nat) (h : n < 16) :
    hexDigitValue (['0', '1', '2', '3', '4', '5', '6', '7', '8', '9', 'A', 'B', 'C', 'D',
      'E', 'F'].getD n '0') = some n
    ∧ (n ≠ 0 → ['0', '1', '2', '3', '4', '5', '6', '7', '8', '9', 'A', 'B', 'C', 'D',
      'E', 'F'].getD n '0' ≠ '0') := by
  interval_cases n <;> exact ⟨by decide, by decide⟩

theorem hexValueFrom_cons (v : Nat) (c : Char) (cs : List Char) :
    hexValueFrom v (c :: cs)
      = match hexDigitValue c with
        | none => none
        | some d => hexValueFrom (16 * v + d) cs := rfl

theorem hexValueFrom_append (ds rest : List Char) :
    ∀ v w, hexValueFrom v ds = some w → hexValueFrom v (ds ++ rest) = hexValueFrom w rest := by
  induction ds with
  | nil => intro v w h; simp only [hexValueFrom, Option.some.injEq] at h; rw [h]; rfl
  | cons c cs ih =>
    intro v w h
    rw [List.cons_append, hexValueFrom_cons]
    rw [hexValueFrom_cons] at h
    cases hd : hexDigitValue c with
    | none => rw [hd] at h; cases h
    | some d =>
      rw [hd] at h
      simp only at h ⊢
      exact ih _ _ h

/-- The digits that `hexAux` puts in front of `acc` write `n`, and begin with a
digit other than `0` unless `n` is zero. -/
theorem hexAux_spec : ∀ (fuel n : Nat) (acc : List Char), n < fuel →
    ∃ ds, hexAux fuel n acc = ds ++ acc ∧ ds ≠ []
      ∧ (∀ v, hexValueFrom v ds = some (v * 16 ^ ds.length + n))
      ∧ (n ≠ 0 → ds.head? ≠ some '0') := by
  intro fuel
  induction fuel with
  | zero => intro n acc h; exact absurd h (Nat.not_lt_zero _)
  | succ fuel ih =>
    intro n acc h
    unfold hexAux
    by_cases hn : n < 16
    · rw [if_pos hn]
      obtain ⟨h1, h2⟩ := hexDigit_value n hn
      refine ⟨[['0', '1', '2', '3', '4', '5', '6', '7', '8', '9', 'A', 'B', 'C', 'D',
        'E', 'F'].getD n '0'], rfl, by simp, ?_, ?_⟩
      · intro v
        rw [hexValueFrom_cons, h1]
        simp only [hexValueFrom, List.length_singleton, pow_one, Option.some.injEq]
        omega
      · intro h0
        simp only [List.head?_cons, ne_eq, Option.some.injEq]
        exact h2 h0
    · rw [if_neg hn]
      have hlt : n / 16 < fuel := by omega
      obtain ⟨ds, e, hne, hv, hh⟩ := ih (n / 16)
        (['0', '1', '2', '3', '4', '5', '6', '7', '8', '9', 'A', 'B', 'C', 'D',
          'E', 'F'].getD (n % 16) '0' :: acc) hlt
      obtain ⟨h1, -⟩ := hexDigit_value (n % 16) (Nat.mod_lt _ (by decide))
      refine ⟨ds ++ [['0', '1', '2', '3', '4', '5', '6', '7', '8', '9', 'A', 'B', 'C', 'D',
        'E', 'F'].getD (n % 16) '0'], ?_, by simp, ?_, ?_⟩
      · rw [e]; simp only [List.append_assoc, List.singleton_append]
      · intro v
        rw [hexValueFrom_append ds _ v _ (hv v), hexValueFrom_cons, h1]
        simp only [hexValueFrom, List.length_append, List.length_singleton, Option.some.injEq]
        rw [pow_succ]
        have := Nat.div_add_mod n 16
        nlinarith [this]
      · intro _
        have h16 : n / 16 ≠ 0 := by omega
        have := hh h16
        cases ds with
        | nil => exact absurd rfl hne
        | cons d ds => simpa using this

/-- The `%X` rendering of an integer is a minus sign for a negative number, then
upper-case hexadecimal digits that write its absolute value, with no leading
zero. -/
theorem intHexUpper_spec (i : Int) :
    ∃ ds : List Char,
      intHexUpper i = (if i < 0 then "-" else "") ++ String.mk ds
      ∧ hexValue ds = some i.natAbs
      ∧ (i ≠ 0 → ds.head? ≠ some '0') := by
  obtain ⟨ds, e, hne, hv, hh⟩ := hexAux_spec (i.natAbs + 1) i.natAbs [] (Nat.lt_succ_self _)
  rw [List.append_nil] at e
  refine ⟨ds, ?_, ?_, ?_⟩
  · unfold intHexUpper
    rw [e]
    split_ifs
    · rfl
    · apply String.ext; simp [String.data_append]
  · unfold hexValue
    rw [if_neg hne, hv 0]
    simp
  · intro h0
    exact hh (by simpa using h0)

/-- C19: when the file at `ConfigPath` can be read and `BackupConfig` returns no
error, the path it returns is `ConfigPath`, a dot, the clock value in upper-case
hexadecimal and `.backup.yaml`: the text between the dot and `.backup.yaml` is a
minus sign if the clock value is negative, then digits `0`-`9`, `A`-`F` that write
the absolute value of the clock value in base 16, most significant first, with no
leading zero. The file at that path then holds the bytes that were at `ConfigPath`
when the call was made; the file at `ConfigPath`, every other file and the record
are as before; and a record with the same `ConfigPath` but other field values
gives the same path and the same files. -/
theorem backup_config_copies (t : Int) (disk : Disk) (cfg : Config) (d : Bytes)
    (hread : ReadFile disk cfg.ConfigPath = .ok d)
    (hok : (BackupConfig t disk cfg).2.1.2 = none) :
    (BackupConfig t disk cfg).2.1.1
        = cfg.ConfigPath ++ "." ++ intHexUpper t ++ ".backup.yaml"
    ∧ (∃ ds : List Char,
        (BackupConfig t disk cfg).2.1.1
          = cfg.ConfigPath ++ "." ++ ((if t < 0 then "-" else "") ++ String.mk ds)
            ++ ".backup.yaml"
        ∧ hexValue ds = some t.natAbs
        ∧ (t ≠ 0 → ds.head? ≠ some '0'))
    ∧ (BackupConfig t disk cfg).2.2.files (BackupConfig t disk cfg).2.1.1 = some d
    ∧ (BackupConfig t disk cfg).2.2.files cfg.ConfigPath = some d
    ∧ (∀ q, q ≠ (BackupConfig t disk cfg).2.1.1 →
        (BackupConfig t disk cfg).2.2.files q = disk.files q)
    ∧ (BackupConfig t disk cfg).1 = cfg
    ∧ (∀ cfg2 : Config, cfg2.ConfigPath = cfg.ConfigPath →
        (BackupConfig t disk cfg2).2.1 = (BackupConfig t disk cfg).2.1
        ∧ (BackupConfig t disk cfg2).2.2.files = (BackupConfig t disk cfg).2.2.files) := by
  have hb : BackupConfig t disk cfg
      = (cfg, (backupPath cfg t, (WriteFile disk (backupPath cfg t) d).2),
          (WriteFile disk (backupPath cfg t) d).1) := by
    unfold BackupConfig
    rw [hread]
  rw [hb] at hok ⊢
  simp only at hok ⊢
  obtain ⟨h1, h2, -⟩ := WriteFile_ok disk _ d hok
  refine ⟨rfl, ?_, h1, ?_, h2, trivial, ?_⟩
  · obtain ⟨ds, e, hv, hh⟩ := intHexUpper_spec t
    refine ⟨ds, ?_, hv, hh⟩
    unfold backupPath
    rw [e]
  · rw [h2 _ (backupPath_ne cfg t).symm]
    exact ReadFile_ok disk _ d hread
  · intro cfg2 hp
    have hb2 : BackupConfig t disk cfg2
        = (cfg2, (backupPath cfg t, (WriteFile disk (backupPath cfg t) d).2),
            (WriteFile disk (backupPath cfg t) d).1) := by
      unfold BackupConfig
      rw [hp, hread]
      simp only [backupPath, hp]
    rw [hb2]
    exact ⟨rfl, rfl⟩

set_option maxRecDepth 100000 in
/-- Witness for `backup_config_copies`: the sample record on the sample files, at
clock value 255, and the path for a clock value of November 2025. -/
theorem backup_config_copies_witness :
    ReadFile sampleDisk storedConfig.ConfigPath = .ok [1]
    ∧ (BackupConfig 255 sampleDisk storedConfig).2.1.2 = none
    ∧ (BackupConfig 255 sampleDisk storedConfig).2.1.1 = "/tmp/a8-ec2config.yaml.FF.backup.yaml"
    ∧ (BackupConfig 255 sampleDisk storedConfig).2.2.files
        "/tmp/a8-ec2config.yaml.FF.backup.yaml" = some [1]
    ∧ (BackupConfig 1762214400000000000 sampleDisk storedConfig).2.1.1
        = "/tmp/a8-ec2config.yaml.1874A4A902140000.backup.yaml"
    ∧ hexValue "1874A4A902140000".data = some 1762214400000000000
    ∧ hexValue "FF".data = some 255 :=
  have h := backup_config_copies 255 sampleDisk storedConfig [1] (by rfl) (by decide)
  ⟨by rfl, by decide, h.1.trans (by decide),
    (by decide : (BackupConfig 255 sampleDisk storedConfig).2.1.1
      = "/tmp/a8-ec2config.yaml.FF.backup.yaml") ▸ h.2.2.1, by decide, by decide, by decide⟩

/-- C20 (amended): `BackupConfig` does not look whether a file is already at the
backup path. When the file at `ConfigPath` can be read and writing the backup path
meets no error, the call returns no error although a file with the bytes `old` is
there, and that file then holds the bytes of `ConfigPath` instead. -/
theorem backup_config_replaces (t : Int) (disk : Disk) (cfg : Config) (d old : Bytes)
    (hread : ReadFile disk cfg.ConfigPath = .ok d)
    (hold : disk.files (backupPath cfg t) = some old)
    (hwrite : disk.writeError (backupPath cfg t) = none) :
    (BackupConfig t disk cfg).2.1 = (backupPath cfg t, none)
    ∧ (BackupConfig t disk cfg).2.2.files (backupPath cfg t) = some d
    ∧ (d ≠ old →
        (BackupConfig t disk cfg).2.2.files (backupPath cfg t)
          ≠ disk.files (backupPath cfg t)) := by
  unfold BackupConfig
  rw [hread]
  simp only [WriteFile, hwrite, hold]
  refine ⟨trivial, by simp, ?_⟩
  intro hne
  simpa using hne

/-- Witness for `backup_config_replaces`: the sample files hold an older backup
`[7, 7]` at the path of clock value 255. -/
theorem backup_config_replaces_witness :
    ReadFile sampleDisk storedConfig.ConfigPath = .ok [1]
    ∧ sampleDisk.files (backupPath storedConfig 255) = some [7, 7]
    ∧ (BackupConfig 255 sampleDisk storedConfig).2.2.files (backupPath storedConfig 255)
        = some [1] :=
  ⟨by rfl, by decide,
    (backup_config_replaces 255 sampleDisk storedConfig [1] [7, 7] (by rfl) (by decide)
      (by rfl)).2.1⟩

/-- C20 fails as stated: with an older backup `[7, 7]` at the backup path of clock
value 255, `BackupConfig` returns no error and the older backup is replaced by
`[1]`, the bytes of the configuration file. -/
theorem backup_config_overwrite_counterexample :
    sampleDisk.files "/tmp/a8-ec2config.yaml.FF.backup.yaml" = some [7, 7]
    ∧ (BackupConfig 255 sampleDisk storedConfig).2.1
        = ("/tmp/a8-ec2config.yaml.FF.backup.yaml", none)
    ∧ (BackupConfig 255 sampleDisk storedConfig).2.2.files
        "/tmp/a8-ec2config.yaml.FF.backup.yaml" = some [1] := by
  decide

theorem Clean_isAbs (p : String) (h : IsAbs p = true) : IsAbs (Clean p) = true := by
  unfold IsAbs at h ⊢
  simp only [decide_eq_true_eq] at h ⊢
  show (cleanChars p.data).head? = some '/'
  unfold cleanChars
  simp only [h, decide_True, if_true, List.singleton_append, reduceCtorEq, if_false,
    List.head?_cons]

theorem Join_isAbs (a b : String) (h : IsAbs a = true) : IsAbs (Join [a, b]) = true := by
  have ha : a ≠ "" := by
    intro e
    rw [e] at h
    exact absurd h (by decide)
  unfold Join
  rw [if_neg ha]
  apply Clean_isAbs
  unfold IsAbs at h ⊢
  simp only [decide_eq_true_eq] at h ⊢
  cases hd : a.data with
  | nil => rw [hd] at h; cases h
  | cons c cs =>
    rw [hd] at h
    simp only [List.head?_cons, Option.some.injEq] at h
    simp [List.intercalate, hd, h]

theorem Abs_isAbs (sys : Sys) (p : String) (h : IsAbs sys.cwd = true) :
    IsAbs (Abs sys p) = true := by
  unfold Abs
  split_ifs with hp
  · exact Clean_isAbs p hp
  · exact Join_isAbs _ _ h

/-- What `Load` returns when the file can be read and deserialized. -/
theorem Load_of_read (y : Yaml) (sys : Sys) (disk : Disk) (p : String) (d : Bytes)
    (c : Config) (hread : ReadFile disk p = .ok d) (hun : y.Unmarshal d = .ok c) :
    Load y sys disk p
      = .ok { c with
          Instances := (if c.Instances = none then some [] else c.Instances),
          ConfigPath := (if IsAbs c.ConfigPath then c.ConfigPath else Abs sys p) } := by
  unfold Load
  rw [hread]
  simp only [hun]
  by_cases hi : c.Instances = none <;> by_cases ha : IsAbs c.ConfigPath = true <;>
    simp [hi, ha]

/-- C17: when the file at `p` can be read and its bytes deserialize to a record,
`Load` returns a record whose `Instances` is a map (the empty one when the
deserialized one is nil), whose `ConfigPath` is the deserialized one when that is
absolute and otherwise the absolute form of `p`, and whose other fields are the
deserialized ones. -/
theorem load_repairs (y : Yaml) (sys : Sys) (disk : Disk) (p : String) (d : Bytes)
    (c : Config) (hread : ReadFile disk p = .ok d) (hun : y.Unmarshal d = .ok c) :
    ∃ c1, Load y sys disk p = .ok c1
      ∧ c1.Instances ≠ none
      ∧ c1.Instances = (if c.Instances = none then some [] else c.Instances)
      ∧ c1.ConfigPath = (if IsAbs c.ConfigPath then c.ConfigPath else Abs sys p)
      ∧ (IsAbs sys.cwd = true → IsAbs c1.ConfigPath = true)
      ∧ ∀ f : FieldId, f ≠ .Instances → f ≠ .ConfigPath → get f c1 = get f c := by
  refine ⟨_, Load_of_read y sys disk p d c hread hun, ?_, rfl, rfl, ?_, ?_⟩
  · simp only
    split_ifs <;> simp_all
  · intro hcwd
    simp only
    split_ifs with ha
    · exact ha
    · exact Abs_isAbs sys p hcwd
  · intro f hf1 hf2
    cases f <;> first | rfl | exact absurd rfl hf1 | exact absurd rfl hf2

/-- Witness for `load_repairs`: the sample file, whose record has no instances. -/
theorem load_repairs_witness :
    ReadFile sampleDisk "/tmp/a8-ec2config.yaml" = .ok [1]
    ∧ sampleYaml.Unmarshal [1] = .ok storedConfig
    ∧ storedConfig.Instances = none
    ∧ ∃ c1, Load sampleYaml sampleSys sampleDisk "/tmp/a8-ec2config.yaml" = .ok c1
        ∧ c1.Instances ≠ none :=
  have h := load_repairs sampleYaml sampleSys sampleDisk "/tmp/a8-ec2config.yaml" [1]
    storedConfig (by rfl) (by rfl)
  ⟨by rfl, by rfl, by rfl, h.choose, h.choose_spec.1, h.choose_spec.2.1⟩

theorem Sync_record (y : Yaml) (sys : Sys) (now : Time) (disk : Disk) (cfg : Config) :
    (Sync y sys now disk cfg).1
      = { cfg with ConfigPath := (if IsAbs cfg.ConfigPath then cfg.ConfigPath
                                  else Abs sys cfg.ConfigPath),
                   UpdatedAt := now } := by
  unfold Sync
  by_cases ha : IsAbs cfg.ConfigPath = true <;>
    simp only [ha, Bool.not_true, Bool.not_false, Bool.false_eq_true, if_true, if_false] <;>
    (cases y.Marshal _ <;> rfl)

theorem Sync_ok (y : Yaml) (sys : Sys) (now : Time) (disk : Disk) (cfg : Config)
    (hok : (Sync y sys now disk cfg).2.1 = none) :
    ∃ d, y.Marshal (Sync y sys now disk cfg).1 = .ok d
      ∧ (Sync y sys now disk cfg).2.2.files (Sync y sys now disk cfg).1.ConfigPath = some d := by
  rw [Sync_record]
  unfold Sync at hok ⊢
  by_cases ha : IsAbs cfg.ConfigPath = true <;>
    simp only [ha, Bool.not_true, Bool.not_false, Bool.false_eq_true, if_true, if_false]
      at hok ⊢
  · cases hm : y.Marshal { cfg with UpdatedAt := now } with
    | error e => rw [hm] at hok; cases hok
    | ok d =>
      rw [hm] at hok
      simp only at hok ⊢
      exact ⟨d, rfl, (WriteFile_ok disk _ d hok).1⟩
  · cases hm : y.Marshal { cfg with ConfigPath := Abs sys cfg.ConfigPath, UpdatedAt := now } with
    | error e => rw [hm] at hok; cases hok
    | ok d =>
      rw [hm] at hok
      simp only at hok ⊢
      exact ⟨d, rfl, (WriteFile_ok disk _ d hok).1⟩

theorem sameMap_symm {V : Type} {a b : GoMap V} (h : sameMap a b) : sameMap b a :=
  ⟨h.1.symm, h.2.symm⟩

/-- C18: round trip. Take it that the working directory is an absolute path and
that the YAML library reads the document it writes for the record that `Sync`
leaves as a record with the same field values, maps compared as Go maps. Then,
when `Sync` returns no error, `Load` of the record's `ConfigPath` succeeds on the
files `Sync` left, and the record it returns equals the record as `Sync` left it
in every field (maps as Go maps, `UpdatedAt` the time stamped by `Sync`), except
that a nil `Instances` comes back as the empty map. -/
theorem sync_load_round_trip (y : Yaml) (sys : Sys) (now : Time) (disk : Disk)
    (cfg : Config)
    (hrt : ∀ d, y.Marshal (Sync y sys now disk cfg).1 = .ok d →
      ∃ c, y.Unmarshal d = .ok c ∧ SameRecord (Sync y sys now disk cfg).1 c)
    (hcwd : IsAbs sys.cwd = true)
    (hok : (Sync y sys now disk cfg).2.1 = none) :
    ∃ c1, Load y sys (Sync y sys now disk cfg).2.2 (Sync y sys now disk cfg).1.ConfigPath
        = .ok c1
      ∧ (∀ f : FieldId, f ≠ .SubnetIDToAvailabilityZone → f ≠ .IngressRulesTCP →
          f ≠ .Instances → get f c1 = get f (Sync y sys now disk cfg).1)
      ∧ sameMap c1.SubnetIDToAvailabilityZone
          (Sync y sys now disk cfg).1.SubnetIDToAvailabilityZone
      ∧ sameMap c1.IngressRulesTCP (Sync y sys now disk cfg).1.IngressRulesTCP
      ∧ c1.Instances ≠ none
      ∧ (mapEntries c1.Instances).Perm (mapEntries (Sync y sys now disk cfg).1.Instances)
      ∧ ((Sync y sys now disk cfg).1.Instances = none → c1.Instances = some [])
      ∧ (Sync y sys now disk cfg).1.UpdatedAt = now
      ∧ c1.UpdatedAt = now := by
  obtain ⟨d, hm, hf⟩ := Sync_ok y sys now disk cfg hok
  obtain ⟨c, hun, hfields, hsub, hing, hinst⟩ := hrt d hm
  have hread : ReadFile (Sync y sys now disk cfg).2.2 (Sync y sys now disk cfg).1.ConfigPath
      = .ok d := by
    unfold ReadFile
    rw [hf]
  have hload := Load_of_read y sys _ _ d c hread hun
  have habs : IsAbs (Sync y sys now disk cfg).1.ConfigPath = true := by
    rw [Sync_record]
    simp only
    split_ifs with ha
    · exact ha
    · exact Abs_isAbs sys _ hcwd
  have hpath : c.ConfigPath = (Sync y sys now disk cfg).1.ConfigPath := by
    have := hfields .ConfigPath (by decide) (by decide) (by decide)
    simp only [get, Value.str.injEq] at this
    exact this.symm
  have hup : (Sync y sys now disk cfg).1.UpdatedAt = now := by
    rw [Sync_record]
  have hupc : c.UpdatedAt = now := by
    have := hfields .UpdatedAt (by decide) (by decide) (by decide)
    simp only [get, Value.time.injEq] at this
    rw [← this, hup]
  rw [hpath, if_pos habs] at hload
  refine ⟨_, hload, ?_, sameMap_symm hsub, sameMap_symm hing, ?_, ?_, ?_, hup, hupc⟩
  · intro f h1 h2 h3
    have := hfields f h1 h2 h3
    rw [this]
    cases f <;> first | rfl | exact absurd rfl h3 | exact hpath.symm ▸ rfl
  · simp only
    split_ifs with hn <;> simp [hn]
  · simp only
    split_ifs with hn
    · have := hinst.2
      rw [hn] at this
      exact this.symm
    · exact hinst.2.symm
  · intro hnone
    have hc : c.Instances = none := hinst.1.mp hnone
    simp only [hc, if_true]

set_option maxRecDepth 100000 in
/-- What the sample library reads from the document that `Sync` writes for
`draftConfig` at a time in November 2025. -/
theorem orderBlindYaml_reads :
    ∀ d, orderBlindYaml.Marshal
        (Sync orderBlindYaml sampleSys ⟨1762214400000000000⟩ emptyDisk draftConfig).1 = .ok d →
      ∃ c, orderBlindYaml.Unmarshal d = .ok c
        ∧ SameRecord
            (Sync orderBlindYaml sampleSys ⟨1762214400000000000⟩ emptyDisk draftConfig).1 c := by
  intro d hd
  have hm : orderBlindYaml.Marshal
      (Sync orderBlindYaml sampleSys ⟨1762214400000000000⟩ emptyDisk draftConfig).1
      = .ok ("/home/tester/conf/a8.yaml".data.map (fun ch => ch.toNat.toUInt8) ++ [0]
          ++ "1762214400000000000".data.map (fun ch => ch.toNat.toUInt8)) := by
    rfl
  rw [hm] at hd
  simp only [Except.ok.injEq] at hd
  subst hd
  refine ⟨{ draftConfig with
      ConfigPath := "/home/tester/conf/a8.yaml"
      UpdatedAt := ⟨1762214400000000000⟩
      IngressRulesTCP := some [("80", "10.0.0.0/8"), ("22", "0.0.0.0/0")] }, by rfl, ?_, ?_, ?_, ?_⟩
  · intro f h1 h2 h3
    cases f <;> first | rfl | exact absurd rfl h1 | exact absurd rfl h2
  · exact ⟨Iff.rfl, List.Perm.refl _⟩
  · exact ⟨(by decide), List.Perm.swap _ _ _⟩
  · exact ⟨Iff.rfl, List.Perm.refl _⟩

set_option maxRecDepth 100000 in
/-- Witness for `sync_load_round_trip`: a record with a relative path and two
ingress rules, no file on disk, a time in November 2025, and a library that gives
the rules back in the other order. `Sync` makes the path absolute, stamps the time
and writes the file; `Load` gives the rules as the same map, the empty instance
map and the stamped time. -/
theorem sync_load_round_trip_witness :
    IsAbs sampleSys.cwd = true
    ∧ draftConfig.ConfigPath = "conf/a8.yaml"
    ∧ emptyDisk.files "/home/tester/conf/a8.yaml" = none
    ∧ (Sync orderBlindYaml sampleSys ⟨1762214400000000000⟩ emptyDisk draftConfig).2.1 = none
    ∧ (Sync orderBlindYaml sampleSys ⟨1762214400000000000⟩ emptyDisk
        draftConfig).1.ConfigPath = "/home/tester/conf/a8.yaml"
    ∧ (Sync orderBlindYaml sampleSys ⟨1762214400000000000⟩ emptyDisk
        draftConfig).1.IngressRulesTCP = some [("22", "0.0.0.0/0"), ("80", "10.0.0.0/8")]
    ∧ (Sync orderBlindYaml sampleSys ⟨1762214400000000000⟩ emptyDisk
        draftConfig).1.Instances = none
    ∧ ((Sync orderBlindYaml sampleSys ⟨1762214400000000000⟩ emptyDisk
        draftConfig).2.2.files "/home/tester/conf/a8.yaml").isSome = true
    ∧ ∃ c1, Load orderBlindYaml sampleSys
          (Sync orderBlindYaml sampleSys ⟨1762214400000000000⟩ emptyDisk draftConfig).2.2
          (Sync orderBlindYaml sampleSys ⟨1762214400000000000⟩ emptyDisk
            draftConfig).1.ConfigPath = .ok c1
        ∧ sameMap c1.IngressRulesTCP
            (some [("22", "0.0.0.0/0"), ("80", "10.0.0.0/8")])
        ∧ c1.Instances = some []
        ∧ c1.UpdatedAt = ⟨1762214400000000000⟩ :=
  have h := sync_load_round_trip orderBlindYaml sampleSys ⟨1762214400000000000⟩ emptyDisk
    draftConfig orderBlindYaml_reads (by decide) (by decide)
  ⟨by decide, by decide, by decide, by decide, by decide, by decide, by decide, by decide,
    h.choose, h.choose_spec.1, h.choose_spec.2.2.2.1,
    h.choose_spec.2.2.2.2.2.2.1 (by decide), h.choose_spec.2.2.2.2.2.2.2.2⟩

/-! ## Cluster name and paths -/

theorem nameCluster_of_named (o : Oracle) (cfg : Config) (h : cfg.ClusterName ≠ "") :
    nameCluster o cfg = cfg := by
  unfold nameCluster
  rw [if_neg h]

theorem validate_keeps_name (std : Std) (sys : Sys) (o : Oracle) (cfg : Config)
    (h : cfg.ClusterName ≠ "") :
    (ValidateAndSetDefaults std sys o cfg).1.ClusterName = cfg.ClusterName := by
  have h1 := createInitScript_touches sys cfg .ClusterName (by decide)
  have h3 := setConfigPath_touches sys o (nameCluster o (createInitScript sys cfg).1)
    .ClusterName (by decide)
  have h4 := setLogOutputs_touches sys
    (setConfigPath sys o (nameCluster o (createInitScript sys cfg).1)).1 .ClusterName
    (by decide)
  have h5 := setKey_touches sys o (setLogOutputs sys
    (setConfigPath sys o (nameCluster o (createInitScript sys cfg).1)).1) .ClusterName
    (by decide)
  simp only [get, Value.str.injEq] at h1 h3 h4 h5
  have h2 : (nameCluster o (createInitScript sys cfg).1).ClusterName = cfg.ClusterName := by
    rw [nameCluster_of_named o _ (by rw [h1]; exact h), h1]
  rcases validate_record_cases std sys o cfg with hc | ⟨-, hc | ⟨-, -, hc | hc⟩⟩
  · rw [hc.1]
  · rw [hc.1, h1]
  · rw [hc.1, h3, h2]
  · rw [hc.2, h5, h4, h3, h2]

/-- C12 (amended): a non-empty `ClusterName` is left as it is by
`ValidateAndSetDefaults`, `Sync` and `BackupConfig`, and by `UpdateFromEnvs` when
the variable of `ClusterName` is unset or empty; when that variable is set and
`UpdateFromEnvs` succeeds, `ClusterName` becomes the value of the variable. -/
theorem cluster_name_kept (std : Std) (sys : Sys) (o : Oracle) (y : Yaml) (now : Time)
    (t : Int) (disk : Disk) (env : Env) (cfg : Config) (h : cfg.ClusterName ≠ "") :
    (ValidateAndSetDefaults std sys o cfg).1.ClusterName = cfg.ClusterName
    ∧ (Sync y sys now disk cfg).1.ClusterName = cfg.ClusterName
    ∧ (BackupConfig t disk cfg).1.ClusterName = cfg.ClusterName
    ∧ (env (envVarName cfg.EnvPrefix .ClusterName) = "" →
        (UpdateFromEnvs std env cfg).1.ClusterName = cfg.ClusterName)
    ∧ (env (envVarName cfg.EnvPrefix .ClusterName) ≠ "" →
        (UpdateFromEnvs std env cfg).2 = .ok →
        (UpdateFromEnvs std env cfg).1.ClusterName
          = env (envVarName cfg.EnvPrefix .ClusterName)) := by
  refine ⟨validate_keeps_name std sys o cfg h, ?_, ?_, ?_, ?_⟩
  · rw [Sync_record]
  · unfold BackupConfig
    cases ReadFile disk cfg.ConfigPath <;> rfl
  · intro hunset
    by_cases hok : (UpdateFromEnvs std env cfg).2 = .ok
    · have := overlay_frame std env _ _ _ _ ((status_ok_iff std env cfg).1 hok) .ClusterName
        (Or.inr hunset)
      simpa [get] using this
    · rw [unchanged_of_not_ok std env cfg hok]
  · intro hset hok
    have h1 := (status_ok_iff std env cfg).1 hok
    obtain ⟨-, hc1⟩ := (overlay_ok_iff _ _ _ _ _ _).1 h1
    have hg := get_applyPlans std env cfg.EnvPrefix allFields cfg .ClusterName
    rw [← hc1, if_pos (mem_allFields _)] at hg
    have hp : plan std env cfg.EnvPrefix .ClusterName
        = .ok (some (.str (env (envVarName cfg.EnvPrefix .ClusterName)))) := by
      unfold plan
      have ht : FieldId.tag .ClusterName ≠ "" := by decide
      have hk : FieldId.kind .ClusterName = .string := rfl
      simp only [ht, hset, if_false, hk]
    simp only [newValue, hp, get, Value.str.injEq] at hg
    exact hg

/-- Witness for `cluster_name_kept`: the named sample record. -/
theorem cluster_name_kept_witness :
    namedConfig.ClusterName ≠ ""
    ∧ (ValidateAndSetDefaults sampleStd sampleSys sampleOracle namedConfig).1.ClusterName
        = "a8-ec2-mine" :=
  ⟨by decide,
    (cluster_name_kept sampleStd sampleSys sampleOracle sampleYaml ⟨5⟩ 255 sampleDisk
      sampleEnv namedConfig (by decide)).1⟩

set_option maxRecDepth 100000 in
/-- C12 fails as stated: `UpdateFromEnvs` replaces the non-empty cluster name
`a8-ec2-mine` by the value of the variable `AWS_K8S_TESTER_EC2_CLUSTER_NAME`. -/
theorem cluster_name_overridden_counterexample :
    namedConfig.ClusterName = "a8-ec2-mine"
    ∧ (UpdateFromEnvs sampleStd envClusterName namedConfig).2 = .ok
    ∧ (UpdateFromEnvs sampleStd envClusterName namedConfig).1.ClusterName = "a8-ec2-other" := by
  decide

theorem setConfigPath_path (sys : Sys) (o : Oracle) (cfg : Config)
    (h : (setConfigPath sys o cfg).2 = none) :
    (cfg.ConfigPath ≠ "" → (setConfigPath sys o cfg).1.ConfigPath = cfg.ConfigPath)
    ∧ (cfg.ConfigPath = "" → ∃ name, (setConfigPath sys o cfg).1.ConfigPath = Abs sys name) := by
  unfold setConfigPath at h ⊢
  simp only at h ⊢
  by_cases hc : cfg.ConfigPath = ""
  · simp only [hc, if_true] at h ⊢
    cases ht : TempFile o sys.tempDir "a8-ec2config" with
    | error e => rw [ht] at h; cases h
    | ok name => exact ⟨fun hne => absurd rfl hne, fun _ => ⟨name, rfl⟩⟩
  · simp only [hc, if_false]
    exact ⟨fun _ => trivial, fun he => he.elim⟩

theorem setKey_path (sys : Sys) (o : Oracle) (cfg : Config)
    (h : (setKey sys o cfg).2 = none) :
    (cfg.KeyPath ≠ "" → (setKey sys o cfg).1.KeyPath = cfg.KeyPath)
    ∧ (cfg.KeyPath = "" → ∃ name, (setKey sys o cfg).1.KeyPath = Abs sys name) := by
  unfold setKey at h ⊢
  simp only at h ⊢
  by_cases hk : cfg.KeyName = "" <;> by_cases hc : cfg.KeyPath = "" <;>
    simp only [hk, hc, if_true, if_false] at h ⊢
  · cases ht : TempFile o sys.tempDir "a8-ec2.key" with
    | error e => rw [ht] at h; cases h
    | ok name => exact ⟨fun hne => absurd rfl hne, fun _ => ⟨name, rfl⟩⟩
  · exact ⟨fun _ => trivial, fun he => he.elim⟩
  · cases ht : TempFile o sys.tempDir "a8-ec2.key" with
    | error e => rw [ht] at h; cases h
    | ok name => exact ⟨fun hne => absurd rfl hne, fun _ => ⟨name, rfl⟩⟩
  · exact ⟨fun _ => trivial, fun he => he.elim⟩

theorem validate_ok_key (std : Std) (sys : Sys) (o : Oracle) (cfg : Config)
    (h : (ValidateAndSetDefaults std sys o cfg).2 = none) :
    (setKey sys o (setLogOutputs sys
      (setConfigPath sys o (nameCluster o (createInitScript sys cfg).1)).1)).2 = none := by
  obtain ⟨h1, h2, h3, h4, -⟩ := validate_ok_record std sys o cfg h
  unfold ValidateAndSetDefaults at h
  rw [h1] at h
  simp only at h
  rcases hinit : createInitScript sys cfg with ⟨c1, e1⟩
  rw [hinit] at h h2 h3 h4
  simp only at h2 h3 h4 ⊢
  subst h2
  simp only [h3] at h
  rcases hcp : setConfigPath sys o (nameCluster o c1) with ⟨c3, e3⟩
  rw [hcp] at h h4
  simp only at h4 ⊢
  subst h4
  simp only at h
  rcases hkey : setKey sys o (setLogOutputs sys c3) with ⟨c5, e5⟩
  rw [hkey] at h
  cases e5 with
  | some e => cases h
  | none => rfl

/-- C13 (amended): after a successful `ValidateAndSetDefaults`, `ConfigPath` and
`KeyPath` hold the value they had before the call when that was not empty,
absolute or not; when it was empty they hold an absolute path, the working
directory being absolute; and `LogOutputToUploadPath` is the temporary directory
joined with `ClusterName` and `.log`, which is absolute when the temporary
directory is. -/
theorem validated_paths (std : Std) (sys : Sys) (o : Oracle) (cfg : Config)
    (hok : (ValidateAndSetDefaults std sys o cfg).2 = none) :
    (cfg.ConfigPath ≠ "" →
      (ValidateAndSetDefaults std sys o cfg).1.ConfigPath = cfg.ConfigPath)
    ∧ (cfg.KeyPath ≠ "" → (ValidateAndSetDefaults std sys o cfg).1.KeyPath = cfg.KeyPath)
    ∧ (IsAbs sys.cwd = true → cfg.ConfigPath = "" →
        IsAbs (ValidateAndSetDefaults std sys o cfg).1.ConfigPath = true)
    ∧ (IsAbs sys.cwd = true → cfg.KeyPath = "" →
        IsAbs (ValidateAndSetDefaults std sys o cfg).1.KeyPath = true)
    ∧ (ValidateAndSetDefaults std sys o cfg).1.LogOutputToUploadPath
        = Join [sys.tempDir, (ValidateAndSetDefaults std sys o cfg).1.ClusterName ++ ".log"]
    ∧ (IsAbs sys.tempDir = true →
        IsAbs (ValidateAndSetDefaults std sys o cfg).1.LogOutputToUploadPath = true) := by
  obtain ⟨-, -, -, hcp, hrec⟩ := validate_ok_record std sys o cfg hok
  have hkey := validate_ok_key std sys o cfg hok
  have a1 := createInitScript_touches sys cfg .ConfigPath (by decide)
  have a2 := nameCluster_touches o (createInitScript sys cfg).1 .ConfigPath (by decide)
  have a4 := setLogOutputs_touches sys
    (setConfigPath sys o (nameCluster o (createInitScript sys cfg).1)).1 .ConfigPath
    (by decide)
  have a5 := setKey_touches sys o (setLogOutputs sys
    (setConfigPath sys o (nameCluster o (createInitScript sys cfg).1)).1) .ConfigPath
    (by decide)
  have b1 := createInitScript_touches sys cfg .KeyPath (by decide)
  have b2 := nameCluster_touches o (createInitScript sys cfg).1 .KeyPath (by decide)
  have b3 := setConfigPath_touches sys o (nameCluster o (createInitScript sys cfg).1)
    .KeyPath (by decide)
  have b4 := setLogOutputs_touches sys
    (setConfigPath sys o (nameCluster o (createInitScript sys cfg).1)).1 .KeyPath
    (by decide)
  have c5 := setKey_touches sys o (setLogOutputs sys
    (setConfigPath sys o (nameCluster o (createInitScript sys cfg).1)).1)
    .LogOutputToUploadPath (by decide)
  have d4 := setLogOutputs_touches sys
    (setConfigPath sys o (nameCluster o (createInitScript sys cfg).1)).1 .ClusterName
    (by decide)
  have d5 := setKey_touches sys o (setLogOutputs sys
    (setConfigPath sys o (nameCluster o (createInitScript sys cfg).1)).1) .ClusterName
    (by decide)
  simp only [get, Value.str.injEq] at a1 a2 a4 a5 b1 b2 b3 b4 c5 d4 d5
  have hc2 : (nameCluster o (createInitScript sys cfg).1).ConfigPath = cfg.ConfigPath := by
    rw [a2, a1]
  have hk4 : (setLogOutputs sys
      (setConfigPath sys o (nameCluster o (createInitScript sys cfg).1)).1).KeyPath
      = cfg.KeyPath := by
    rw [b4, b3, b2, b1]
  obtain ⟨p1, p2⟩ := setConfigPath_path sys o _ hcp
  obtain ⟨k1, k2⟩ := setKey_path sys o _ hkey
  rw [hc2] at p1 p2
  rw [hk4] at k1 k2
  have hlog : (setLogOutputs sys
      (setConfigPath sys o (nameCluster o (createInitScript sys cfg).1)).1).LogOutputToUploadPath
      = Join [sys.tempDir,
          (setConfigPath sys o (nameCluster o (createInitScript sys cfg).1)).1.ClusterName
            ++ ".log"] := by
    obtain ⟨l, hl, -⟩ := setLogOutputs_eq sys
      (setConfigPath sys o (nameCluster o (createInitScript sys cfg).1)).1
    rw [hl]
  rw [hrec]
  refine ⟨?_, k1, ?_, ?_, ?_, ?_⟩
  · intro hne
    rw [a5, a4, p1 hne]
  · intro hcwd he
    obtain ⟨name, hn⟩ := p2 he
    rw [a5, a4, hn]
    exact Abs_isAbs sys name hcwd
  · intro hcwd he
    obtain ⟨name, hn⟩ := k2 he
    rw [hn]
    exact Abs_isAbs sys name hcwd
  · rw [c5, hlog, d5, d4]
  · intro ht
    rw [c5, hlog]
    exact Join_isAbs _ _ ht

set_option maxRecDepth 100000 in
/-- Witness for `validated_paths`: the default record, whose paths are empty. -/
theorem validated_paths_witness :
    (ValidateAndSetDefaults sampleStd sampleSys sampleOracle defaultConfig).2 = none
    ∧ IsAbs (ValidateAndSetDefaults sampleStd sampleSys sampleOracle defaultConfig).1.ConfigPath
        = true :=
  ⟨by decide,
    (validated_paths sampleStd sampleSys sampleOracle defaultConfig (by decide)).2.2.1
      (by decide) (by decide)⟩

set_option maxRecDepth 100000 in
/-- C13 fails as stated: with the relative paths `conf/a8.yaml` and `keys/a8.key`
supplied, validation succeeds and both paths are still relative. -/
theorem validated_paths_counterexample :
    (ValidateAndSetDefaults sampleStd sampleSys sampleOracle relativeConfig).2 = none
    ∧ (ValidateAndSetDefaults sampleStd sampleSys sampleOracle relativeConfig).1.ConfigPath
        = "conf/a8.yaml"
    ∧ IsAbs (ValidateAndSetDefaults sampleStd sampleSys sampleOracle relativeConfig).1.ConfigPath
        = false
    ∧ (ValidateAndSetDefaults sampleStd sampleSys sampleOracle relativeConfig).1.KeyPath
        = "keys/a8.key"
    ∧ IsAbs (ValidateAndSetDefaults sampleStd sampleSys sampleOracle relativeConfig).1.KeyPath
        = false := by
  decide

/-! ## The init script is generated once -/

theorem createInitScript_created (sys : Sys) (cfg : Config)
    (h : cfg.InitScriptCreated = true) : createInitScript sys cfg = (cfg, none) := by
  unfold createInitScript
  rw [if_neg (by simp [h])]

/-- Running the init-script step on a record that agrees, in the fields the step
reads, with the result of an earlier run of the step does not change `InitScript`. -/
theorem createInitScript_stable (sys : Sys) (cfg c : Config)
    (h1 : c.Plugins = cfg.Plugins) (h2 : c.UserName = cfg.UserName)
    (h3 : c.CustomScript = cfg.CustomScript)
    (h4 : c.InitScript = (createInitScript sys cfg).1.InitScript)
    (h5 : c.InitScriptCreated = (createInitScript sys cfg).1.InitScriptCreated) :
    (createInitScript sys c).1.InitScript = c.InitScript := by
  unfold createInitScript at h4 h5 ⊢
  by_cases hc : cfg.Plugins.length > 0 ∧ ¬ cfg.InitScriptCreated
  · rw [if_pos hc] at h4 h5
    simp only at h4 h5
    cases hr : (sys.Create cfg.UserName cfg.CustomScript cfg.Plugins).2 with
    | some e =>
      rw [hr] at h4 h5
      simp only at h4 h5
      have hc2 : c.Plugins.length > 0 ∧ ¬ c.InitScriptCreated := by
        rw [h1, h5]; exact hc
      rw [if_pos hc2]
      simp only [h1, h2, h3, hr]
      exact h4.symm
    | none =>
      rw [hr] at h4 h5
      simp only at h4 h5
      rw [if_neg (by simp [h5])]
  · rw [if_neg hc] at h4 h5
    rw [if_neg (by rw [h1, h5]; exact hc)]

/-- A second `ValidateAndSetDefaults` call on a record, whatever its oracle, leaves
`InitScript` as the first call left it. -/
theorem validate_script_stable (std : Std) (sys : Sys) (o o2 : Oracle) (cfg : Config) :
    (ValidateAndSetDefaults std sys o2 (ValidateAndSetDefaults std sys o cfg).1).1.InitScript
      = (ValidateAndSetDefaults std sys o cfg).1.InitScript := by
  cases hreq2 : checkRequired (ValidateAndSetDefaults std sys o cfg).1 with
  | some e =>
    rcases validate_record_cases std sys o2 (ValidateAndSetDefaults std sys o cfg).1
      with h | ⟨h, -⟩
    · rw [h.1]
    · rw [hreq2] at h; exact absurd h (by simp)
  | none =>
    have hreq : checkRequired cfg = none := by
      rcases validate_record_cases std sys o cfg with h | ⟨h, -⟩
      · rw [h.1] at hreq2; exact absurd hreq2 h.2.2
      · exact h
    have a1 := validate_after_script std sys o cfg hreq .InitScript (Or.inl rfl)
    have a2 := validate_after_script std sys o cfg hreq .InitScriptCreated (Or.inr rfl)
    have b1 := validate_frame std sys o cfg .Plugins (by decide)
    have b2 := validate_frame std sys o cfg .UserName (by decide)
    have b3 := validate_frame std sys o cfg .CustomScript (by decide)
    have a3 := validate_after_script std sys o2 (ValidateAndSetDefaults std sys o cfg).1 hreq2
      .InitScript (Or.inl rfl)
    simp only [get, Value.str.injEq, Value.bool.injEq, Value.strs.injEq] at a1 a2 b1 b2 b3 a3
    rw [a3]
    exact createInitScript_stable sys cfg _ b1 b2 b3 a1 a2

theorem scriptChanges_after (std : Std) (sys : Sys) (os : List Oracle) :
    ∀ (o : Oracle) (cfg : Config),
      scriptChanges std sys os (ValidateAndSetDefaults std sys o cfg).1 = 0 := by
  induction os with
  | nil => intro o cfg; rfl
  | cons o2 os ih =>
    intro o cfg
    unfold scriptChanges
    rw [if_pos (validate_script_stable std sys o o2 cfg), ih o2, Nat.zero_add]

/-- C22: for a record whose `InitScriptCreated` flag is true,
`ValidateAndSetDefaults` does not use the script generator (the call gives the same
result and record with any other generator `other` in its place) and leaves
`InitScript` and `InitScriptCreated` as they were, whether the call succeeds or
fails; when generation runs (required fields present, plugin list not empty, flag
false) and the generator returns no error, the flag is true afterwards; and in any
sequence of `ValidateAndSetDefaults` calls on one record, with the generator held
fixed, at most one call changes `InitScript`. -/
theorem init_script_generated_once (std : Std) (sys : Sys) (o : Oracle) (os : List Oracle)
    (cfg : Config) (other : String → String → List String → String × Option String) :
    (cfg.InitScriptCreated = true →
      ValidateAndSetDefaults std { sys with Create := other } o cfg
          = ValidateAndSetDefaults std sys o cfg
        ∧ (ValidateAndSetDefaults std sys o cfg).1.InitScript = cfg.InitScript
        ∧ (ValidateAndSetDefaults std sys o cfg).1.InitScriptCreated = true)
    ∧ (checkRequired cfg = none → cfg.Plugins.length > 0 → cfg.InitScriptCreated = false →
        (sys.Create cfg.UserName cfg.CustomScript cfg.Plugins).2 = none →
        (ValidateAndSetDefaults std sys o cfg).1.InitScriptCreated = true)
    ∧ scriptChanges std sys (o :: os) cfg ≤ 1 := by
  refine ⟨?_, ?_, ?_⟩
  · intro hc
    refine ⟨?_, ?_, ?_⟩
    · unfold ValidateAndSetDefaults
      rw [createInitScript_created sys cfg hc,
        createInitScript_created { sys with Create := other } cfg hc]
      rfl
    · rcases validate_record_cases std sys o cfg with h | ⟨hreq, -⟩
      · rw [h.1]
      · have a := validate_after_script std sys o cfg hreq .InitScript (Or.inl rfl)
        rw [createInitScript_created sys cfg hc] at a
        simpa only [get, Value.str.injEq] using a
    · rcases validate_record_cases std sys o cfg with h | ⟨hreq, -⟩
      · rw [h.1]; exact hc
      · have a := validate_after_script std sys o cfg hreq .InitScriptCreated (Or.inr rfl)
        rw [createInitScript_created sys cfg hc] at a
        simp only [get, Value.bool.injEq] at a
        rw [a]; exact hc
  · intro hreq hpl hnot hgen
    have a := validate_after_script std sys o cfg hreq .InitScriptCreated (Or.inr rfl)
    simp only [get, Value.bool.injEq] at a
    rw [a]
    unfold createInitScript
    rw [if_pos ⟨hpl, by simp [hnot]⟩]
    simp only [hgen]
  · unfold scriptChanges
    rw [scriptChanges_after]
    split_ifs <;> omega

set_option maxRecDepth 100000 in
/-- Witness for `init_script_generated_once`: on a record that holds a generated
script no call changes `InitScript`, with a generator that always fails in place
of the sample one; on the default record with the script `echo operator` the first
of three calls changes it. -/
theorem init_script_generated_once_witness :
    createdConfig.InitScriptCreated = true
    ∧ (ValidateAndSetDefaults sampleStd sampleSys sampleOracle createdConfig).1.InitScript
        = "echo generated"
    ∧ scriptChanges sampleStd sampleSys [sampleOracle, otherOracle, sampleOracle]
        scriptedConfig = 1
    ∧ scriptChanges sampleStd sampleSys [sampleOracle, otherOracle, sampleOracle]
        scriptedConfig ≤ 1 :=
  ⟨by decide,
   ((init_script_generated_once sampleStd sampleSys sampleOracle [] createdConfig
      (fun _ _ _ => ("", some "no generator"))).1 (by decide)).2.1,
   by decide,
   (init_script_generated_once sampleStd sampleSys sampleOracle [otherOracle, sampleOracle]
      scriptedConfig (fun _ _ _ => ("", some "no generator"))).2.2⟩

/-! ## LogOutputs after validation -/

theorem setLogOutputs_list (sys : Sys) (cfg : Config) :
    (setLogOutputs sys cfg).LogOutputToUploadPath
        = Join [sys.tempDir, cfg.ClusterName ++ ".log"]
    ∧ (setLogOutputs sys cfg).ClusterName = cfg.ClusterName
    ∧ (setLogOutputs sys cfg).LogOutputs
        = if Join [sys.tempDir, cfg.ClusterName ++ ".log"] ∈ cfg.LogOutputs
          then cfg.LogOutputs
          else cfg.LogOutputs ++ [Join [sys.tempDir, cfg.ClusterName ++ ".log"]] := by
  by_cases hm : Join [sys.tempDir, cfg.ClusterName ++ ".log"] ∈ cfg.LogOutputs
  · have hany : cfg.LogOutputs.any
        (fun lv => Join [sys.tempDir, cfg.ClusterName ++ ".log"] == lv) = true := by
      simp only [List.any_eq_true, beq_iff_eq]
      exact ⟨_, hm, rfl⟩
    rw [if_pos hm]
    unfold setLogOutputs
    simp only [hany, Bool.not_true, Bool.false_eq_true, if_false]
    exact ⟨trivial, trivial, trivial⟩
  · have hany : cfg.LogOutputs.any
        (fun lv => Join [sys.tempDir, cfg.ClusterName ++ ".log"] == lv) = false := by
      cases hb : cfg.LogOutputs.any
        (fun lv => Join [sys.tempDir, cfg.ClusterName ++ ".log"] == lv)
      · rfl
      · simp only [List.any_eq_true, beq_iff_eq] at hb
        obtain ⟨x, hx, hxe⟩ := hb
        exact absurd (hxe ▸ hx) hm
    rw [if_neg hm]
    unfold setLogOutputs
    simp only [hany, Bool.not_false, if_true]
    exact ⟨trivial, trivial, trivial⟩

/-- C23: for every record on which `ValidateAndSetDefaults` succeeds,
`LogOutputToUploadPath` is the temporary directory joined with the cluster name
followed by `.log`; the resulting `LogOutputs` is the original list unchanged if
that list contained the path, and otherwise the original list with the path
appended at the end; so the path occurs in the result and the original entries
come first, in their order. -/
theorem log_outputs_appended (std : Std) (sys : Sys) (o : Oracle) (cfg : Config)
    (h : (ValidateAndSetDefaults std sys o cfg).2 = none) :
    (ValidateAndSetDefaults std sys o cfg).1.LogOutputToUploadPath
        = Join [sys.tempDir, (ValidateAndSetDefaults std sys o cfg).1.ClusterName ++ ".log"]
    ∧ (ValidateAndSetDefaults std sys o cfg).1.LogOutputs
        = (if (ValidateAndSetDefaults std sys o cfg).1.LogOutputToUploadPath ∈ cfg.LogOutputs
           then cfg.LogOutputs
           else cfg.LogOutputs ++ [(ValidateAndSetDefaults std sys o cfg).1.LogOutputToUploadPath])
    ∧ (ValidateAndSetDefaults std sys o cfg).1.LogOutputToUploadPath
        ∈ (ValidateAndSetDefaults std sys o cfg).1.LogOutputs
    ∧ cfg.LogOutputs <+: (ValidateAndSetDefaults std sys o cfg).1.LogOutputs := by
  obtain ⟨-, -, -, -, hrec⟩ := validate_ok_record std sys o cfg h
  have k1 := setKey_touches sys o (setLogOutputs sys
    (setConfigPath sys o (nameCluster o (createInitScript sys cfg).1)).1)
    .LogOutputToUploadPath (by decide)
  have k2 := setKey_touches sys o (setLogOutputs sys
    (setConfigPath sys o (nameCluster o (createInitScript sys cfg).1)).1)
    .LogOutputs (by decide)
  have k3 := setKey_touches sys o (setLogOutputs sys
    (setConfigPath sys o (nameCluster o (createInitScript sys cfg).1)).1)
    .ClusterName (by decide)
  have p1 := setConfigPath_touches sys o (nameCluster o (createInitScript sys cfg).1)
    .LogOutputs (by decide)
  have p2 := nameCluster_touches o (createInitScript sys cfg).1 .LogOutputs (by decide)
  have p3 := createInitScript_touches sys cfg .LogOutputs (by decide)
  obtain ⟨l1, l2, l3⟩ := setLogOutputs_list sys
    (setConfigPath sys o (nameCluster o (createInitScript sys cfg).1)).1
  simp only [get, Value.str.injEq, Value.strs.injEq] at k1 k2 k3 p1 p2 p3
  rw [hrec, k1, k2, k3, l1, l2, l3, p1, p2, p3]
  refine ⟨rfl, rfl, ?_, ?_⟩
  · split_ifs with hm
    · exact hm
    · simp
  · split_ifs
    · exact List.prefix_refl _
    · exact List.prefix_append _ _

set_option maxRecDepth 100000 in
/-- Witness for `log_outputs_appended`: the fresh default record is validated
without error and its `LogOutputs` becomes `stderr` followed by the derived path; a
record that lists the derived path already keeps its list. -/
theorem log_outputs_appended_witness :
    (ValidateAndSetDefaults sampleStd sampleSys sampleOracle defaultConfig).2 = none
    ∧ (ValidateAndSetDefaults sampleStd sampleSys sampleOracle defaultConfig).1.LogOutputs
        = (if (ValidateAndSetDefaults sampleStd sampleSys sampleOracle
                defaultConfig).1.LogOutputToUploadPath ∈ defaultConfig.LogOutputs
           then defaultConfig.LogOutputs
           else defaultConfig.LogOutputs ++ [(ValidateAndSetDefaults sampleStd sampleSys
                sampleOracle defaultConfig).1.LogOutputToUploadPath])
    ∧ (ValidateAndSetDefaults sampleStd sampleSys sampleOracle defaultConfig).1.LogOutputs
        = ["stderr", "/tmp/a8-ec2-261104-3ahov29.log"]
    ∧ (ValidateAndSetDefaults sampleStd sampleSys sampleOracle loggedConfig).2 = none
    ∧ (ValidateAndSetDefaults sampleStd sampleSys sampleOracle loggedConfig).1.LogOutputs
        = ["/tmp/a8-ec2-mine.log", "stderr"] :=
  ⟨by decide,
   (log_outputs_appended sampleStd sampleSys sampleOracle defaultConfig (by decide)).2.1,
   by decide, by decide, by decide⟩

/-! ## SSHCommands -/

theorem string_join_cons (a : String) (l : List String) :
    String.join (a :: l) = a ++ String.join l := by
  have h : ∀ (l : List String) (s : String),
      l.foldl (fun r s => r ++ s) s = s ++ l.foldl (fun r s => r ++ s) "" := by
    intro l
    induction l with
    | nil => intro s; simp
    | cons x l ih =>
      intro s
      rw [List.foldl_cons, ih, List.foldl_cons, ih ("" ++ x), String.empty_append,
        String.append_assoc]
  unfold String.join
  rw [List.foldl_cons, h, String.empty_append]

theorem foldl_append_blocks (f : String × Instance → String) (l : List (String × Instance)) :
    ∀ s : String, l.foldl (fun s kv => s ++ f kv) s = s ++ String.join (l.map f) := by
  induction l with
  | nil => intro s; simp [String.join]
  | cons x l ih =>
    intro s
    rw [List.foldl_cons, ih, List.map_cons, string_join_cons, String.append_assoc]

theorem SSHCommands_text (visit : List (String × Instance) → List (String × Instance))
    (cfg : Config) :
    (SSHCommands visit cfg).2
      = sshHeader cfg.KeyPath
        ++ String.join (sshBlocks cfg (visit (mapEntries cfg.Instances))) ++ "\n" := by
  unfold SSHCommands sshBlocks
  simp only
  rw [foldl_append_blocks]

theorem contains_join (b : String) (l : List String) (h : b ∈ l) :
    Contains (String.join l) b := by
  induction l with
  | nil => exact absurd h (List.not_mem_nil _)
  | cons x l ih =>
    rw [string_join_cons]
    rcases List.mem_cons.mp h with rfl | h2
    · have := contains_mid "" b (String.join l)
      rwa [String.empty_append] at this
    · have h3 := ih h2
      unfold Contains at h3 ⊢
      obtain ⟨u, v, huv⟩ := h3
      exact ⟨x.data ++ u, v, by
        rw [String.data_append, ← huv]; simp only [List.append_assoc]⟩

theorem splitChars_cons (sep c : Char) (cs : List Char) :
    splitChars sep (c :: cs)
      = if c = sep then [] :: splitChars sep cs
        else match splitChars sep cs with
          | [] => [[c]]
          | h :: t => (c :: h) :: t := rfl

theorem splitChars_append_sep (sep : Char) (a b : List Char) :
    splitChars sep (a ++ sep :: b) = splitChars sep a ++ splitChars sep b := by
  induction a with
  | nil => rw [List.nil_append, splitChars_cons, if_pos rfl]; rfl
  | cons c a ih =>
    rw [List.cons_append, splitChars_cons, splitChars_cons, ih]
    by_cases hc : c = sep
    · rw [if_pos hc, if_pos hc, List.cons_append]
    · rw [if_neg hc, if_neg hc]
      cases hs : splitChars sep a with
      | nil => exact absurd hs (splitChars_ne_nil sep a)
      | cons h t => rfl

theorem splitChars_no_sep (sep : Char) (a : List Char) (h : sep ∉ a) :
    splitChars sep a = [a] := by
  induction a with
  | nil => rfl
  | cons c a ih =>
    have hc : c ≠ sep := fun e => h (by rw [e]; exact List.mem_cons_self _ _)
    have ha : sep ∉ a := fun e => h (List.mem_cons_of_mem _ e)
    rw [splitChars_cons, if_neg hc, ih ha]

/-- The lines of the text that `SSHCommands` gives for an empty inventory, when the
key path holds no line break. -/
theorem header_lines (keyPath : String) (h : '\n' ∉ keyPath.data) :
    Split (sshHeader keyPath ++ "\n") '\n'
      = ["", "# change SSH key permission", "chmod 400 " ++ keyPath, "", ""] := by
  have e : (sshHeader keyPath ++ "\n").data
      = [] ++ '\n' :: ("# change SSH key permission".data
          ++ '\n' :: (("chmod 400 ".data ++ keyPath.data) ++ '\n' :: ([] ++ '\n' :: []))) := by
    unfold sshHeader
    simp [String.data_append]
  unfold Split
  rw [e, splitChars_append_sep, splitChars_append_sep, splitChars_append_sep,
    splitChars_append_sep]
  rw [splitChars_no_sep '\n' ("chmod 400 ".data ++ keyPath.data)
        (by simp only [List.mem_append, not_or]; exact ⟨by decide, h⟩),
    splitChars_no_sep '\n' "# change SSH key permission".data (by decide)]
  simp [splitChars]
  apply String.ext
  simp [String.data_append]

theorem sshBlock_contains (keyPath userName dns : String) :
    Contains (sshBlock keyPath userName dns) (userName ++ "@" ++ dns)
    ∧ Contains (sshBlock keyPath userName dns) keyPath := by
  unfold sshBlock Contains
  refine ⟨⟨("# ssh into the machine\nssh -o \"StrictHostKeyChecking no\" -i "
      ++ keyPath ++ " ").data, ("\n# download to local machine\nscp -i " ++ keyPath ++ " "
      ++ userName ++ "@" ++ dns ++ ":REMOTE_FILE_PATH LOCAL_FILE_PATH"
      ++ "\n# upload to remote machine\nscp -i " ++ keyPath ++ " LOCAL_FILE_PATH "
      ++ userName ++ "@" ++ dns ++ ":REMOTE_FILE_PATH\n\n").data, ?_⟩,
    ⟨"# ssh into the machine\nssh -o \"StrictHostKeyChecking no\" -i ".data,
      (" " ++ userName ++ "@" ++ dns
      ++ "\n# download to local machine\nscp -i " ++ keyPath ++ " "
      ++ userName ++ "@" ++ dns ++ ":REMOTE_FILE_PATH LOCAL_FILE_PATH"
      ++ "\n# upload to remote machine\nscp -i " ++ keyPath ++ " LOCAL_FILE_PATH "
      ++ userName ++ "@" ++ dns ++ ":REMOTE_FILE_PATH\n\n").data, ?_⟩⟩ <;>
    simp only [String.data_append, List.append_assoc]

theorem join_length_perm (a b : List String) (h : a.Perm b) :
    (String.join a).length = (String.join b).length := by
  induction h with
  | nil => rfl
  | cons x _ ih => rw [string_join_cons, string_join_cons, String.length_append,
      String.length_append, ih]
  | swap x y l =>
    simp only [string_join_cons, String.length_append]
    omega
  | trans _ _ ih1 ih2 => exact ih1.trans ih2

/-- C24 (amended): `SSHCommands` gives the header with `chmod 400` and the key path,
then the command blocks of the inventory entries, one block for each entry, in the
order in which the map range visits the entries, then a line break. The block of
an instance holds the user name, `@` and the public DNS name of the instance, and
the key path, and it occurs in the output. For two records with the same
`KeyPath`, `UserName` and `Instances`, whatever the two orders of the range, the
blocks are the same up to their order and the texts have the same length; the
texts are equal when the orders are. For an empty inventory the output is the
header and the line break: no block, and no line that begins with `ssh` or `scp`
when the key path has no line break. The record is not modified. -/
theorem ssh_commands_text (visit visit2 : List (String × Instance) → List (String × Instance))
    (cfg cfg2 : Config)
    (hv : (visit (mapEntries cfg.Instances)).Perm (mapEntries cfg.Instances)) :
    (SSHCommands visit cfg).2
        = sshHeader cfg.KeyPath
          ++ String.join (sshBlocks cfg (visit (mapEntries cfg.Instances))) ++ "\n"
    ∧ sshHeader cfg.KeyPath
        = "\n# change SSH key permission\nchmod 400 " ++ cfg.KeyPath ++ "\n"
    ∧ (sshBlocks cfg (visit (mapEntries cfg.Instances))).Perm
        (sshBlocks cfg (mapEntries cfg.Instances))
    ∧ (sshBlocks cfg (visit (mapEntries cfg.Instances))).length
        = (mapEntries cfg.Instances).length
    ∧ (∀ kv ∈ mapEntries cfg.Instances,
        Contains (sshBlock cfg.KeyPath cfg.UserName kv.2.PublicDNSName)
          (cfg.UserName ++ "@" ++ kv.2.PublicDNSName)
        ∧ Contains (sshBlock cfg.KeyPath cfg.UserName kv.2.PublicDNSName) cfg.KeyPath
        ∧ Contains (SSHCommands visit cfg).2
            (sshBlock cfg.KeyPath cfg.UserName kv.2.PublicDNSName))
    ∧ (cfg2.KeyPath = cfg.KeyPath → cfg2.UserName = cfg.UserName →
        cfg2.Instances = cfg.Instances →
        (visit2 (mapEntries cfg2.Instances)).Perm (mapEntries cfg2.Instances) →
        (sshBlocks cfg2 (visit2 (mapEntries cfg2.Instances))).Perm
            (sshBlocks cfg (visit (mapEntries cfg.Instances)))
        ∧ (SSHCommands visit2 cfg2).2.length = (SSHCommands visit cfg).2.length
        ∧ (visit2 (mapEntries cfg2.Instances) = visit (mapEntries cfg.Instances) →
            (SSHCommands visit2 cfg2).2 = (SSHCommands visit cfg).2))
    ∧ (mapEntries cfg.Instances = [] →
        (SSHCommands visit cfg).2 = sshHeader cfg.KeyPath ++ "\n"
        ∧ ('\n' ∉ cfg.KeyPath.data →
            ∀ line ∈ Split (SSHCommands visit cfg).2 '\n', ¬ isCommandLine line))
    ∧ (SSHCommands visit cfg).1 = cfg := by
  have hblocks : (sshBlocks cfg (visit (mapEntries cfg.Instances))).Perm
      (sshBlocks cfg (mapEntries cfg.Instances)) := List.Perm.map _ hv
  refine ⟨SSHCommands_text visit cfg, rfl, hblocks, ?_, ?_, ?_, ?_, rfl⟩
  · rw [hblocks.length_eq]
    unfold sshBlocks
    rw [List.length_map]
  · intro kv hkv
    refine ⟨(sshBlock_contains _ _ _).1, (sshBlock_contains _ _ _).2, ?_⟩
    have hm : sshBlock cfg.KeyPath cfg.UserName kv.2.PublicDNSName
        ∈ sshBlocks cfg (visit (mapEntries cfg.Instances)) := by
      rw [hblocks.mem_iff]
      unfold sshBlocks
      exact List.mem_map.mpr ⟨kv, hkv, rfl⟩
    rw [SSHCommands_text]
    exact contains_trans (contains_mid _ _ _) (contains_join _ _ hm)
  · intro h1 h2 h3 hv2
    have hb2 : (sshBlocks cfg2 (visit2 (mapEntries cfg2.Instances))).Perm
        (sshBlocks cfg (visit (mapEntries cfg.Instances))) := by
      have e : ∀ l, sshBlocks cfg2 l = sshBlocks cfg l := by
        intro l; unfold sshBlocks; rw [h1, h2]
      rw [e]
      refine (List.Perm.map _ hv2).trans ?_
      rw [h3]
      exact hblocks.symm
    refine ⟨hb2, ?_, ?_⟩
    · rw [SSHCommands_text, SSHCommands_text, h1]
      simp only [String.length_append]
      rw [join_length_perm _ _ hb2]
    · intro he
      rw [SSHCommands_text, SSHCommands_text, he]
      unfold sshBlocks
      rw [h1, h2]
  · intro he
    have hvis : visit (mapEntries cfg.Instances) = [] := by
      rw [he] at hv ⊢
      exact List.Perm.eq_nil hv
    have ht : (SSHCommands visit cfg).2 = sshHeader cfg.KeyPath ++ "\n" := by
      rw [SSHCommands_text, hvis]
      unfold sshBlocks
      rw [List.map_nil]
      apply String.ext
      simp [String.join, String.data_append]
    refine ⟨ht, ?_⟩
    intro hk line hl
    rw [ht, header_lines _ hk] at hl
    unfold isCommandLine
    simp only [List.mem_cons, List.mem_singleton, List.not_mem_nil, or_false] at hl
    rcases hl with rfl | rfl | rfl | rfl | rfl <;>
      simp [String.data_append, List.cons_prefix_cons]

set_option maxRecDepth 100000 in
/-- Witness for `ssh_commands_text`: a record with two instances, visited in the
reverse of their insertion order, gives the header, the block of the second
instance, the block of the first and a line break; the default record, which has
no instance, gives the header and the line break. -/
theorem ssh_commands_text_witness :
    (List.reverse (mapEntries inventoryConfig.Instances)).Perm
        (mapEntries inventoryConfig.Instances)
    ∧ (sshBlocks inventoryConfig (List.reverse (mapEntries inventoryConfig.Instances))).length
        = (mapEntries inventoryConfig.Instances).length
    ∧ (SSHCommands List.reverse inventoryConfig).2
        = "\n# change SSH key permission\nchmod 400 /tmp/a8.key\n"
          ++ "# ssh into the machine\n"
          ++ "ssh -o \"StrictHostKeyChecking no\" -i /tmp/a8.key ec2-user@b.example.com\n"
          ++ "# download to local machine\n"
          ++ "scp -i /tmp/a8.key ec2-user@b.example.com:REMOTE_FILE_PATH LOCAL_FILE_PATH\n"
          ++ "# upload to remote machine\n"
          ++ "scp -i /tmp/a8.key LOCAL_FILE_PATH ec2-user@b.example.com:REMOTE_FILE_PATH\n\n"
          ++ "# ssh into the machine\n"
          ++ "ssh -o \"StrictHostKeyChecking no\" -i /tmp/a8.key ec2-user@a.example.com\n"
          ++ "# download to local machine\n"
          ++ "scp -i /tmp/a8.key ec2-user@a.example.com:REMOTE_FILE_PATH LOCAL_FILE_PATH\n"
          ++ "# upload to remote machine\n"
          ++ "scp -i /tmp/a8.key LOCAL_FILE_PATH ec2-user@a.example.com:REMOTE_FILE_PATH\n\n"
          ++ "\n"
    ∧ (SSHCommands id defaultConfig).2 = "\n# change SSH key permission\nchmod 400 \n\n" :=
  ⟨List.reverse_perm _,
   (ssh_commands_text List.reverse id inventoryConfig inventoryConfig
      (List.reverse_perm _)).2.2.2.1,
   by decide, by decide⟩

set_option maxRecDepth 100000 in
/-- C24 fails as stated. The text is not a function of `KeyPath`, `UserName` and the
inventory alone: for one record with two instances, two orders of the map range,
each of which Go may take, give two texts. And for an empty inventory the output
can have a line that begins with `ssh`: here `KeyPath` holds a line break. -/
theorem ssh_commands_order_counterexample :
    (SSHCommands id inventoryConfig).2 ≠ (SSHCommands List.reverse inventoryConfig).2
    ∧ (id (mapEntries inventoryConfig.Instances)).Perm (mapEntries inventoryConfig.Instances)
    ∧ (List.reverse (mapEntries inventoryConfig.Instances)).Perm
        (mapEntries inventoryConfig.Instances)
    ∧ mapEntries brokenKeyConfig.Instances = []
    ∧ "ssh -i evil" ∈ Split (SSHCommands id brokenKeyConfig).2 '\n'
    ∧ isCommandLine "ssh -i evil" := by
  refine ⟨by decide, List.Perm.refl _, List.reverse_perm _, by decide, by decide, by decide⟩

end ec2config

namespace eks
open ec2config (Join)

/-! ## deleteS3 -/

/-- C21 fails as stated: with `S3BucketCreate` true and `S3BucketCreateKeep` false,
and an S3 client that fails to empty the bucket, `deleteS3` issues the empty-bucket
call, returns its error, and issues no delete-bucket call. -/
theorem delete_s3_empty_failure_counterexample :
    ownBucketConfig.S3BucketCreate = true ∧ ownBucketConfig.S3BucketCreateKeep = false
    ∧ (deleteS3 ⟨ownBucketConfig, deniedS3⟩).1 = [S3Call.emptyBucket "bucket-1"]
    ∧ S3Call.deleteBucket "bucket-1" ∉ (deleteS3 ⟨ownBucketConfig, deniedS3⟩).1
    ∧ (deleteS3 ⟨ownBucketConfig, deniedS3⟩).2 = some "AccessDenied" := by
  decide

/-- C21 (amended): `deleteS3` issues a call to an S3 helper if and only if
`S3BucketCreate` is true and `S3BucketCreateKeep` is false. In such a state it
issues the empty-bucket call for `S3BucketName` first; when that call returns no
error it issues the delete-bucket call next and returns what that call returns;
when the empty-bucket call returns an error it returns that error and issues no
delete-bucket call. In every other state it issues no call and returns no error. -/
theorem delete_s3_flag_pair (ts : Tester) :
    ((deleteS3 ts).1 ≠ [] ↔
        (ts.cfg.S3BucketCreate = true ∧ ts.cfg.S3BucketCreateKeep = false))
    ∧ (S3Call.emptyBucket ts.cfg.S3BucketName ∈ (deleteS3 ts).1 ↔
        (ts.cfg.S3BucketCreate = true ∧ ts.cfg.S3BucketCreateKeep = false))
    ∧ (S3Call.deleteBucket ts.cfg.S3BucketName ∈ (deleteS3 ts).1 ↔
        (ts.cfg.S3BucketCreate = true ∧ ts.cfg.S3BucketCreateKeep = false
          ∧ ts.s3API.EmptyBucket ts.cfg.S3BucketName = none))
    ∧ (ts.cfg.S3BucketCreate = true → ts.cfg.S3BucketCreateKeep = false →
        ts.s3API.EmptyBucket ts.cfg.S3BucketName = none →
        deleteS3 ts = ([S3Call.emptyBucket ts.cfg.S3BucketName,
                        S3Call.deleteBucket ts.cfg.S3BucketName],
                       ts.s3API.DeleteBucket ts.cfg.S3BucketName))
    ∧ (∀ err, ts.cfg.S3BucketCreate = true → ts.cfg.S3BucketCreateKeep = false →
        ts.s3API.EmptyBucket ts.cfg.S3BucketName = some err →
        deleteS3 ts = ([S3Call.emptyBucket ts.cfg.S3BucketName], some err))
    ∧ (¬ (ts.cfg.S3BucketCreate = true ∧ ts.cfg.S3BucketCreateKeep = false) →
        deleteS3 ts = ([], none)) := by
  unfold deleteS3
  cases hc : ts.cfg.S3BucketCreate <;> cases hk : ts.cfg.S3BucketCreateKeep <;>
    cases he : ts.s3API.EmptyBucket ts.cfg.S3BucketName <;> simp

/-- Witness for `delete_s3_flag_pair`: on a bucket that the tester created and is
not to keep, with an S3 client whose calls succeed, the bucket is emptied and then
deleted; with `S3BucketCreateKeep` set, no call is made. -/
theorem delete_s3_flag_pair_witness :
    deleteS3 ⟨ownBucketConfig, sampleS3⟩
        = ([S3Call.emptyBucket "bucket-1", S3Call.deleteBucket "bucket-1"], none)
    ∧ deleteS3 ⟨{ ownBucketConfig with S3BucketCreateKeep := true }, sampleS3⟩ = ([], none) :=
  ⟨(delete_s3_flag_pair ⟨ownBucketConfig, sampleS3⟩).2.2.2.1 (by decide) (by decide)
      (by decide),
   (delete_s3_flag_pair ⟨{ ownBucketConfig with S3BucketCreateKeep := true }, sampleS3⟩).2.2.2.2.2
      (by decide)⟩

/-! ## uploadToS3 -/

theorem runActions_mem (s3 : S3) (bucket : String) (call : S3Call) :
    ∀ acts : List Action, call ∈ (runActions s3 bucket acts).1 →
      ∃ key localPath, call = S3Call.upload bucket key localPath
        ∧ Action.upload key localPath ∈ acts := by
  intro acts
  induction acts with
  | nil => intro h; exact absurd h (List.not_mem_nil _)
  | cons a rest ih =>
    intro h
    cases a with
    | fail err => exact absurd h (List.not_mem_nil _)
    | upload key localPath =>
      unfold runActions at h
      cases hu : s3.Upload bucket key localPath with
      | some err =>
        rw [hu] at h
        simp only [List.mem_singleton] at h
        exact ⟨key, localPath, h, List.mem_cons_self _ _⟩
      | none =>
        rw [hu] at h
        simp only [List.mem_cons] at h
        rcases h with h | h
        · exact ⟨key, localPath, h, List.mem_cons_self _ _⟩
        · obtain ⟨k, l, h1, h2⟩ := ih h
          exact ⟨k, l, h1, List.mem_cons_of_mem _ h2⟩

theorem guarded_mem (fs : Files) (cfg : Config) (arts : List Artifact) (key localPath : String)
    (h : Action.upload key localPath ∈ guarded fs cfg arts) :
    ∃ a ∈ arts, a.enabled cfg = true ∧ localPath = a.localPath cfg
      ∧ fs.Exist localPath = true ∧ key = Join (cfg.Name :: a.rel) := by
  unfold guarded at h
  simp only [List.mem_map, List.mem_filter, Bool.and_eq_true, Action.upload.injEq] at h
  obtain ⟨a, ⟨ha, he, hx⟩, hk, hl⟩ := h
  exact ⟨a, ha, he, hl.symm, by rw [← hl]; exact hx, hk.symm⟩

theorem guardedOne_mem (fs : Files) (k l key localPath : String)
    (h : Action.upload key localPath ∈ guardedOne fs k l) :
    key = k ∧ localPath = l ∧ fs.Exist localPath = true := by
  unfold guardedOne at h
  split_ifs at h with hx
  · simp only [List.mem_singleton, Action.upload.injEq] at h
    exact ⟨h.1, h.2, by rw [h.2]; exact hx⟩
  · exact absurd h (List.not_mem_nil _)

theorem metricsActions_mem (fs : Files) (cfg : Config) (key localPath : String)
    (h : Action.upload key localPath ∈ metricsActions fs cfg) :
    fs.Exist cfg.Status.ClusterMetricsRawOutputDir = true
    ∧ ∃ e ∈ fs.Walk cfg.Status.ClusterMetricsRawOutputDir,
        e.err = none ∧ e.isDir = false ∧ localPath = e.path
        ∧ key = Join [cfg.Name, "metrics", Base e.path] := by
  unfold metricsActions at h
  split_ifs at h with hx
  · refine ⟨hx, ?_⟩
    simp only [List.mem_filterMap] at h
    obtain ⟨e, he, hm⟩ := h
    refine ⟨e, he, ?_⟩
    cases herr : e.err with
    | some w => rw [herr] at hm; simp at hm
    | none =>
      rw [herr] at hm
      cases hd : e.isDir with
      | true => rw [hd] at hm; simp at hm
      | false =>
        rw [hd] at hm
        simp only [Bool.false_eq_true, if_false, Option.some.injEq, Action.upload.injEq] at hm
        exact ⟨rfl, rfl, hm.2.symm, hm.1.symm⟩
  · exact absurd h (List.not_mem_nil _)

theorem asgActions_mem (fs : Files) (cfg : Config) (key localPath : String)
    (h : Action.upload key localPath ∈ asgActions fs cfg) :
    cfg.IsEnabledAddOnNodeGroups = true
    ∧ fs.Exist localPath = true
    ∧ ∃ kv ∈ cfg.AddOnNodeGroups.ASGs,
        (localPath = kv.2.ASGCFNStackYAMLFilePath
          ∧ key = Join [cfg.Name, "cfn", "add-on-node-groups.asg.cfn." ++ kv.1 ++ ".yaml"])
        ∨ (localPath = kv.2.SSMDocumentCFNStackYAMLFilePath
          ∧ key = Join [cfg.Name, "cfn", "add-on-node-groups.ssm.cfn." ++ kv.1 ++ ".yaml"]) := by
  unfold asgActions at h
  split_ifs at h with hx
  · simp only [List.mem_flatten, List.mem_map] at h
    obtain ⟨l, ⟨kv, hkv, rfl⟩, hm⟩ := h
    rcases List.mem_append.mp hm with hm | hm
    · obtain ⟨h1, h2, h3⟩ := guardedOne_mem fs _ _ _ _ hm
      exact ⟨hx, h3, kv, hkv, Or.inl ⟨h2, h1⟩⟩
    · obtain ⟨h1, h2, h3⟩ := guardedOne_mem fs _ _ _ _ hm
      exact ⟨hx, h3, kv, hkv, Or.inr ⟨h2, h1⟩⟩
  · exact absurd h (List.not_mem_nil _)

theorem mngActions_mem (fs : Files) (cfg : Config) (key localPath : String)
    (h : Action.upload key localPath ∈ mngActions fs cfg) :
    cfg.IsEnabledAddOnManagedNodeGroups = true
    ∧ fs.Exist localPath = true
    ∧ ∃ kv ∈ cfg.AddOnManagedNodeGroups.MNGs,
        (localPath = kv.2.MNGCFNStackYAMLFilePath
          ∧ key = Join [cfg.Name, "cfn",
              "add-on-managed-node-groups.mng.cfn." ++ kv.1 ++ ".yaml"])
        ∨ (localPath = kv.2.RemoteAccessSecurityCFNStackYAMLFilePath
          ∧ key = Join [cfg.Name, "cfn",
              "add-on-managed-node-groups.sg.cfn." ++ kv.1 ++ ".yaml"]) := by
  unfold mngActions at h
  split_ifs at h with hx
  · simp only [List.mem_flatten, List.mem_map] at h
    obtain ⟨l, ⟨kv, hkv, rfl⟩, hm⟩ := h
    rcases List.mem_append.mp hm with hm | hm
    · obtain ⟨h1, h2, h3⟩ := guardedOne_mem fs _ _ _ _ hm
      exact ⟨hx, h3, kv, hkv, Or.inl ⟨h2, h1⟩⟩
    · obtain ⟨h1, h2, h3⟩ := guardedOne_mem fs _ _ _ _ hm
      exact ⟨hx, h3, kv, hkv, Or.inr ⟨h2, h1⟩⟩
  · exact absurd h (List.not_mem_nil _)

/-- An upload of one of the tables is an upload of `fixedArtifacts`. -/
theorem guarded_fixed (fs : Files) (cfg : Config) (arts : List Artifact)
    (hsub : ∀ a ∈ arts, a ∈ fixedArtifacts) (key localPath : String)
    (h : Action.upload key localPath ∈ guarded fs cfg arts) :
    ∃ a ∈ fixedArtifacts, a.enabled cfg = true ∧ localPath = a.localPath cfg
      ∧ fs.Exist localPath = true ∧ key = Join (cfg.Name :: a.rel) := by
  obtain ⟨a, ha, h1⟩ := guarded_mem fs cfg arts key localPath h
  exact ⟨a, hsub a ha, h1⟩

/-- C25 (amended): with an empty `S3BucketName`, `uploadToS3` issues no call and
returns no error. Otherwise every call it issues is an upload to the bucket
`S3BucketName`, which is not empty, and it is of one of four kinds. (1) A file of
the table `fixedArtifacts`: the local path exists, the add-on is enabled, and the
key is the cluster `Name` joined with the relative name of the table row, which
does not depend on the record. (2) A file of an ASG of the node-groups add-on, or
(3) a file of a managed node group: the local path exists and the key is `Name`
joined with `cfn` and a name that holds the name of the ASG or group. (4) A file
that the walk of the metrics directory visits, the directory existing: the key is
`Name` joined with `metrics` and the base name of the local path. -/
theorem upload_to_s3_keys (fs : Files) (ts : Tester) :
    (ts.cfg.S3BucketName = "" → uploadToS3 fs ts = ([], none))
    ∧ ∀ call ∈ (uploadToS3 fs ts).1,
        ts.cfg.S3BucketName ≠ ""
        ∧ ∃ key localPath, call = S3Call.upload ts.cfg.S3BucketName key localPath
          ∧ ((∃ a ∈ fixedArtifacts, a.enabled ts.cfg = true
                ∧ localPath = a.localPath ts.cfg
                ∧ fs.Exist localPath = true ∧ key = Join (ts.cfg.Name :: a.rel))
            ∨ (ts.cfg.IsEnabledAddOnNodeGroups = true ∧ fs.Exist localPath = true
                ∧ ∃ kv ∈ ts.cfg.AddOnNodeGroups.ASGs,
                  (localPath = kv.2.ASGCFNStackYAMLFilePath
                    ∧ key = Join [ts.cfg.Name, "cfn",
                        "add-on-node-groups.asg.cfn." ++ kv.1 ++ ".yaml"])
                  ∨ (localPath = kv.2.SSMDocumentCFNStackYAMLFilePath
                    ∧ key = Join [ts.cfg.Name, "cfn",
                        "add-on-node-groups.ssm.cfn." ++ kv.1 ++ ".yaml"]))
            ∨ (ts.cfg.IsEnabledAddOnManagedNodeGroups = true ∧ fs.Exist localPath = true
                ∧ ∃ kv ∈ ts.cfg.AddOnManagedNodeGroups.MNGs,
                  (localPath = kv.2.MNGCFNStackYAMLFilePath
                    ∧ key = Join [ts.cfg.Name, "cfn",
                        "add-on-managed-node-groups.mng.cfn." ++ kv.1 ++ ".yaml"])
                  ∨ (localPath = kv.2.RemoteAccessSecurityCFNStackYAMLFilePath
                    ∧ key = Join [ts.cfg.Name, "cfn",
                        "add-on-managed-node-groups.sg.cfn." ++ kv.1 ++ ".yaml"]))
            ∨ (fs.Exist ts.cfg.Status.ClusterMetricsRawOutputDir = true
                ∧ ∃ e ∈ fs.Walk ts.cfg.Status.ClusterMetricsRawOutputDir,
                    e.err = none ∧ e.isDir = false ∧ localPath = e.path
                    ∧ key = Join [ts.cfg.Name, "metrics", Base e.path])) := by
  refine ⟨?_, ?_⟩
  · intro h
    unfold uploadToS3
    rw [if_pos h]
  · intro call hc
    unfold uploadToS3 at hc
    by_cases hb : ts.cfg.S3BucketName = ""
    · rw [if_pos hb] at hc
      exact absurd hc (List.not_mem_nil _)
    · rw [if_neg hb] at hc
      refine ⟨hb, ?_⟩
      obtain ⟨key, localPath, hcall, hact⟩ := runActions_mem _ _ _ _ hc
      refine ⟨key, localPath, hcall, ?_⟩
      have fixed : ∀ arts : List Artifact, (∀ a ∈ arts, a ∈ fixedArtifacts) →
          Action.upload key localPath ∈ guarded fs ts.cfg arts →
          ∃ a ∈ fixedArtifacts, a.enabled ts.cfg = true ∧ localPath = a.localPath ts.cfg
            ∧ fs.Exist localPath = true ∧ key = Join (ts.cfg.Name :: a.rel) :=
        fun arts hsub h => guarded_fixed fs ts.cfg arts hsub key localPath h
      unfold uploadPlan at hact
      simp only [List.mem_append] at hact
      rcases hact with
        ((((((((((h | h) | h) | h) | h) | h) | h) | h) | h) | h) | h) | h
      · exact Or.inl (fixed _ (fun a ha => by simp [fixedArtifacts, ha]) h)
      · exact Or.inr (Or.inr (Or.inr (metricsActions_mem fs ts.cfg key localPath h)))
      · exact Or.inl (fixed _ (fun a ha => by simp [fixedArtifacts, ha]) h)
      · exact Or.inr (Or.inl (asgActions_mem fs ts.cfg key localPath h))
      · exact Or.inl (fixed _ (fun a ha => by simp [fixedArtifacts, ha]) h)
      · exact Or.inr (Or.inr (Or.inl (mngActions_mem fs ts.cfg key localPath h)))
      · exact Or.inl (fixed _ (fun a ha => by simp [fixedArtifacts, ha]) h)
      · exact Or.inl (fixed _ (fun a ha => by simp [fixedArtifacts, ha]) h)
      · exact Or.inl (fixed _ (fun a ha => by simp [fixedArtifacts, ha]) h)
      · exact Or.inl (fixed _ (fun a ha => by simp [fixedArtifacts, ha]) h)
      · exact Or.inl (fixed _ (fun a ha => by simp [fixedArtifacts, ha]) h)
      · exact Or.inl (fixed _ (fun a ha => by simp [fixedArtifacts, ha]) h)

set_option maxRecDepth 100000 in
/-- Witness for `upload_to_s3_keys`: with an empty bucket name nothing is uploaded;
with the bucket `bucket-1` the configuration file, the metrics file and the ASG
template are uploaded to that bucket. -/
theorem upload_to_s3_keys_witness :
    uploadToS3 sampleFiles ⟨{ uploadConfig with S3BucketName := "" }, sampleS3⟩ = ([], none)
    ∧ (uploadToS3 sampleFiles ⟨uploadConfig, sampleS3⟩).1
        = [S3Call.upload "bucket-1" "eks-1/aws-k8s-tester-eks.config.yaml" "/tmp/eks.yaml",
           S3Call.upload "bucket-1" "eks-1/metrics/apiserver.json"
             "/tmp/metrics/apiserver.json",
           S3Call.upload "bucket-1" "eks-1/cfn/add-on-node-groups.asg.cfn.asg-a.yaml"
             "/tmp/asg.yaml"] :=
  ⟨(upload_to_s3_keys sampleFiles ⟨{ uploadConfig with S3BucketName := "" }, sampleS3⟩).1
      (by decide),
   by decide⟩

set_option maxRecDepth 100000 in
/-- C25 fails as stated: the key of a metrics file holds the base name of its local
path (two file systems that differ in the name of the metrics file give two keys
for the same record), and the key of an ASG template holds the name of the ASG
(two records that differ in that name give two keys for the same local path). -/
theorem upload_key_depends_counterexample :
    S3Call.upload "bucket-1" "eks-1/metrics/apiserver.json" "/tmp/metrics/apiserver.json"
        ∈ (uploadToS3 sampleFiles ⟨uploadConfig, sampleS3⟩).1
    ∧ S3Call.upload "bucket-1" "eks-1/metrics/etcd.json" "/tmp/metrics/etcd.json"
        ∈ (uploadToS3 otherFiles ⟨uploadConfig, sampleS3⟩).1
    ∧ S3Call.upload "bucket-1" "eks-1/cfn/add-on-node-groups.asg.cfn.asg-a.yaml"
          "/tmp/asg.yaml"
        ∈ (uploadToS3 sampleFiles ⟨uploadConfig, sampleS3⟩).1
    ∧ S3Call.upload "bucket-1" "eks-1/cfn/add-on-node-groups.asg.cfn.asg-b.yaml"
          "/tmp/asg.yaml"
        ∈ (uploadToS3 sampleFiles ⟨renamedConfig, sampleS3⟩).1
    ∧ renamedConfig.Name = uploadConfig.Name := by
  decide

end eks
